import Mathlib

/-!
# Splunk operator: desired-state synthesis

A shallow embedding of `pkg/splunk/enterprise/configuration.go`.

* Go structs become Lean structures with the same field names.
* A function that mutates its argument through a pointer returns the mutated
  value; a function that also returns an `error` returns the pair
  (mutated value, `Option String`), the string being the error message.
* A Go `(value, error)` result whose value is nil on failure is an
  `Except String`.
* Go `int` is `Int`; the one narrowing conversion (`int32(replicas)`) wraps.
* Go `map[string]string` is an association list; a nil map has no entries.
* Functions of the packages `resources`, `spark` and of `names.go`, which this
  file calls but does not define, are the fields of `Deps`.
-/

set_option linter.dupNamespace false

namespace Splunk

/-! ## Data model -/

/-- The instance types the synthesizer branches on. -/
inductive InstanceType where
  | SplunkStandalone
  | SplunkClusterMaster
  | SplunkSearchHead
  | SplunkIndexer
  | SplunkDeployer
  | SplunkLicenseMaster
  deriving DecidableEq, Repr, Inhabited

/-- Instance types of the Spark package (`spark.SparkMaster`, `spark.SparkWorker`). -/
inductive SparkInstanceType where
  | SparkMaster
  | SparkWorker
  deriving DecidableEq, Repr, Inhabited

/-- A Go `[]byte`: one element per byte. -/
abbrev Bytes := List Char

/-- A Go `map[string]string`, as the list of its entries. -/
abbrev StrMap := List (String × String)

/-- The assignment `m[k] = v` on a map. -/
def mapSet (m : StrMap) (k v : String) : StrMap :=
  match m with
  | [] => [(k, v)]
  | (k0, v0) :: rest => if k0 = k then (k, v) :: rest else (k0, v0) :: mapSet rest k v

/-- The loop `for k, v := range src { dst[k] = v }`. -/
def mapMerge (dst src : StrMap) : StrMap :=
  src.foldl (fun m kv => mapSet m kv.1 kv.2) dst

/-- A parsed `resource.Quantity`, kept as the text it was parsed from. -/
structure Quantity where
  text : String
  deriving DecidableEq, Repr, Inhabited

/-- The call `resource.MustParse` on a literal of the source. -/
def MustParse (s : String) : Quantity := ⟨s⟩

/-- A `corev1.ResourceList`: resource name to quantity. -/
abbrev ResourceList := List (String × Quantity)

structure ResourceRequirements where
  Requests : ResourceList := []
  Limits : ResourceList := []
  deriving DecidableEq, Repr, Inhabited

structure ObjectReference where
  Name : String := ""
  Namespace : String := ""
  deriving DecidableEq, Repr, Inhabited

structure EnvVar where
  Name : String
  Value : String
  deriving DecidableEq, Repr, Inhabited

/-- The volume sources the synthesizer creates, and any other one a user supplies. -/
inductive VolumeSource where
  | EmptyDir
  | Secret (SecretName : String)
  | ConfigMap (Name : String)
  | Other (description : String)
  deriving DecidableEq, Repr, Inhabited

structure Volume where
  Name : String
  VolumeSource : VolumeSource
  deriving DecidableEq, Repr, Inhabited

structure VolumeMount where
  Name : String
  MountPath : String
  deriving DecidableEq, Repr, Inhabited

structure ContainerPort where
  Name : String
  ContainerPort : Int
  Protocol : String
  deriving DecidableEq, Repr, Inhabited

structure ServicePort where
  Name : String
  Port : Int
  Protocol : String
  deriving DecidableEq, Repr, Inhabited

/-- A `corev1.Probe` with an exec handler. -/
structure Probe where
  Command : List String
  InitialDelaySeconds : Int
  TimeoutSeconds : Int
  PeriodSeconds : Int
  deriving DecidableEq, Repr, Inhabited

structure Container where
  Image : String := ""
  ImagePullPolicy : String := ""
  Name : String := ""
  Command : List String := []
  Ports : List ContainerPort := []
  VolumeMounts : List VolumeMount := []
  Env : List EnvVar := []
  Resources : ResourceRequirements := {}
  LivenessProbe : Option Probe := none
  ReadinessProbe : Option Probe := none
  deriving DecidableEq, Repr, Inhabited

structure PodSecurityContext where
  RunAsUser : Option Int := none
  FSGroup : Option Int := none
  deriving DecidableEq, Repr, Inhabited

/-- A `corev1.Affinity`, kept as the list of its scheduling terms. -/
structure Affinity where
  terms : List String := []
  deriving DecidableEq, Repr, Inhabited

structure OwnerReference where
  APIVersion : String := ""
  Kind : String := ""
  Name : String := ""
  UID : String := ""
  Controller : Option Bool := none
  deriving DecidableEq, Repr, Inhabited

structure TypeMeta where
  Kind : String := ""
  APIVersion : String := ""
  deriving DecidableEq, Repr, Inhabited

structure ObjectMeta where
  Name : String := ""
  Namespace : String := ""
  UID : String := ""
  Labels : StrMap := []
  Annotations : StrMap := []
  Finalizers : List String := []
  OwnerReferences : List OwnerReference := []
  deriving DecidableEq, Repr, Inhabited

/-- The interface `enterprisev1.MetaObject`: what its getters return.
`Identifier` is the result of `GetIdentifier()`, `ObjectMeta.Namespace` that of
`GetNamespace()`. -/
structure MetaObject where
  TypeMeta : TypeMeta := {}
  ObjectMeta : ObjectMeta := {}
  Identifier : String := ""
  deriving DecidableEq, Repr, Inhabited

structure PodSpec where
  Affinity : Affinity := {}
  SchedulerName : String := ""
  InitContainers : List Container := []
  Containers : List Container := []
  Volumes : List Volume := []
  SecurityContext : Option PodSecurityContext := none
  deriving DecidableEq, Repr, Inhabited

structure PodTemplateSpec where
  ObjectMeta : ObjectMeta := {}
  Spec : PodSpec := {}
  deriving DecidableEq, Repr, Inhabited

structure PersistentVolumeClaimSpec where
  AccessModes : List String := []
  Resources : ResourceRequirements := {}
  StorageClassName : Option String := none
  deriving DecidableEq, Repr, Inhabited

structure PersistentVolumeClaim where
  ObjectMeta : ObjectMeta := {}
  Spec : PersistentVolumeClaimSpec := {}
  deriving DecidableEq, Repr, Inhabited

structure ServiceSpec where
  ServiceType : String := ""
  ClusterIP : String := ""
  Selector : StrMap := []
  Ports : List ServicePort := []
  PublishNotReadyAddresses : Bool := false
  deriving DecidableEq, Repr, Inhabited

structure Service where
  TypeMeta : TypeMeta := {}
  ObjectMeta : ObjectMeta := {}
  Spec : ServiceSpec := {}
  deriving DecidableEq, Repr, Inhabited

structure StatefulSetSpec where
  MatchLabels : StrMap := []
  ServiceName : String := ""
  Replicas : Option Int := none
  PodManagementPolicy : String := ""
  Template : PodTemplateSpec := {}
  VolumeClaimTemplates : List PersistentVolumeClaim := []
  deriving DecidableEq, Repr, Inhabited

structure StatefulSet where
  TypeMeta : TypeMeta := {}
  ObjectMeta : ObjectMeta := {}
  Spec : StatefulSetSpec := {}
  deriving DecidableEq, Repr, Inhabited

structure ConfigMap where
  ObjectMeta : ObjectMeta := {}
  Data : StrMap := []
  deriving DecidableEq, Repr, Inhabited

structure Secret where
  ObjectMeta : ObjectMeta := {}
  Data : List (String × Bytes) := []
  deriving DecidableEq, Repr, Inhabited

/-! ### Custom resource specifications -/

structure CommonSpec where
  Image : String := ""
  ImagePullPolicy : String := ""
  StorageClassName : String := ""
  SchedulerName : String := ""
  Affinity : Affinity := {}
  Resources : ResourceRequirements := {}
  ServiceTemplate : Service := {}
  deriving DecidableEq, Repr, Inhabited

/-- The spec `CommonSplunkSpec`; `Volumes = none` is the nil slice. -/
structure CommonSplunkSpec where
  CommonSpec : CommonSpec := {}
  EtcStorage : String := ""
  VarStorage : String := ""
  Volumes : Option (List Volume) := none
  Defaults : String := ""
  DefaultsURL : String := ""
  LicenseURL : String := ""
  LicenseMasterURL : String := ""
  LicenseMasterRef : ObjectReference := {}
  ClusterMasterURL : String := ""
  IndexerRef : ObjectReference := {}
  deriving DecidableEq, Repr, Inhabited

structure StandaloneSpec where
  CommonSplunkSpec : CommonSplunkSpec := {}
  Replicas : Int := 0
  SparkRef : ObjectReference := {}
  SparkImage : String := ""
  deriving DecidableEq, Repr, Inhabited

structure SearchHeadSpec where
  CommonSplunkSpec : CommonSplunkSpec := {}
  Replicas : Int := 0
  SparkRef : ObjectReference := {}
  SparkImage : String := ""
  deriving DecidableEq, Repr, Inhabited

structure IndexerSpec where
  CommonSplunkSpec : CommonSplunkSpec := {}
  Replicas : Int := 0
  deriving DecidableEq, Repr, Inhabited

structure LicenseMasterSpec where
  CommonSplunkSpec : CommonSplunkSpec := {}
  deriving DecidableEq, Repr, Inhabited

structure Standalone where
  Meta : MetaObject := {}
  Spec : StandaloneSpec := {}
  deriving DecidableEq, Repr, Inhabited

structure SearchHead where
  Meta : MetaObject := {}
  Spec : SearchHeadSpec := {}
  deriving DecidableEq, Repr, Inhabited

structure Indexer where
  Meta : MetaObject := {}
  Spec : IndexerSpec := {}
  deriving DecidableEq, Repr, Inhabited

structure LicenseMaster where
  Meta : MetaObject := {}
  Spec : LicenseMasterSpec := {}
  deriving DecidableEq, Repr, Inhabited

structure SplunkEnterpriseTopology where
  Standalones : Int := 0
  SearchHeads : Int := 0
  Indexers : Int := 0
  SparkWorkers : Int := 0
  deriving DecidableEq, Repr, Inhabited

structure SplunkEnterpriseResources where
  SplunkCPURequest : String := ""
  SplunkMemoryRequest : String := ""
  SplunkCPULimit : String := ""
  SplunkMemoryLimit : String := ""
  SparkCPURequest : String := ""
  SparkMemoryRequest : String := ""
  SparkCPULimit : String := ""
  SparkMemoryLimit : String := ""
  SplunkEtcStorage : String := ""
  SplunkVarStorage : String := ""
  SplunkIndexerStorage : String := ""
  deriving DecidableEq, Repr, Inhabited

/-- The spec `SplunkEnterpriseSpec`; `SplunkVolumes = none` is the nil slice. -/
structure SplunkEnterpriseSpec where
  EnableDFS : Bool := false
  SparkImage : String := ""
  SplunkImage : String := ""
  SplunkVolumes : Option (List Volume) := none
  Defaults : String := ""
  DefaultsURL : String := ""
  LicenseURL : String := ""
  ImagePullPolicy : String := ""
  StorageClassName : String := ""
  SchedulerName : String := ""
  Affinity : Affinity := {}
  Topology : SplunkEnterpriseTopology := {}
  Resources : SplunkEnterpriseResources := {}
  deriving DecidableEq, Repr, Inhabited

/-- The state of the process-wide random generator behind `resources.GenerateSecret`. -/
abbrev Rng := Nat

/-- What `configuration.go` calls but does not define: the naming functions of
`names.go`, the helpers of the packages `resources` and `spark`, the two
character sets of the secret generator, and the order in which the runtime
enumerates the entries of the port map. -/
structure Deps where
  /-- The underlying string of an instance type, as `%s` prints it. -/
  Str : InstanceType → String
  ToString : InstanceType → String
  ToRole : InstanceType → String
  ToKind : InstanceType → String
  GetSplunkServiceName : InstanceType → String → Bool → String
  GetSplunkStatefulsetName : InstanceType → String → String
  GetSplunkSecretsName : String → InstanceType → String
  GetSplunkDefaultsName : String → InstanceType → String
  GetSplunkStatefulsetUrls : String → InstanceType → String → Int → Bool → String
  GetSplunkStatefulsetURL : String → InstanceType → String → Int → Bool → String
  GetSplunkImage : String → String
  GetSparkImage : String → String
  GetSparkServiceName : SparkInstanceType → String → Bool → String
  GetServiceFQDN : String → String → String
  AsOwner : MetaObject → OwnerReference
  GetLabels : String → String → Bool → StrMap
  GetIstioAnnotations : List ContainerPort → StrMap
  AppendPodAntiAffinity : Affinity → String → String → Affinity
  SortContainerPorts : List ContainerPort → List ContainerPort
  SortServicePorts : List ServicePort → List ServicePort
  ParseResourceQuantity : String → String → Except String Quantity
  ValidateCommonSpec : CommonSpec → ResourceRequirements → CommonSpec × Option String
  ValidateImagePullPolicy : String → String × Option String
  GenerateSecret : Rng → Bytes → Nat → Bytes × Rng
  secretBytes : Bytes
  hexBytes : Bytes
  rangePorts : List (String × Int) → List (String × Int)

/-! ## Operations (`configuration.go`) -/

/-- The conversion `int32(n)` of a Go `int`. -/
def int32 (n : Int) : Int := (n + 2147483648) % 4294967296 - 2147483648

/-- The function `getSplunkVolumeClaims`: the two standard volume claims, or the
error of the first storage size that does not parse, tagged with its field. -/
def getSplunkVolumeClaims (d : Deps) (cr : MetaObject) (spec : CommonSplunkSpec)
    (labels : StrMap) : Except String (List PersistentVolumeClaim) :=
  match d.ParseResourceQuantity spec.EtcStorage "1Gi" with
  | .error err => .error ("etcStorage" ++ ": " ++ err)
  | .ok etcStorage =>
    match d.ParseResourceQuantity spec.VarStorage "200Gi" with
    | .error err => .error ("varStorage" ++ ": " ++ err)
    | .ok varStorage =>
      let volumeClaims : List PersistentVolumeClaim := [
        { ObjectMeta := { Name := "etc", Namespace := cr.ObjectMeta.Namespace, Labels := labels },
          Spec := { AccessModes := ["ReadWriteOnce"],
                    Resources := { Requests := [("storage", etcStorage)] } } },
        { ObjectMeta := { Name := "var", Namespace := cr.ObjectMeta.Namespace, Labels := labels },
          Spec := { AccessModes := ["ReadWriteOnce"],
                    Resources := { Requests := [("storage", varStorage)] } } } ]
      if spec.CommonSpec.StorageClassName ≠ "" then
        .ok (volumeClaims.map fun vc =>
          { vc with Spec := { vc.Spec with StorageClassName := some spec.CommonSpec.StorageClassName } })
      else
        .ok volumeClaims

/-- The function `validateCommonSplunkSpec`. -/
def validateCommonSplunkSpec (d : Deps) (spec : CommonSplunkSpec) :
    CommonSplunkSpec × Option String :=
  let spec := { spec with CommonSpec := { spec.CommonSpec with Image := d.GetSplunkImage spec.CommonSpec.Image } }
  let defaultResources : ResourceRequirements :=
    { Requests := [("cpu", MustParse "0.1"), ("memory", MustParse "512Mi")],
      Limits := [("cpu", MustParse "4"), ("memory", MustParse "8Gi")] }
  let spec := match spec.Volumes with
    | none => { spec with Volumes := some [] }
    | some _ => spec
  let r := d.ValidateCommonSpec spec.CommonSpec defaultResources
  ({ spec with CommonSpec := r.1 }, r.2)

/-- The function `ValidateIndexerSpec`. -/
def ValidateIndexerSpec (d : Deps) (spec : IndexerSpec) : IndexerSpec × Option String :=
  let spec := if spec.Replicas = 0 then { spec with Replicas := 1 } else spec
  let r := validateCommonSplunkSpec d spec.CommonSplunkSpec
  ({ spec with CommonSplunkSpec := r.1 }, r.2)

/-- The function `ValidateSearchHeadSpec`. -/
def ValidateSearchHeadSpec (d : Deps) (spec : SearchHeadSpec) : SearchHeadSpec × Option String :=
  let spec := if spec.Replicas < 3 then { spec with Replicas := 3 } else spec
  let spec := { spec with SparkImage := d.GetSparkImage spec.SparkImage }
  let r := validateCommonSplunkSpec d spec.CommonSplunkSpec
  ({ spec with CommonSplunkSpec := r.1 }, r.2)

/-- The function `ValidateStandaloneSpec`. -/
def ValidateStandaloneSpec (d : Deps) (spec : StandaloneSpec) : StandaloneSpec × Option String :=
  let spec := if spec.Replicas = 0 then { spec with Replicas := 1 } else spec
  let spec := { spec with SparkImage := d.GetSparkImage spec.SparkImage }
  let r := validateCommonSplunkSpec d spec.CommonSplunkSpec
  ({ spec with CommonSplunkSpec := r.1 }, r.2)

/-- The function `ValidateLicenseMasterSpec`. -/
def ValidateLicenseMasterSpec (d : Deps) (spec : LicenseMasterSpec) :
    LicenseMasterSpec × Option String :=
  let r := validateCommonSplunkSpec d spec.CommonSplunkSpec
  ({ spec with CommonSplunkSpec := r.1 }, r.2)

/-- The block "default to using a single standalone instance" of
`ValidateSplunkEnterpriseSpec`. -/
def defaultStandalones (spec : SplunkEnterpriseSpec) : SplunkEnterpriseSpec :=
  if spec.Topology.SearchHeads ≤ 0 ∧ spec.Topology.Indexers ≤ 0 then
    if spec.Topology.Standalones ≤ 0 then
      { spec with Topology := { spec.Topology with Standalones := 1 } }
    else spec
  else spec

/-- The block "default to a single spark worker" of `ValidateSplunkEnterpriseSpec`. -/
def defaultSparkWorkers (spec : SplunkEnterpriseSpec) : SplunkEnterpriseSpec :=
  if spec.EnableDFS = true ∧ spec.Topology.SparkWorkers ≤ 0 then
    { spec with Topology := { spec.Topology with SparkWorkers := 1 } }
  else spec

/-- The block "make sure SchedulerName is not empty" of `ValidateSplunkEnterpriseSpec`. -/
def defaultSchedulerName (spec : SplunkEnterpriseSpec) : SplunkEnterpriseSpec :=
  if spec.SchedulerName = "" then { spec with SchedulerName := "default-scheduler" } else spec

/-- The block of `ValidateSplunkEnterpriseSpec` that replaces a nil `SplunkVolumes`
by the empty list. -/
def defaultSplunkVolumes (spec : SplunkEnterpriseSpec) : SplunkEnterpriseSpec :=
  match spec.SplunkVolumes with
  | none => { spec with SplunkVolumes := some [] }
  | some _ => spec

/-- The last two statements of `ValidateSplunkEnterpriseSpec`: the Spark image is
updated, then the image pull policy is validated in place and its error returned. -/
def validateImages (d : Deps) (spec : SplunkEnterpriseSpec) : SplunkEnterpriseSpec × Option String :=
  let spec := { spec with SparkImage := d.GetSparkImage spec.SparkImage }
  let r := d.ValidateImagePullPolicy spec.ImagePullPolicy
  ({ spec with ImagePullPolicy := r.1 }, r.2)

/-- The function `ValidateSplunkEnterpriseSpec`: the spec as it is left behind, and
the error returned. -/
def ValidateSplunkEnterpriseSpec (d : Deps) (spec : SplunkEnterpriseSpec) :
    SplunkEnterpriseSpec × Option String :=
  if spec.Topology.SearchHeads > 0 ∧ spec.Topology.Indexers ≤ 0 then
    (spec, some "You must specify how many indexers the cluster should have")
  else if spec.Topology.SearchHeads ≤ 0 ∧ spec.Topology.Indexers > 0 then
    (spec, some "You must specify how many search heads the cluster should have")
  else
    validateImages d
      (defaultSplunkVolumes (defaultSchedulerName (defaultSparkWorkers (defaultStandalones spec))))

/-- The function `GetSplunkDefaults`. -/
def GetSplunkDefaults (d : Deps) (identifier namespace_ : String) (instanceType : InstanceType)
    (defaults : String) : ConfigMap :=
  { ObjectMeta := { Name := d.GetSplunkDefaultsName identifier instanceType, Namespace := namespace_ },
    Data := [("default.yml", defaults)] }

/-- The function `generateSplunkSecret`. -/
def generateSplunkSecret (d : Deps) (rng : Rng) : Bytes × Rng :=
  d.GenerateSecret rng d.secretBytes 24

/-- The function `generateHECToken`. The four index assignments are in range when
the generator returns the 36 bytes it was asked for. -/
def generateHECToken (d : Deps) (rng : Rng) : Bytes × Rng :=
  let r := d.GenerateSecret rng d.hexBytes 36
  let hecToken := r.1
  let hecToken := hecToken.set 8 '-'
  let hecToken := hecToken.set 13 '-'
  let hecToken := hecToken.set 18 '-'
  let hecToken := hecToken.set 23 '-'
  (hecToken, r.2)

/-- The `fmt.Sprintf` call of `GetSplunkSecrets` that renders `default.yml`. -/
def secretsDefaultYml (hec_token password pass4SymmKey idxc_secret shc_secret : Bytes) : Bytes :=
  "\nsplunk:\n    hec_disabled: 0\n    hec_enableSSL: 0\n    hec_token: \"".toList
    ++ hec_token ++ "\"\n    password: \"".toList
    ++ password ++ "\"\n    pass4SymmKey: \"".toList
    ++ pass4SymmKey ++ "\"\n    idxc:\n        secret: \"".toList
    ++ idxc_secret ++ "\"\n    shc:\n        secret: \"".toList
    ++ shc_secret ++ "\"\n".toList

/-- The function `GetSplunkSecrets`, threading the state of the random generator
through the calls in the order the source makes them. -/
def GetSplunkSecrets (d : Deps) (rng : Rng) (cr : MetaObject) (instanceType : InstanceType)
    (idxcSecret : Bytes) : Secret × Rng :=
  let r0 : Bytes × Rng := if idxcSecret.length = 0 then generateSplunkSecret d rng else (idxcSecret, rng)
  let idxcSecret := r0.1
  let r1 := generateHECToken d r0.2
  let r2 := generateSplunkSecret d r1.2
  let r3 := generateSplunkSecret d r2.2
  let r4 := generateSplunkSecret d r3.2
  let secretData : List (String × Bytes) := [
    ("hec_token", r1.1),
    ("password", r2.1),
    ("pass4SymmKey", r3.1),
    ("idxc_secret", idxcSecret),
    ("shc_secret", r4.1) ]
  let secretData := secretData ++ [("default.yml", secretsDefaultYml r1.1 r2.1 r3.1 idxcSecret r4.1)]
  ({ ObjectMeta := { Name := d.GetSplunkSecretsName cr.Identifier instanceType,
                     Namespace := cr.ObjectMeta.Namespace },
     Data := secretData }, r4.2)

/-- The function `getSplunkPorts`: the entries of the returned map. -/
def getSplunkPorts (instanceType : InstanceType) : List (String × Int) :=
  let result : List (String × Int) := [("splunkweb", 8000), ("splunkd", 8089)]
  match instanceType with
  | .SplunkStandalone =>
    result ++ [("dfccontrol", 17000), ("datarecieve", 19000), ("dfsmaster", 9000),
               ("hec", 8088), ("s2s", 9997)]
  | .SplunkSearchHead =>
    result ++ [("dfccontrol", 17000), ("datarecieve", 19000), ("dfsmaster", 9000)]
  | .SplunkIndexer =>
    result ++ [("hec", 8088), ("s2s", 9997)]
  | _ => result

/-- The function `getSplunkContainerPorts`; the map is enumerated in the order `d.rangePorts`. -/
def getSplunkContainerPorts (d : Deps) (instanceType : InstanceType) : List ContainerPort :=
  (d.rangePorts (getSplunkPorts instanceType)).map fun kv =>
    { Name := kv.1, ContainerPort := int32 kv.2, Protocol := "TCP" }

/-- The function `getSplunkServicePorts`; the map is enumerated in the order `d.rangePorts`. -/
def getSplunkServicePorts (d : Deps) (instanceType : InstanceType) : List ServicePort :=
  (d.rangePorts (getSplunkPorts instanceType)).map fun kv =>
    { Name := kv.1, Port := int32 kv.2, Protocol := "TCP" }

/-- The function `getSplunkVolumeMounts`. -/
def getSplunkVolumeMounts : List VolumeMount :=
  [ { Name := "pvc-etc", MountPath := "/opt/splunk/etc" },
    { Name := "pvc-var", MountPath := "/opt/splunk/var" } ]

/-- The function `addSplunkVolumeToTemplate`. -/
def addSplunkVolumeToTemplate (podTemplateSpec : PodTemplateSpec) (name : String)
    (volumeSource : VolumeSource) : PodTemplateSpec :=
  { podTemplateSpec with
    Spec := { podTemplateSpec.Spec with
      Volumes := podTemplateSpec.Spec.Volumes ++
        [{ Name := "mnt-splunk-" ++ name, VolumeSource := volumeSource }],
      Containers := podTemplateSpec.Spec.Containers.map fun containerSpec =>
        { containerSpec with
          VolumeMounts := containerSpec.VolumeMounts ++
            [{ Name := "mnt-splunk-" ++ name, MountPath := "/mnt/splunk-" ++ name }] } } }

/-- The list `dfsEnvVar` of `addDFCToPodTemplate`, after the slot flag is settled. -/
def dfsEnvVar (sparkMasterHost : String) (slotsEnabled : Bool) : List EnvVar :=
  let l : List EnvVar := [
    { Name := "SPLUNK_ENABLE_DFS", Value := "true" },
    { Name := "SPARK_MASTER_HOST", Value := sparkMasterHost },
    { Name := "SPARK_MASTER_WEBUI_PORT", Value := "8009" },
    { Name := "SPARK_HOME", Value := "/mnt/splunk-spark" },
    { Name := "JAVA_HOME", Value := "/mnt/splunk-jdk" },
    { Name := "SPLUNK_DFW_NUM_SLOTS_ENABLED", Value := "true" } ]
  if !slotsEnabled then
    l.modify (fun e => { e with Value := "false" }) 5
  else l

/-- The host `sparkMasterHost` of `addDFCToPodTemplate`. -/
def sparkMasterHost (d : Deps) (sparkRef : ObjectReference) : String :=
  let host := d.GetSparkServiceName .SparkMaster sparkRef.Name false
  if sparkRef.Namespace ≠ "" then d.GetServiceFQDN sparkRef.Namespace host else host

/-- The function `addDFCToPodTemplate`; the error it returns is always nil. -/
def addDFCToPodTemplate (d : Deps) (podTemplateSpec : PodTemplateSpec) (sparkRef : ObjectReference)
    (sparkImage : String) (imagePullPolicy : String) (slotsEnabled : Bool) :
    PodTemplateSpec × Option String :=
  let containerSpec : Container :=
    { Image := sparkImage,
      ImagePullPolicy := imagePullPolicy,
      Name := "init",
      Command := ["bash", "-c", "cp -r /opt/jdk /mnt && cp -r /opt/spark /mnt"],
      VolumeMounts := [ { Name := "mnt-splunk-jdk", MountPath := "/mnt/jdk" },
                        { Name := "mnt-splunk-spark", MountPath := "/mnt/spark" } ],
      Resources := { Requests := [("cpu", MustParse "0.25"), ("memory", MustParse "128Mi")],
                     Limits := [("cpu", MustParse "1"), ("memory", MustParse "512Mi")] } }
  let p : PodTemplateSpec :=
    { podTemplateSpec with
      Spec := { podTemplateSpec.Spec with
        InitContainers := podTemplateSpec.Spec.InitContainers ++ [containerSpec] } }
  let p := addSplunkVolumeToTemplate p "jdk" .EmptyDir
  let p := addSplunkVolumeToTemplate p "spark" .EmptyDir
  let env := dfsEnvVar (sparkMasterHost d sparkRef) slotsEnabled
  let p : PodTemplateSpec :=
    { p with Spec := { p.Spec with
        Containers := p.Spec.Containers.map fun c => { c with Env := c.Env ++ env } } }
  (p, none)

/-- The value `splunkDefaults` of `updateSplunkPodTemplateWithConfig`, built by the
two conditional `fmt.Sprintf("%s,%s", ...)` calls. -/
def splunkDefaults (spec : CommonSplunkSpec) : String :=
  let splunkDefaults := "/mnt/splunk-secrets/default.yml"
  let splunkDefaults :=
    if spec.DefaultsURL ≠ "" then splunkDefaults ++ "," ++ spec.DefaultsURL else splunkDefaults
  let splunkDefaults :=
    if spec.Defaults ≠ "" then splunkDefaults ++ "," ++ "/mnt/splunk-defaults/default.yml"
    else splunkDefaults
  splunkDefaults

/-- The value `licenseMasterURL` of `updateSplunkPodTemplateWithConfig`, computed when
the instance type is not the license master. -/
def licenseMasterURL (d : Deps) (spec : CommonSplunkSpec) : String :=
  let licenseMasterURL := spec.LicenseMasterURL
  if licenseMasterURL = "" ∧ spec.LicenseMasterRef.Name ≠ "" then
    let licenseMasterURL := d.GetSplunkServiceName .SplunkLicenseMaster spec.LicenseMasterRef.Name false
    if spec.LicenseMasterRef.Namespace ≠ "" then
      d.GetServiceFQDN spec.LicenseMasterRef.Namespace licenseMasterURL
    else licenseMasterURL
  else licenseMasterURL

/-- The value `clusterMasterURL` of `updateSplunkPodTemplateWithConfig`. -/
def clusterMasterURL (d : Deps) (cr : MetaObject) (spec : CommonSplunkSpec)
    (instanceType : InstanceType) : String :=
  if instanceType = .SplunkIndexer then
    d.GetSplunkServiceName .SplunkClusterMaster cr.Identifier false
  else if instanceType ≠ .SplunkClusterMaster then
    let clusterMasterURL := spec.ClusterMasterURL
    if clusterMasterURL = "" ∧ spec.IndexerRef.Name ≠ "" then
      let clusterMasterURL := d.GetSplunkServiceName .SplunkClusterMaster spec.IndexerRef.Name false
      if spec.IndexerRef.Namespace ≠ "" then
        d.GetServiceFQDN spec.IndexerRef.Namespace clusterMasterURL
      else clusterMasterURL
    else clusterMasterURL
  else ""

/-- The list `env` that `updateSplunkPodTemplateWithConfig` assigns to every container. -/
def splunkEnv (d : Deps) (cr : MetaObject) (spec : CommonSplunkSpec)
    (instanceType : InstanceType) (extraEnv : List EnvVar) : List EnvVar :=
  let env : List EnvVar := [
    { Name := "SPLUNK_HOME", Value := "/opt/splunk" },
    { Name := "SPLUNK_START_ARGS", Value := "--accept-license" },
    { Name := "SPLUNK_DEFAULTS_URL", Value := splunkDefaults spec },
    { Name := "SPLUNK_HOME_OWNERSHIP_ENFORCEMENT", Value := "false" },
    { Name := "SPLUNK_ROLE", Value := d.ToRole instanceType } ]
  let env :=
    if spec.LicenseURL ≠ "" then env ++ [{ Name := "SPLUNK_LICENSE_URI", Value := spec.LicenseURL }]
    else env
  let env :=
    if instanceType ≠ .SplunkLicenseMaster then
      if licenseMasterURL d spec ≠ "" then
        env ++ [{ Name := "SPLUNK_LICENSE_MASTER_URL", Value := licenseMasterURL d spec }]
      else env
    else env
  let extraEnv :=
    if clusterMasterURL d cr spec instanceType ≠ "" then
      extraEnv ++ [{ Name := "SPLUNK_CLUSTER_MASTER_URL",
                     Value := clusterMasterURL d cr spec instanceType }]
    else extraEnv
  env ++ extraEnv

/-- The function `updateSplunkPodTemplateWithConfig`. -/
def updateSplunkPodTemplateWithConfig (d : Deps) (podTemplateSpec : PodTemplateSpec)
    (cr : MetaObject) (spec : CommonSplunkSpec) (instanceType : InstanceType)
    (extraEnv : List EnvVar) : PodTemplateSpec :=
  let p : PodTemplateSpec := match spec.Volumes with
    | none => podTemplateSpec
    | some volumes =>
      { podTemplateSpec with
        Spec := { podTemplateSpec.Spec with
          Volumes := podTemplateSpec.Spec.Volumes ++ volumes,
          Containers := podTemplateSpec.Spec.Containers.map fun c =>
            { c with VolumeMounts := c.VolumeMounts ++
                volumes.map fun v => { Name := v.Name, MountPath := "/mnt/" ++ v.Name } } } }
  let p := addSplunkVolumeToTemplate p "secrets"
    (.Secret (d.GetSplunkSecretsName cr.Identifier instanceType))
  let p :=
    if spec.Defaults ≠ "" then
      addSplunkVolumeToTemplate p "defaults"
        (.ConfigMap (d.GetSplunkDefaultsName cr.Identifier instanceType))
    else p
  let runAsUser : Int := 41812
  let fsGroup : Int := 41812
  let p : PodTemplateSpec :=
    { p with Spec := { p.Spec with
        SecurityContext := some { RunAsUser := some runAsUser, FSGroup := some fsGroup } } }
  let livenessProbe : Probe :=
    { Command := ["/sbin/checkstate.sh"],
      InitialDelaySeconds := 300, TimeoutSeconds := 30, PeriodSeconds := 30 }
  let readinessProbe : Probe :=
    { Command := ["/bin/grep", "started", "/opt/container_artifact/splunk-container.state"],
      InitialDelaySeconds := 10, TimeoutSeconds := 5, PeriodSeconds := 5 }
  let env := splunkEnv d cr spec instanceType extraEnv
  { p with Spec := { p.Spec with
      Containers := p.Spec.Containers.map fun c =>
        { c with Resources := spec.CommonSpec.Resources,
                 LivenessProbe := some livenessProbe,
                 ReadinessProbe := some readinessProbe,
                 Env := env } } }

/-- The function `getSplunkStatefulSet`. -/
def getSplunkStatefulSet (d : Deps) (cr : MetaObject) (spec : CommonSplunkSpec)
    (instanceType : InstanceType) (replicas : Int) (extraEnv : List EnvVar) :
    Except String StatefulSet :=
  let replicas32 := int32 replicas
  let ports := d.SortContainerPorts (getSplunkContainerPorts d instanceType)
  let affinity := d.AppendPodAntiAffinity spec.CommonSpec.Affinity cr.Identifier
    (d.ToString instanceType)
  let labels := d.GetLabels cr.Identifier (d.ToString instanceType) false
  let labels := mapSet labels "kind" (d.ToKind instanceType)
  let labels := mapMerge labels cr.ObjectMeta.Labels
  let annotations := d.GetIstioAnnotations ports
  let annotations := mapMerge annotations cr.ObjectMeta.Annotations
  match getSplunkVolumeClaims d cr spec labels with
  | .error err => .error err
  | .ok volumeClaims =>
    let volumeClaims := volumeClaims.map fun vc =>
      { vc with ObjectMeta := { vc.ObjectMeta with Name := "pvc-" ++ vc.ObjectMeta.Name } }
    let statefulSet : StatefulSet :=
      { TypeMeta := { Kind := "StatefulSet", APIVersion := "apps/v1" },
        ObjectMeta := { Name := d.GetSplunkStatefulsetName instanceType cr.Identifier,
                        Namespace := cr.ObjectMeta.Namespace },
        Spec := {
          MatchLabels := d.GetLabels cr.Identifier (d.ToString instanceType) true,
          ServiceName := d.GetSplunkServiceName instanceType cr.Identifier true,
          Replicas := some replicas32,
          PodManagementPolicy := "Parallel",
          Template := {
            ObjectMeta := { Labels := labels, Annotations := annotations },
            Spec := {
              Affinity := affinity,
              SchedulerName := spec.CommonSpec.SchedulerName,
              Containers := [
                { Image := spec.CommonSpec.Image,
                  ImagePullPolicy := spec.CommonSpec.ImagePullPolicy,
                  Name := "splunk",
                  Ports := ports,
                  VolumeMounts := getSplunkVolumeMounts } ] } },
          VolumeClaimTemplates := volumeClaims } }
    let statefulSet : StatefulSet :=
      { statefulSet with
        Spec := { statefulSet.Spec with
          Template := updateSplunkPodTemplateWithConfig d statefulSet.Spec.Template cr spec
            instanceType extraEnv } }
    .ok { statefulSet with
          ObjectMeta := { statefulSet.ObjectMeta with
            OwnerReferences := statefulSet.ObjectMeta.OwnerReferences ++ [d.AsOwner cr] } }

/-- The function `getSearchHeadExtraEnv`. -/
def getSearchHeadExtraEnv (d : Deps) (cr : MetaObject) (replicas : Int) : List EnvVar :=
  [ { Name := "SPLUNK_SEARCH_HEAD_URL",
      Value := d.GetSplunkStatefulsetUrls cr.ObjectMeta.Namespace .SplunkSearchHead cr.Identifier
        replicas false },
    { Name := "SPLUNK_SEARCH_HEAD_CAPTAIN_URL",
      Value := d.GetSplunkStatefulsetURL cr.ObjectMeta.Namespace .SplunkSearchHead cr.Identifier
        0 false } ]

/-- The function `getIndexerExtraEnv`. -/
def getIndexerExtraEnv (d : Deps) (cr : MetaObject) (replicas : Int) : List EnvVar :=
  [ { Name := "SPLUNK_INDEXER_URL",
      Value := d.GetSplunkStatefulsetUrls cr.ObjectMeta.Namespace .SplunkIndexer cr.Identifier
        replicas false } ]

/-- The function `GetStandaloneStatefulSet`. -/
def GetStandaloneStatefulSet (d : Deps) (cr : Standalone) : Except String StatefulSet :=
  match getSplunkStatefulSet d cr.Meta cr.Spec.CommonSplunkSpec .SplunkStandalone
      cr.Spec.Replicas [] with
  | .error err => .error err
  | .ok ss =>
    if cr.Spec.SparkRef.Name ≠ "" then
      let r := addDFCToPodTemplate d ss.Spec.Template cr.Spec.SparkRef cr.Spec.SparkImage
        cr.Spec.CommonSplunkSpec.CommonSpec.ImagePullPolicy (decide (cr.Spec.Replicas > 1))
      match r.2 with
      | some err => .error err
      | none => .ok { ss with Spec := { ss.Spec with Template := r.1 } }
    else .ok ss

/-- The function `GetSearchHeadStatefulSet`. -/
def GetSearchHeadStatefulSet (d : Deps) (cr : SearchHead) : Except String StatefulSet :=
  let env := getSearchHeadExtraEnv d cr.Meta cr.Spec.Replicas
  let env := env ++ [{ Name := "SPLUNK_DEPLOYER_URL",
                       Value := d.GetSplunkServiceName .SplunkDeployer cr.Meta.Identifier false }]
  match getSplunkStatefulSet d cr.Meta cr.Spec.CommonSplunkSpec .SplunkSearchHead
      cr.Spec.Replicas env with
  | .error err => .error err
  | .ok ss =>
    if cr.Spec.SparkRef.Name ≠ "" then
      let r := addDFCToPodTemplate d ss.Spec.Template cr.Spec.SparkRef cr.Spec.SparkImage
        cr.Spec.CommonSplunkSpec.CommonSpec.ImagePullPolicy (decide (cr.Spec.Replicas > 1))
      match r.2 with
      | some err => .error err
      | none => .ok { ss with Spec := { ss.Spec with Template := r.1 } }
    else .ok ss

/-- The function `GetIndexerStatefulSet`. -/
def GetIndexerStatefulSet (d : Deps) (cr : Indexer) : Except String StatefulSet :=
  getSplunkStatefulSet d cr.Meta cr.Spec.CommonSplunkSpec .SplunkIndexer cr.Spec.Replicas
    (getIndexerExtraEnv d cr.Meta cr.Spec.Replicas)

/-- The function `GetClusterMasterStatefulSet`. -/
def GetClusterMasterStatefulSet (d : Deps) (cr : Indexer) : Except String StatefulSet :=
  getSplunkStatefulSet d cr.Meta cr.Spec.CommonSplunkSpec .SplunkClusterMaster 1
    (getIndexerExtraEnv d cr.Meta cr.Spec.Replicas)

/-- The function `GetDeployerStatefulSet`. -/
def GetDeployerStatefulSet (d : Deps) (cr : SearchHead) : Except String StatefulSet :=
  getSplunkStatefulSet d cr.Meta cr.Spec.CommonSplunkSpec .SplunkDeployer 1
    (getSearchHeadExtraEnv d cr.Meta cr.Spec.Replicas)

/-- The function `GetLicenseMasterStatefulSet`. -/
def GetLicenseMasterStatefulSet (d : Deps) (cr : LicenseMaster) : Except String StatefulSet :=
  getSplunkStatefulSet d cr.Meta cr.Spec.CommonSplunkSpec .SplunkLicenseMaster 1 []

/-- The function `GetSplunkService`. -/
def GetSplunkService (d : Deps) (cr : MetaObject) (spec : CommonSpec)
    (instanceType : InstanceType) (isHeadless : Bool) : Service :=
  let service : Service :=
    if isHeadless then { Spec := { ClusterIP := "None" } } else spec.ServiceTemplate
  let service := { service with TypeMeta := { Kind := "Service", APIVersion := "v1" } }
  let service := { service with
    ObjectMeta := { service.ObjectMeta with
      Name := d.GetSplunkServiceName instanceType cr.Identifier isHeadless,
      Namespace := cr.ObjectMeta.Namespace } }
  let service := { service with
    Spec := { service.Spec with
      Selector := d.GetLabels cr.Identifier (d.ToString instanceType) true,
      Ports := d.SortServicePorts (getSplunkServicePorts d instanceType) } }
  let labels := mapMerge service.ObjectMeta.Labels
    (d.GetLabels cr.Identifier (d.Str instanceType ++ "-" ++ "service") false)
  let labels := mapMerge labels cr.ObjectMeta.Labels
  let annotations := mapMerge service.ObjectMeta.Annotations cr.ObjectMeta.Annotations
  let service := { service with
    ObjectMeta := { service.ObjectMeta with Labels := labels, Annotations := annotations } }
  let service :=
    if instanceType = .SplunkDeployer ∨ (instanceType = .SplunkSearchHead ∧ isHeadless = true) then
      { service with Spec := { service.Spec with PublishNotReadyAddresses := true } }
    else service
  { service with
    ObjectMeta := { service.ObjectMeta with
      OwnerReferences := service.ObjectMeta.OwnerReferences ++ [d.AsOwner cr] } }

/-! ## Example inputs -/

/-- The underlying string of each instance type in the example helpers. -/
def sampleStr : InstanceType → String
  | .SplunkStandalone => "standalone"
  | .SplunkClusterMaster => "cluster-master"
  | .SplunkSearchHead => "search-head"
  | .SplunkIndexer => "indexer"
  | .SplunkDeployer => "deployer"
  | .SplunkLicenseMaster => "license-master"

/-- One concrete choice of the helpers that `configuration.go` imports, used to
evaluate the definitions on examples: object names are built from the identifier
and the instance type, a storage size parses unless it is the text `bad`, and the
map of ports is enumerated in the order it was filled. -/
def sampleDeps : Deps where
  Str := sampleStr
  ToString := sampleStr
  ToRole := fun t => "splunk_" ++ sampleStr t
  ToKind := fun t => sampleStr t
  GetSplunkServiceName := fun t identifier isHeadless =>
    "splunk-" ++ identifier ++ "-" ++ sampleStr t ++ (if isHeadless then "-headless" else "-service")
  GetSplunkStatefulsetName := fun t identifier => "splunk-" ++ identifier ++ "-" ++ sampleStr t
  GetSplunkSecretsName := fun identifier t => "splunk-" ++ identifier ++ "-" ++ sampleStr t ++ "-secrets"
  GetSplunkDefaultsName := fun identifier t => "splunk-" ++ identifier ++ "-" ++ sampleStr t ++ "-defaults"
  GetSplunkStatefulsetUrls := fun ns t identifier _ _ =>
    "splunk-" ++ identifier ++ "-" ++ sampleStr t ++ "-0." ++ ns
  GetSplunkStatefulsetURL := fun ns t identifier _ _ =>
    "splunk-" ++ identifier ++ "-" ++ sampleStr t ++ "-0." ++ ns
  GetSplunkImage := fun image => if image = "" then "splunk/splunk" else image
  GetSparkImage := fun image => if image = "" then "splunk/spark" else image
  GetSparkServiceName := fun _ identifier _ => "splunk-" ++ identifier ++ "-spark-master-service"
  GetServiceFQDN := fun ns name => name ++ "." ++ ns ++ ".svc.cluster.local"
  AsOwner := fun cr =>
    { APIVersion := cr.TypeMeta.APIVersion, Kind := cr.TypeMeta.Kind,
      Name := cr.ObjectMeta.Name, UID := cr.ObjectMeta.UID, Controller := some true }
  GetLabels := fun identifier typeLabel _ =>
    [("app.kubernetes.io/instance", identifier), ("app.kubernetes.io/name", typeLabel)]
  GetIstioAnnotations := fun _ => []
  AppendPodAntiAffinity := fun a identifier typeLabel =>
    { terms := a.terms ++ [identifier ++ "/" ++ typeLabel] }
  SortContainerPorts := fun l => l
  SortServicePorts := fun l => l
  ParseResourceQuantity := fun s dflt =>
    if s = "" then .ok ⟨dflt⟩ else if s = "bad" then .error "invalid quantity" else .ok ⟨s⟩
  ValidateCommonSpec := fun s _ => (s, none)
  ValidateImagePullPolicy := fun s =>
    if s = "" then ("IfNotPresent", none)
    else if s = "Always" ∨ s = "IfNotPresent" then (s, none)
    else (s, some "ImagePullPolicy must be one of \"Always\" or \"IfNotPresent\"")
  GenerateSecret := fun rng _ n => (List.replicate n 'a', rng + 1)
  secretBytes := "abcdefghijklmnopqrstuvwxyz0123456789".toList
  hexBytes := "0123456789ABCDEF".toList
  rangePorts := fun l => l

/-- A parent object named `s1` in namespace `test`. -/
def sampleCR : MetaObject :=
  { TypeMeta := { Kind := "SplunkEnterprise", APIVersion := "enterprise.splunk.com/v1alpha2" },
    ObjectMeta := { Name := "s1", Namespace := "test", UID := "uid-1" },
    Identifier := "s1" }

/-- A topology that asks for search heads only. -/
def sampleSearchHeadsOnly : SplunkEnterpriseSpec :=
  { Topology := { SearchHeads := 3, Indexers := 0 } }

/-- A topology that asks for indexers only. -/
def sampleIndexersOnly : SplunkEnterpriseSpec :=
  { Topology := { SearchHeads := 0, Indexers := 2 } }

/-- A topology with no tier requested at all. -/
def sampleEmptyTopology : SplunkEnterpriseSpec := {}

/-- A topology with both clustered tiers requested. -/
def sampleCluster : SplunkEnterpriseSpec :=
  { Topology := { SearchHeads := 3, Indexers := 2, Standalones := 0 } }

/-! ## Vocabulary of the statements -/

/-- The entries of an environment that carry the given variable name, in order. -/
def envNamed (name : String) (env : List EnvVar) : List EnvVar :=
  env.filter fun e => e.Name = name

/-- The environments of the application containers of a stateful set, in order. -/
def containerEnvs (ss : StatefulSet) : List (List EnvVar) :=
  ss.Spec.Template.Spec.Containers.map fun c => c.Env

/-- The same standalone resource with `SparkRef.Name` emptied. -/
def Standalone.withoutSpark (cr : Standalone) : Standalone :=
  { cr with Spec := { cr.Spec with SparkRef := { cr.Spec.SparkRef with Name := "" } } }

/-- The same search-head resource with `SparkRef.Name` emptied. -/
def SearchHead.withoutSpark (cr : SearchHead) : SearchHead :=
  { cr with Spec := { cr.Spec with SparkRef := { cr.Spec.SparkRef with Name := "" } } }

/-- The defaults search path as the specification words it: the secrets bundle
always and first, the remote URL when configured, the inline-defaults mount when
configured and last. -/
def defaultsEntries (spec : CommonSplunkSpec) : List String :=
  ["/mnt/splunk-secrets/default.yml"]
    ++ (if spec.DefaultsURL ≠ "" then [spec.DefaultsURL] else [])
    ++ (if spec.Defaults ≠ "" then ["/mnt/splunk-defaults/default.yml"] else [])

/-- A standalone resource with two replicas that refers to the Spark cluster `s1`. -/
def sampleStandaloneDFS : Standalone :=
  { Meta := sampleCR,
    Spec := { Replicas := 2, SparkRef := { Name := "s1", Namespace := "test" },
              SparkImage := "splunk/spark" } }

/-- A search-head resource with three replicas that refers to the Spark cluster `s1`. -/
def sampleSearchHeadDFS : SearchHead :=
  { Meta := sampleCR,
    Spec := { Replicas := 3, SparkRef := { Name := "s1" }, SparkImage := "splunk/spark" } }

/-- A pod template with two application containers. -/
def samplePod : PodTemplateSpec :=
  { Spec := { Containers := [{ Name := "splunk" }, { Name := "sidecar" }] } }

/-- A spec that overrides the cluster-master URL and also names an indexer cluster. -/
def sampleClusterMasterOverride : CommonSplunkSpec :=
  { ClusterMasterURL := "https://cm.example.com:8089",
    IndexerRef := { Name := "idx", Namespace := "other" } }

/-- A spec that overrides the license-master URL and also names a license master. -/
def sampleLicenseOverride : CommonSplunkSpec :=
  { LicenseMasterURL := "https://lm.example.com:8089",
    LicenseMasterRef := { Name := "lm", Namespace := "other" } }

/-- A spec that names the license master `lm` of its own namespace. -/
def sampleLicenseRef : CommonSplunkSpec :=
  { LicenseMasterRef := { Name := "lm" } }

/-- A spec that names the license master `lm` of the namespace `other`. -/
def sampleLicenseRefOther : CommonSplunkSpec :=
  { LicenseMasterRef := { Name := "lm", Namespace := "other" } }

/-- An indexer resource whose spec sets both the cluster-master URL and the indexer
reference. -/
def sampleIndexer : Indexer :=
  { Meta := sampleCR, Spec := { CommonSplunkSpec := sampleClusterMasterOverride, Replicas := 3 } }

/-- A license-master resource whose spec sets both the license-master URL and the
license-master reference. -/
def sampleLicenseMaster : LicenseMaster :=
  { Meta := sampleCR, Spec := { CommonSplunkSpec := sampleLicenseOverride } }

/-- A spec with a remote defaults URL and inline defaults. -/
def sampleDefaultsBoth : CommonSplunkSpec :=
  { DefaultsURL := "https://example.com/defaults.yml", Defaults := "splunk:" }

/-! ### Ports -/

/-- The order by port number on container ports. -/
def containerPortLE (a b : ContainerPort) : Prop := a.ContainerPort ≤ b.ContainerPort

instance : DecidableRel containerPortLE :=
  fun a b => inferInstanceAs (Decidable (a.ContainerPort ≤ b.ContainerPort))

/-- The order by port number on service ports. -/
def servicePortLE (a b : ServicePort) : Prop := a.Port ≤ b.Port

instance : DecidableRel servicePortLE :=
  fun a b => inferInstanceAs (Decidable (a.Port ≤ b.Port))

/-- Modelled from the spec: `resources.SortContainerPorts`, which `configuration.go`
calls and no source file defines. The specification asks that ports be "produced in
a stable sorted order"; the model is the stable insertion sort by port number. -/
def SortContainerPorts (ports : List ContainerPort) : List ContainerPort :=
  List.insertionSort containerPortLE ports

/-- Modelled from the spec: `resources.SortServicePorts`, which `configuration.go`
calls and no source file defines. The specification asks that ports be "produced in
a stable sorted order"; the model is the stable insertion sort by port number. -/
def SortServicePorts (ports : List ServicePort) : List ServicePort :=
  List.insertionSort servicePortLE ports

/-- The container port of one entry of the port map, as `getSplunkContainerPorts`
builds it. -/
def toContainerPort (kv : String × Int) : ContainerPort :=
  { Name := kv.1, ContainerPort := int32 kv.2, Protocol := "TCP" }

/-- The service port of one entry of the port map, as `getSplunkServicePorts` builds it. -/
def toServicePort (kv : String × Int) : ServicePort :=
  { Name := kv.1, Port := int32 kv.2, Protocol := "TCP" }

/-- The example helpers with the modelled sorts, on a runtime that enumerates the
port map backwards. -/
def sortingDeps : Deps :=
  { sampleDeps with
    SortContainerPorts := SortContainerPorts,
    SortServicePorts := SortServicePorts,
    rangePorts := List.reverse }

/-- The example helpers with the modelled sorts, on a runtime that enumerates the
port map in the order it was filled. -/
def sortingDepsForward : Deps :=
  { sampleDeps with
    SortContainerPorts := SortContainerPorts,
    SortServicePorts := SortServicePorts }

/-- The port lists of the application containers of a stateful set, in order. -/
def containerPorts (ss : StatefulSet) : List (List ContainerPort) :=
  ss.Spec.Template.Spec.Containers.map fun c => c.Ports

instance : IsTotal ContainerPort containerPortLE :=
  ⟨fun a b => le_total a.ContainerPort b.ContainerPort⟩

instance : IsTrans ContainerPort containerPortLE :=
  ⟨fun a b c (hab : a.ContainerPort ≤ b.ContainerPort) (hbc : b.ContainerPort ≤ c.ContainerPort) =>
    le_trans hab hbc⟩

instance : IsTotal ServicePort servicePortLE :=
  ⟨fun a b => le_total a.Port b.Port⟩

instance : IsTrans ServicePort servicePortLE :=
  ⟨fun a b c (hab : a.Port ≤ b.Port) (hbc : b.Port ≤ c.Port) => le_trans hab hbc⟩

/-- What the statements about port order ask of the environment of a call: the
runtime enumerates the port map in some order (a permutation of its entries), and
each of the two sort helpers returns its argument rearranged in non-decreasing order
of port number. -/
def SortsPorts (d : Deps) : Prop :=
  (∀ m, (d.rangePorts m).Perm m) ∧
  (∀ l, (d.SortContainerPorts l).Perm l ∧ (d.SortContainerPorts l).Pairwise containerPortLE) ∧
  (∀ l, (d.SortServicePorts l).Perm l ∧ (d.SortServicePorts l).Pairwise servicePortLE)

/-! ### Secrets -/

/-- The map index `data[key]` on the data of a secret. -/
def dataGet (data : List (String × Bytes)) (key : String) : Option Bytes :=
  match data with
  | [] => none
  | (k, v) :: rest => if k = key then some v else dataGet rest key

/-- The positions at which `generateHECToken` writes a dash. -/
def hecDashPositions : List Nat := [8, 13, 18, 23]

/-! ### Reading `default.yml` back -/

/-- The double quote that closes a quoted scalar. -/
def quoteChar : Char := Char.ofNat 34

/-- Whether a byte is one the reader takes as itself inside a double-quoted scalar:
a printable ASCII character (0x20 to 0x7E) other than the double quote and the
backslash. Inside a double-quoted YAML scalar on one line each of these stands for
itself; control bytes, line breaks, escapes and bytes outside ASCII are not among
them. -/
def plainChar (c : Char) : Bool :=
  decide (32 ≤ c.toNat) && decide (c.toNat ≤ 126) && c != quoteChar && c != Char.ofNat 92

/-- Whether every byte of a value is a printable ASCII character other than the
double quote and the backslash. -/
def plainBytes (v : Bytes) : Bool := v.all plainChar

/-- The reader consumes the given fixed text from the front of the document. -/
def expectText (text doc : Bytes) : Option Bytes :=
  if text.isPrefixOf doc then some (doc.drop text.length) else none

/-- The reader takes the bytes of a double-quoted scalar up to the closing quote,
which it leaves in place. It fails on an unterminated scalar and on every byte that
is not a printable ASCII character or is a backslash: it interprets no escape and no
line folding, and it refuses the control bytes and the bytes outside ASCII. -/
def readScalar : Bytes → Option (Bytes × Bytes)
  | [] => none
  | c :: rest =>
    if c = quoteChar then some ([], c :: rest)
    else if plainChar c then
      match readScalar rest with
      | none => none
      | some (v, tail) => some (c :: v, tail)
    else none

/-- The five credentials read back from a `default.yml` document. -/
structure Credentials where
  hec_token : Bytes
  password : Bytes
  pass4SymmKey : Bytes
  idxc_secret : Bytes
  shc_secret : Bytes
  deriving DecidableEq, Repr

/-- A reader for the part of YAML that the document of `GetSplunkSecrets` uses; the
repository has no reader of its own. It accepts the fixed keys of the format string
around five double-quoted scalars of printable ASCII characters, and nothing after
them, and refuses every other document. On a document it accepts, the five values it
returns are the values of these keys in the YAML reading of the document. -/
def parseDefaultYml (doc : Bytes) : Option Credentials :=
  match expectText "\nsplunk:\n    hec_disabled: 0\n    hec_enableSSL: 0\n    hec_token: \"".toList doc with
  | none => none
  | some doc =>
  match readScalar doc with
  | none => none
  | some (hec_token, doc) =>
  match expectText "\"\n    password: \"".toList doc with
  | none => none
  | some doc =>
  match readScalar doc with
  | none => none
  | some (password, doc) =>
  match expectText "\"\n    pass4SymmKey: \"".toList doc with
  | none => none
  | some doc =>
  match readScalar doc with
  | none => none
  | some (pass4SymmKey, doc) =>
  match expectText "\"\n    idxc:\n        secret: \"".toList doc with
  | none => none
  | some doc =>
  match readScalar doc with
  | none => none
  | some (idxc_secret, doc) =>
  match expectText "\"\n    shc:\n        secret: \"".toList doc with
  | none => none
  | some doc =>
  match readScalar doc with
  | none => none
  | some (shc_secret, doc) =>
  match expectText "\"\n".toList doc with
  | none => none
  | some doc =>
    if doc = [] then
      some { hec_token := hec_token, password := password, pass4SymmKey := pass4SymmKey,
             idxc_secret := idxc_secret, shc_secret := shc_secret }
    else none

/-- The credentials a secret stores under its five keys, when it has them all. -/
def storedCredentials (s : Secret) : Option Credentials :=
  match dataGet s.Data "hec_token", dataGet s.Data "password", dataGet s.Data "pass4SymmKey",
      dataGet s.Data "idxc_secret", dataGet s.Data "shc_secret" with
  | some a, some b, some c, some e, some f =>
    some { hec_token := a, password := b, pass4SymmKey := c, idxc_secret := e, shc_secret := f }
  | _, _, _, _, _ => none

/-- The credentials read back from the `default.yml` entry of a secret. -/
def parsedCredentials (s : Secret) : Option Credentials :=
  match dataGet s.Data "default.yml" with
  | none => none
  | some doc => parseDefaultYml doc

/-- The five credentials of one call of `GetSplunkSecrets`, drawn from the random
generator in the order of the source: the cluster secret first (unless it is
overridden), then the HEC token, the password, pass4SymmKey and the search-head
cluster secret. -/
def secretValues (d : Deps) (rng : Rng) (idxcSecret : Bytes) : Credentials :=
  let r0 : Bytes × Rng :=
    if idxcSecret.length = 0 then generateSplunkSecret d rng else (idxcSecret, rng)
  let r1 := generateHECToken d r0.2
  let r2 := generateSplunkSecret d r1.2
  let r3 := generateSplunkSecret d r2.2
  let r4 := generateSplunkSecret d r3.2
  { hec_token := r1.1, password := r2.1, pass4SymmKey := r3.1, idxc_secret := r0.1,
    shc_secret := r4.1 }

/-- An override of the cluster secret that contains a double quote. -/
def sampleQuotedSecret : Bytes := ['a', quoteChar, 'b']

/-- A standalone resource with a single replica that refers to the Spark cluster `s1`. -/
def sampleStandaloneSingle : Standalone :=
  { Meta := sampleCR,
    Spec := { Replicas := 1, SparkRef := { Name := "s1" }, SparkImage := "splunk/spark" } }

/-! ## Reconciliation controller (`searchheadcluster_controller.go`) -/

/-- The map index `m[key]` with its presence flag, on a `map[string]string`. -/
def mapGet (m : StrMap) (key : String) : Option String :=
  match m with
  | [] => none
  | (k, v) :: rest => if k = key then some v else mapGet rest key

structure NamespacedName where
  Namespace : String := ""
  Name : String := ""
  deriving DecidableEq, Repr, Inhabited

/-- A reconcile request `ctrl.Request`. -/
structure Request where
  NamespacedName : NamespacedName := {}
  deriving DecidableEq, Repr, Inhabited

/-- A reconcile result `ctrl.Result`; `RequeueAfter` is a duration in nanoseconds. -/
structure Result where
  Requeue : Bool := false
  RequeueAfter : Int := 0
  deriving DecidableEq, Repr, Inhabited

/-- A Go `error`: one the API server answered with, one wrapped with a message by
`errors.Wrap`, or any other one. -/
inductive Error where
  | api (message : String) (notFound : Bool)
  | wrap (message : String) (cause : Error)
  | other (message : String)
  deriving DecidableEq, Repr, Inhabited

/-- The text `err.Error()`. -/
def Error.text : Error → String
  | .api message _ => message
  | .wrap message cause => message ++ ": " ++ cause.text
  | .other message => message

/-- The custom resource `enterprisev4.SearchHeadCluster`, as far as `Reconcile`
reads it: its metadata. -/
structure SearchHeadCluster where
  TypeMeta : TypeMeta := {}
  ObjectMeta : ObjectMeta := {}
  deriving DecidableEq, Repr, Inhabited

/-- What one pass of `Reconcile` does to the world outside, in order. -/
inductive Event where
  | counterInc (req : Request)
  | logInfo (message : String)
  | get (name : NamespacedName)
  | applySearchHeadCluster (cr : SearchHeadCluster)
  deriving DecidableEq, Repr, Inhabited

/-- What `searchheadcluster_controller.go` uses and does not define: the read of the
API client, the test `k8serrors.IsNotFound`, the function
`enterprise.ApplySearchHeadCluster` (which creates and updates the child objects),
the name of the pause annotation and the delay `pauseRetryDelay`. -/
structure Controller where
  Get : NamespacedName → Except Error SearchHeadCluster
  IsNotFound : Error → Bool
  ApplySearchHeadCluster : SearchHeadCluster → Result × Option Error
  SearchHeadClusterPausedAnnotation : String
  pauseRetryDelay : Int

/-- The method `SearchHeadClusterReconciler.Reconcile`: the result and error it
returns, and the events of the pass. -/
def Reconcile (k : Controller) (req : Request) : (Result × Option Error) × List Event :=
  let events : List Event :=
    [.counterInc req, .logInfo "start", .get req.NamespacedName]
  match k.Get req.NamespacedName with
  | .error err =>
    if k.IsNotFound err = true then
      (({}, none), events)
    else
      (({}, some (.wrap "could not load standalone data" err)), events)
  | .ok cr =>
    let annotations := cr.ObjectMeta.Annotations
    let applied : (Result × Option Error) × List Event :=
      (k.ApplySearchHeadCluster cr, events ++ [.applySearchHeadCluster cr])
    if annotations ≠ [] then
      if (mapGet annotations k.SearchHeadClusterPausedAnnotation).isSome = true then
        (({ Requeue := true, RequeueAfter := k.pauseRetryDelay }, none), events)
      else applied
    else applied

/-- Whether an event is a call of `enterprise.ApplySearchHeadCluster`. -/
def Event.isApply : Event → Bool
  | .applySearchHeadCluster _ => true
  | _ => false

/-- A search-head cluster `shc` that carries the pause annotation with an empty value. -/
def samplePaused : SearchHeadCluster :=
  { ObjectMeta := { Name := "shc", Namespace := "test",
                    Annotations := [("owner", "team"), ("searchheadcluster.enterprise.splunk.com/paused", "")] } }

/-- A controller whose client finds the paused cluster `test/shc` and nothing else,
and whose apply step asks for nothing further. -/
def sampleController : Controller where
  Get := fun name =>
    if name = { Namespace := "test", Name := "shc" } then .ok samplePaused
    else .error (.api "not found" true)
  IsNotFound := fun err => match err with
    | .api _ notFound => notFound
    | _ => false
  ApplySearchHeadCluster := fun _ => ({}, none)
  SearchHeadClusterPausedAnnotation := "searchheadcluster.enterprise.splunk.com/paused"
  pauseRetryDelay := 10000000000

/-- A controller whose client cannot reach the API server. -/
def sampleUnreachable : Controller :=
  { sampleController with Get := fun _ => .error (.api "connection refused" false) }

/-- The request for the cluster `test/shc`. -/
def sampleRequest : Request := { NamespacedName := { Namespace := "test", Name := "shc" } }

/-- The request for a cluster `test/gone` that does not exist. -/
def sampleRequestGone : Request := { NamespacedName := { Namespace := "test", Name := "gone" } }

/-! ### Triggers (`SetupWithManager`) -/

/-- The kinds of object that `SetupWithManager` names. -/
inductive ObjectKind where
  | SearchHeadCluster
  | Standalone
  | StatefulSet
  | Secret
  | ConfigMap
  deriving DecidableEq, Repr, Inhabited

/-- The predicates of the package `predicate` that `SetupWithManager` names. -/
inductive Predicate where
  | GenerationChangedPredicate
  deriving DecidableEq, Repr, Inhabited

/-- The handler `handler.EnqueueRequestForOwner`. -/
structure EnqueueRequestForOwner where
  IsController : Bool
  OwnerType : ObjectKind
  deriving DecidableEq, Repr, Inhabited

/-- One `Watches(&source.Kind{Type: ...}, handler)` call of the controller builder. -/
structure Watch where
  Source : ObjectKind
  Handler : EnqueueRequestForOwner
  deriving DecidableEq, Repr, Inhabited

/-- What a chain of controller-builder calls registers with the manager: the type
named by `For`, the `Watches` calls in order, and the `WithEventFilter` calls, each
`WithEventFilter(predicate.Or(...))` being the list of the predicates it joins. The
event filters are registered on the builder as a whole, not on one watch. -/
structure ControllerSetup where
  For : ObjectKind
  EventFilter : List (List Predicate)
  Watches : List Watch
  MaxConcurrentReconciles : Int
  deriving DecidableEq, Repr, Inhabited

/-- The method `SearchHeadClusterReconciler.SetupWithManager`: the registration it
completes. `TotalWorker` is the constant `enterprisev4.TotalWorker`, which no source
file defines. -/
def SetupWithManager (TotalWorker : Int) : ControllerSetup :=
  { For := .SearchHeadCluster,
    EventFilter := [[.GenerationChangedPredicate]],
    Watches := [
      { Source := .StatefulSet,
        Handler := { IsController := true, OwnerType := .SearchHeadCluster } },
      { Source := .Secret,
        Handler := { IsController := true, OwnerType := .SearchHeadCluster } },
      { Source := .ConfigMap,
        Handler := { IsController := true, OwnerType := .Standalone } } ],
    MaxConcurrentReconciles := TotalWorker }

/-! ### Volume claims -/

/-- The labels `getSplunkStatefulSet` puts on the pod template and on the volume
claims. -/
def statefulSetLabels (d : Deps) (cr : MetaObject) (instanceType : InstanceType) : StrMap :=
  mapMerge (mapSet (d.GetLabels cr.Identifier (d.ToString instanceType) false) "kind"
    (d.ToKind instanceType)) cr.ObjectMeta.Labels

/-- A volume claim with one access mode, `ReadWriteOnce`, and one storage request. -/
def storageClaim (name namespace_ : String) (labels : StrMap) (size : Quantity)
    (storageClassName : Option String) : PersistentVolumeClaim :=
  { ObjectMeta := { Name := name, Namespace := namespace_, Labels := labels },
    Spec := { AccessModes := ["ReadWriteOnce"],
              Resources := { Requests := [("storage", size)] },
              StorageClassName := storageClassName } }

/-- A spec whose `etc` storage size does not parse. -/
def sampleBadEtc : CommonSplunkSpec := { EtcStorage := "bad", VarStorage := "bad" }

/-- A spec whose `var` storage size does not parse. -/
def sampleBadVar : CommonSplunkSpec := { EtcStorage := "10Gi", VarStorage := "bad" }

/-- A spec with both storage sizes and a storage class. -/
def sampleStorage : CommonSplunkSpec :=
  { CommonSpec := { StorageClassName := "gp2" }, EtcStorage := "10Gi", VarStorage := "100Gi" }

/-- A topology with the Spark integration enabled and no worker count. -/
def sampleDFSNoWorkers : SplunkEnterpriseSpec := { EnableDFS := true }

/-- An indexer spec that asks for a negative number of replicas. -/
def sampleNegativeIndexer : IndexerSpec := { Replicas := -1 }

/-- A standalone spec that asks for a negative number of replicas. -/
def sampleNegativeStandalone : StandaloneSpec := { Replicas := -2 }

/-- The extra environment `GetSearchHeadStatefulSet` passes to `getSplunkStatefulSet`:
that of `getSearchHeadExtraEnv`, then the URL of the deployer. -/
def searchHeadEnv (d : Deps) (cr : SearchHead) : List EnvVar :=
  getSearchHeadExtraEnv d cr.Meta cr.Spec.Replicas ++
    [{ Name := "SPLUNK_DEPLOYER_URL",
       Value := d.GetSplunkServiceName .SplunkDeployer cr.Meta.Identifier false }]

/-- A search-head resource with five replicas and no Spark reference. -/
def sampleSearchHead : SearchHead := { Meta := sampleCR, Spec := { Replicas := 5 } }

/-- A topology that asks for search heads only, with every defaulted field unset
and the Spark integration enabled. -/
def sampleAsymmetric : SplunkEnterpriseSpec :=
  { EnableDFS := true, Topology := { SearchHeads := 3 } }

/-- The parent `s1` with labels of its own. -/
def sampleLabelledCR : MetaObject :=
  { sampleCR with
    ObjectMeta := { sampleCR.ObjectMeta with Labels := [("team", "search"), ("kind", "mine")] } }

/-- A spec whose service template carries labels, a selector and a type of its own. -/
def sampleServiceTemplate : CommonSpec :=
  { ServiceTemplate :=
      { ObjectMeta := { Labels := [("exposed", "yes")] },
        Spec := { ServiceType := "LoadBalancer", Selector := [("app", "other")] } } }

/-! ### Names of the environment -/

/-- The names of an environment, in order. -/
def envNames (env : List EnvVar) : List String := env.map fun e => e.Name

/-- The names of the environment of a container: the five fixed variables, the
license URI, the license-master URL and the cluster-master URL when present, the
names of the extra environment in between, and the names appended afterwards. -/
def envNamesOf (licenseURI licenseMaster clusterMaster : Bool) (extraNames tail : List String) :
    List String :=
  ["SPLUNK_HOME", "SPLUNK_START_ARGS", "SPLUNK_DEFAULTS_URL",
    "SPLUNK_HOME_OWNERSHIP_ENFORCEMENT", "SPLUNK_ROLE"]
    ++ (if licenseURI then ["SPLUNK_LICENSE_URI"] else [])
    ++ (if licenseMaster then ["SPLUNK_LICENSE_MASTER_URL"] else [])
    ++ extraNames
    ++ (if clusterMaster then ["SPLUNK_CLUSTER_MASTER_URL"] else [])
    ++ tail

/-- The names of the six variables of `dfsEnvVar`. -/
def dfsEnvNames : List String :=
  ["SPLUNK_ENABLE_DFS", "SPARK_MASTER_HOST", "SPARK_MASTER_WEBUI_PORT", "SPARK_HOME",
   "JAVA_HOME", "SPLUNK_DFW_NUM_SLOTS_ENABLED"]

/-- A standalone resource with a license URL, a license master, an indexer cluster
and a Spark cluster all configured. -/
def sampleStandaloneFull : Standalone :=
  { Meta := sampleCR,
    Spec := { CommonSplunkSpec :=
                { LicenseURL := "/mnt/license.lic",
                  LicenseMasterRef := { Name := "lm" },
                  IndexerRef := { Name := "idx" } },
              Replicas := 2, SparkRef := { Name := "s1" }, SparkImage := "splunk/spark" } }

/-! ### Volumes and mounts -/

/-- The pod template `getSplunkStatefulSet` starts from, before
`updateSplunkPodTemplateWithConfig` is applied to it. -/
def initialTemplate (d : Deps) (cr : MetaObject) (spec : CommonSplunkSpec)
    (instanceType : InstanceType) : PodTemplateSpec :=
  { ObjectMeta :=
      { Labels := statefulSetLabels d cr instanceType,
        Annotations := mapMerge
          (d.GetIstioAnnotations (d.SortContainerPorts (getSplunkContainerPorts d instanceType)))
          cr.ObjectMeta.Annotations },
    Spec :=
      { Affinity := d.AppendPodAntiAffinity spec.CommonSpec.Affinity cr.Identifier
          (d.ToString instanceType),
        SchedulerName := spec.CommonSpec.SchedulerName,
        Containers := [
          { Image := spec.CommonSpec.Image,
            ImagePullPolicy := spec.CommonSpec.ImagePullPolicy,
            Name := "splunk",
            Ports := d.SortContainerPorts (getSplunkContainerPorts d instanceType),
            VolumeMounts := getSplunkVolumeMounts } ] } }

/-- The volumes `updateSplunkPodTemplateWithConfig` appends to the pod: the custom
volumes, the secrets, and the inline defaults when there are any. -/
def addedVolumes (d : Deps) (cr : MetaObject) (spec : CommonSplunkSpec)
    (instanceType : InstanceType) : List Volume :=
  spec.Volumes.getD []
    ++ [{ Name := "mnt-splunk-secrets",
          VolumeSource := .Secret (d.GetSplunkSecretsName cr.Identifier instanceType) }]
    ++ (if spec.Defaults ≠ "" then
          [{ Name := "mnt-splunk-defaults",
             VolumeSource := .ConfigMap (d.GetSplunkDefaultsName cr.Identifier instanceType) }]
        else [])

/-- The volume mounts `updateSplunkPodTemplateWithConfig` appends to every container. -/
def addedMounts (spec : CommonSplunkSpec) : List VolumeMount :=
  (spec.Volumes.getD []).map (fun v => { Name := v.Name, MountPath := "/mnt/" ++ v.Name })
    ++ [{ Name := "mnt-splunk-secrets", MountPath := "/mnt/splunk-secrets" }]
    ++ (if spec.Defaults ≠ "" then
          [{ Name := "mnt-splunk-defaults", MountPath := "/mnt/splunk-defaults" }]
        else [])

/-- Every volume mount of every container and init container of the pod template
has the name of a volume of the pod or one of the given claim names. -/
def mountsBacked (p : PodTemplateSpec) (claimNames : List String) : Prop :=
  ∀ c ∈ p.Spec.Containers ++ p.Spec.InitContainers, ∀ m ∈ c.VolumeMounts,
    m.Name ∈ p.Spec.Volumes.map (fun v => v.Name) ∨ m.Name ∈ claimNames

/-- Every volume mount of every container and init container of the stateful set
has the name of an entry of the pod's `Spec.Volumes` or of `Spec.VolumeClaimTemplates`. -/
def volumeMountsBacked (ss : StatefulSet) : Prop :=
  ∀ c ∈ ss.Spec.Template.Spec.Containers ++ ss.Spec.Template.Spec.InitContainers,
    ∀ m ∈ c.VolumeMounts,
      m.Name ∈ ss.Spec.Template.Spec.Volumes.map (fun v => v.Name) ∨
      m.Name ∈ ss.Spec.VolumeClaimTemplates.map (fun vc => vc.ObjectMeta.Name)

/-- A standalone resource with a custom volume, inline defaults and a Spark cluster. -/
def sampleStandaloneVolumes : Standalone :=
  { Meta := sampleCR,
    Spec := { CommonSplunkSpec :=
                { Volumes := some [{ Name := "scratch", VolumeSource := .EmptyDir }],
                  Defaults := "splunk:" },
              Replicas := 2, SparkRef := { Name := "s1" }, SparkImage := "splunk/spark" } }

/-- The names of the entries of the `Env` list of every container and init container
of the stateful set are pairwise distinct. -/
def envNamesDistinct (ss : StatefulSet) : Prop :=
  ∀ c ∈ ss.Spec.Template.Spec.Containers ++ ss.Spec.Template.Spec.InitContainers,
    (envNames c.Env).Nodup

/-! ## Validation -/

theorem defaultSparkWorkers_Standalones (spec : SplunkEnterpriseSpec) :
    (defaultSparkWorkers spec).Topology.Standalones = spec.Topology.Standalones := by
  unfold defaultSparkWorkers; split <;> rfl

theorem defaultSchedulerName_Topology (spec : SplunkEnterpriseSpec) :
    (defaultSchedulerName spec).Topology = spec.Topology := by
  unfold defaultSchedulerName; split <;> rfl

theorem defaultSplunkVolumes_Topology (spec : SplunkEnterpriseSpec) :
    (defaultSplunkVolumes spec).Topology = spec.Topology := by
  unfold defaultSplunkVolumes; split <;> rfl

theorem validateImages_Topology (d : Deps) (spec : SplunkEnterpriseSpec) :
    (validateImages d spec).1.Topology = spec.Topology := rfl

/-- What the steps after the topology check leave in `Topology.Standalones`. -/
theorem defaulting_Standalones (d : Deps) (spec : SplunkEnterpriseSpec) :
    (validateImages d (defaultSplunkVolumes (defaultSchedulerName
      (defaultSparkWorkers (defaultStandalones spec))))).1.Topology.Standalones =
    (defaultStandalones spec).Topology.Standalones := by
  rw [validateImages_Topology, defaultSplunkVolumes_Topology, defaultSchedulerName_Topology,
    defaultSparkWorkers_Standalones]

/-- C1: whenever search heads are requested (count > 0) without indexers
(count <= 0), `ValidateSplunkEnterpriseSpec` returns the error "You must specify how
many indexers the cluster should have"; whenever indexers are requested without
search heads it returns "You must specify how many search heads the cluster should
have". -/
theorem ValidateSplunkEnterpriseSpec_asymmetric_tiers (d : Deps) (spec : SplunkEnterpriseSpec) :
    (spec.Topology.SearchHeads > 0 ∧ spec.Topology.Indexers ≤ 0 →
      (ValidateSplunkEnterpriseSpec d spec).2 =
        some "You must specify how many indexers the cluster should have") ∧
    (spec.Topology.SearchHeads ≤ 0 ∧ spec.Topology.Indexers > 0 →
      (ValidateSplunkEnterpriseSpec d spec).2 =
        some "You must specify how many search heads the cluster should have") := by
  constructor
  · intro h
    unfold ValidateSplunkEnterpriseSpec
    rw [if_pos h]
  · intro h
    have h0 : ¬ (spec.Topology.SearchHeads > 0 ∧ spec.Topology.Indexers ≤ 0) := by
      intro hc; omega
    unfold ValidateSplunkEnterpriseSpec
    rw [if_neg h0, if_pos h]

/-- C1, on a topology with three search heads and no indexer, and on one with two
indexers and no search head. -/
theorem ValidateSplunkEnterpriseSpec_asymmetric_tiers_witness :
    (sampleSearchHeadsOnly.Topology.SearchHeads > 0 ∧ sampleSearchHeadsOnly.Topology.Indexers ≤ 0) ∧
    (ValidateSplunkEnterpriseSpec sampleDeps sampleSearchHeadsOnly).2 =
      some "You must specify how many indexers the cluster should have" ∧
    (sampleIndexersOnly.Topology.SearchHeads ≤ 0 ∧ sampleIndexersOnly.Topology.Indexers > 0) ∧
    (ValidateSplunkEnterpriseSpec sampleDeps sampleIndexersOnly).2 =
      some "You must specify how many search heads the cluster should have" :=
  ⟨by decide,
   (ValidateSplunkEnterpriseSpec_asymmetric_tiers sampleDeps sampleSearchHeadsOnly).1 (by decide),
   by decide,
   (ValidateSplunkEnterpriseSpec_asymmetric_tiers sampleDeps sampleIndexersOnly).2 (by decide)⟩

/-- C2: when neither clustered tier is requested (search heads <= 0 and
indexers <= 0), `ValidateSplunkEnterpriseSpec` leaves `Topology.Standalones` equal
to 1 if it was <= 0 and unchanged if it was positive; when both clustered tiers are
positive, `Topology.Standalones` is left exactly as given. -/
theorem ValidateSplunkEnterpriseSpec_standalone_default (d : Deps) (spec : SplunkEnterpriseSpec) :
    (spec.Topology.SearchHeads ≤ 0 ∧ spec.Topology.Indexers ≤ 0 →
      (ValidateSplunkEnterpriseSpec d spec).1.Topology.Standalones =
        if spec.Topology.Standalones ≤ 0 then 1 else spec.Topology.Standalones) ∧
    (spec.Topology.SearchHeads > 0 ∧ spec.Topology.Indexers > 0 →
      (ValidateSplunkEnterpriseSpec d spec).1.Topology.Standalones =
        spec.Topology.Standalones) := by
  constructor
  · intro h
    have h1 : ¬ (spec.Topology.SearchHeads > 0 ∧ spec.Topology.Indexers ≤ 0) := by
      intro hc; omega
    have h2 : ¬ (spec.Topology.SearchHeads ≤ 0 ∧ spec.Topology.Indexers > 0) := by
      intro hc; omega
    unfold ValidateSplunkEnterpriseSpec
    rw [if_neg h1, if_neg h2, defaulting_Standalones]
    unfold defaultStandalones
    rw [if_pos h]
    split <;> rfl
  · intro h
    have h1 : ¬ (spec.Topology.SearchHeads > 0 ∧ spec.Topology.Indexers ≤ 0) := by
      intro hc; omega
    have h2 : ¬ (spec.Topology.SearchHeads ≤ 0 ∧ spec.Topology.Indexers > 0) := by
      intro hc; omega
    have h3 : ¬ (spec.Topology.SearchHeads ≤ 0 ∧ spec.Topology.Indexers ≤ 0) := by
      intro hc; omega
    unfold ValidateSplunkEnterpriseSpec
    rw [if_neg h1, if_neg h2, defaulting_Standalones]
    unfold defaultStandalones
    rw [if_neg h3]

/-- C2, on the empty topology (the standalone count becomes 1) and on a cluster of
three search heads and two indexers (the standalone count stays 0). -/
theorem ValidateSplunkEnterpriseSpec_standalone_default_witness :
    (sampleEmptyTopology.Topology.SearchHeads ≤ 0 ∧ sampleEmptyTopology.Topology.Indexers ≤ 0) ∧
    (ValidateSplunkEnterpriseSpec sampleDeps sampleEmptyTopology).1.Topology.Standalones =
      (if sampleEmptyTopology.Topology.Standalones ≤ 0 then 1
        else sampleEmptyTopology.Topology.Standalones) ∧
    (sampleCluster.Topology.SearchHeads > 0 ∧ sampleCluster.Topology.Indexers > 0) ∧
    (ValidateSplunkEnterpriseSpec sampleDeps sampleCluster).1.Topology.Standalones =
      sampleCluster.Topology.Standalones :=
  ⟨by decide,
   (ValidateSplunkEnterpriseSpec_standalone_default sampleDeps sampleEmptyTopology).1 (by decide),
   by decide,
   (ValidateSplunkEnterpriseSpec_standalone_default sampleDeps sampleCluster).2 (by decide)⟩

/-- C3: for every `SearchHeadSpec`, after `ValidateSearchHeadSpec` the field
`Replicas` equals the maximum of the given count and 3, whether or not the rest of
the validation succeeds; so it is at least 3, and a count that was already >= 3 is
unchanged. -/
theorem ValidateSearchHeadSpec_Replicas (d : Deps) (spec : SearchHeadSpec) :
    (ValidateSearchHeadSpec d spec).1.Replicas = max spec.Replicas 3 ∧
    3 ≤ (ValidateSearchHeadSpec d spec).1.Replicas ∧
    (3 ≤ spec.Replicas → (ValidateSearchHeadSpec d spec).1.Replicas = spec.Replicas) := by
  have h : (ValidateSearchHeadSpec d spec).1.Replicas = max spec.Replicas 3 := by
    unfold ValidateSearchHeadSpec
    by_cases hr : spec.Replicas < 3
    · simp only [hr, if_true]
      exact (max_eq_right (le_of_lt hr)).symm
    · simp only [hr, if_false]
      exact (max_eq_left (not_lt.mp hr)).symm
  refine ⟨h, ?_, ?_⟩
  · rw [h]; exact le_max_right _ _
  · intro h3; rw [h]; exact max_eq_left h3

/-- C3, on a search-head spec that asks for five replicas: the count stays five. -/
theorem ValidateSearchHeadSpec_Replicas_witness :
    (3 : Int) ≤ ({ Replicas := 5 } : SearchHeadSpec).Replicas ∧
    (ValidateSearchHeadSpec sampleDeps { Replicas := 5 }).1.Replicas = 5 :=
  ⟨by decide, (ValidateSearchHeadSpec_Replicas sampleDeps { Replicas := 5 }).2.2 (by decide)⟩

/-! ## Pod template and environment -/

theorem envNamed_append (name : String) (a b : List EnvVar) :
    envNamed name (a ++ b) = envNamed name a ++ envNamed name b := by
  simp [envNamed]

/-- The environment of `updateSplunkPodTemplateWithConfig` as one concatenation. -/
theorem splunkEnv_eq (d : Deps) (cr : MetaObject) (spec : CommonSplunkSpec)
    (instanceType : InstanceType) (extraEnv : List EnvVar) :
    splunkEnv d cr spec instanceType extraEnv =
      [ { Name := "SPLUNK_HOME", Value := "/opt/splunk" },
        { Name := "SPLUNK_START_ARGS", Value := "--accept-license" },
        { Name := "SPLUNK_DEFAULTS_URL", Value := splunkDefaults spec },
        { Name := "SPLUNK_HOME_OWNERSHIP_ENFORCEMENT", Value := "false" },
        { Name := "SPLUNK_ROLE", Value := d.ToRole instanceType } ]
      ++ (if spec.LicenseURL ≠ "" then [{ Name := "SPLUNK_LICENSE_URI", Value := spec.LicenseURL }]
          else [])
      ++ (if instanceType ≠ .SplunkLicenseMaster ∧ licenseMasterURL d spec ≠ "" then
            [{ Name := "SPLUNK_LICENSE_MASTER_URL", Value := licenseMasterURL d spec }]
          else [])
      ++ extraEnv
      ++ (if clusterMasterURL d cr spec instanceType ≠ "" then
            [{ Name := "SPLUNK_CLUSTER_MASTER_URL",
               Value := clusterMasterURL d cr spec instanceType }]
          else []) := by
  unfold splunkEnv
  split_ifs <;> simp_all

theorem envNamed_clusterMaster_splunkEnv (d : Deps) (cr : MetaObject) (spec : CommonSplunkSpec)
    (instanceType : InstanceType) (extraEnv : List EnvVar) :
    envNamed "SPLUNK_CLUSTER_MASTER_URL" (splunkEnv d cr spec instanceType extraEnv) =
      envNamed "SPLUNK_CLUSTER_MASTER_URL" extraEnv ++
        (if clusterMasterURL d cr spec instanceType ≠ "" then
            [{ Name := "SPLUNK_CLUSTER_MASTER_URL",
               Value := clusterMasterURL d cr spec instanceType }]
          else []) := by
  rw [splunkEnv_eq]
  simp only [envNamed_append]
  have e1 : envNamed "SPLUNK_CLUSTER_MASTER_URL"
      [ { Name := "SPLUNK_HOME", Value := "/opt/splunk" },
        { Name := "SPLUNK_START_ARGS", Value := "--accept-license" },
        { Name := "SPLUNK_DEFAULTS_URL", Value := splunkDefaults spec },
        { Name := "SPLUNK_HOME_OWNERSHIP_ENFORCEMENT", Value := "false" },
        { Name := "SPLUNK_ROLE", Value := d.ToRole instanceType } ] = [] := by
    simp [envNamed]
  rw [e1]
  split_ifs <;> simp [envNamed]

theorem envNamed_licenseMaster_splunkEnv (d : Deps) (cr : MetaObject) (spec : CommonSplunkSpec)
    (instanceType : InstanceType) (extraEnv : List EnvVar) :
    envNamed "SPLUNK_LICENSE_MASTER_URL" (splunkEnv d cr spec instanceType extraEnv) =
      (if instanceType ≠ .SplunkLicenseMaster ∧ licenseMasterURL d spec ≠ "" then
            [{ Name := "SPLUNK_LICENSE_MASTER_URL", Value := licenseMasterURL d spec }]
          else []) ++ envNamed "SPLUNK_LICENSE_MASTER_URL" extraEnv := by
  rw [splunkEnv_eq]
  simp only [envNamed_append]
  split_ifs <;> simp [envNamed]

theorem envNamed_defaults_splunkEnv (d : Deps) (cr : MetaObject) (spec : CommonSplunkSpec)
    (instanceType : InstanceType) (extraEnv : List EnvVar) :
    envNamed "SPLUNK_DEFAULTS_URL" (splunkEnv d cr spec instanceType extraEnv) =
      { Name := "SPLUNK_DEFAULTS_URL", Value := splunkDefaults spec } ::
        envNamed "SPLUNK_DEFAULTS_URL" extraEnv := by
  rw [splunkEnv_eq]
  simp only [envNamed_append]
  split_ifs <;> simp [envNamed]

/-- Every container leaves `updateSplunkPodTemplateWithConfig` with the same environment. -/
theorem updateSplunkPodTemplateWithConfig_Env (d : Deps) (p : PodTemplateSpec) (cr : MetaObject)
    (spec : CommonSplunkSpec) (instanceType : InstanceType) (extraEnv : List EnvVar) :
    ∀ c ∈ (updateSplunkPodTemplateWithConfig d p cr spec instanceType extraEnv).Spec.Containers,
      c.Env = splunkEnv d cr spec instanceType extraEnv := by
  intro c hc
  unfold updateSplunkPodTemplateWithConfig at hc
  simp only [List.mem_map] at hc
  obtain ⟨c0, _, rfl⟩ := hc
  rfl

theorem addSplunkVolumeToTemplate_length (p : PodTemplateSpec) (name : String) (v : VolumeSource) :
    (addSplunkVolumeToTemplate p name v).Spec.Containers.length = p.Spec.Containers.length := by
  simp [addSplunkVolumeToTemplate]

/-- The function `updateSplunkPodTemplateWithConfig` neither adds nor drops a container. -/
theorem updateSplunkPodTemplateWithConfig_length (d : Deps) (p : PodTemplateSpec) (cr : MetaObject)
    (spec : CommonSplunkSpec) (instanceType : InstanceType) (extraEnv : List EnvVar) :
    (updateSplunkPodTemplateWithConfig d p cr spec instanceType extraEnv).Spec.Containers.length =
      p.Spec.Containers.length := by
  unfold updateSplunkPodTemplateWithConfig
  simp only [List.length_map]
  split <;> split <;> simp [addSplunkVolumeToTemplate_length]

/-- Whatever is read off the environment of the containers, every container that
went into `updateSplunkPodTemplateWithConfig` comes out with the reading of
`splunkEnv`. -/
theorem updateSplunkPodTemplateWithConfig_map_Env {α : Type} (f : List EnvVar → α) (d : Deps)
    (p : PodTemplateSpec) (cr : MetaObject) (spec : CommonSplunkSpec)
    (instanceType : InstanceType) (extraEnv : List EnvVar) :
    (updateSplunkPodTemplateWithConfig d p cr spec instanceType extraEnv).Spec.Containers.map
        (fun c => f c.Env) =
      p.Spec.Containers.map (fun _ => f (splunkEnv d cr spec instanceType extraEnv)) := by
  have h1 : (updateSplunkPodTemplateWithConfig d p cr spec instanceType
      extraEnv).Spec.Containers.map (fun c => f c.Env) =
      (updateSplunkPodTemplateWithConfig d p cr spec instanceType
        extraEnv).Spec.Containers.map (fun _ => f (splunkEnv d cr spec instanceType extraEnv)) :=
    List.map_congr_left fun c hc => by
      rw [updateSplunkPodTemplateWithConfig_Env d p cr spec instanceType extraEnv c hc]
  rw [h1, List.map_const', List.map_const', updateSplunkPodTemplateWithConfig_length]

theorem updateSplunkPodTemplateWithConfig_single (d : Deps) (p : PodTemplateSpec) (cr : MetaObject)
    (spec : CommonSplunkSpec) (instanceType : InstanceType) (extraEnv : List EnvVar)
    (hp : p.Spec.Containers.length = 1) :
    (updateSplunkPodTemplateWithConfig d p cr spec instanceType extraEnv).Spec.Containers.map
      (fun c => c.Env) = [splunkEnv d cr spec instanceType extraEnv] := by
  rw [List.eq_replicate_of_mem (a := splunkEnv d cr spec instanceType extraEnv)
    (l := List.map _ _)]
  · simp only [List.length_map]
    rw [updateSplunkPodTemplateWithConfig_length, hp]; rfl
  · intro b hb
    obtain ⟨c, hc, rfl⟩ := List.mem_map.mp hb
    exact updateSplunkPodTemplateWithConfig_Env d p cr spec instanceType extraEnv c hc

/-- A stateful set built by `getSplunkStatefulSet` has one application container,
whose environment is `splunkEnv`. -/
theorem getSplunkStatefulSet_Env (d : Deps) (cr : MetaObject) (spec : CommonSplunkSpec)
    (instanceType : InstanceType) (replicas : Int) (extraEnv : List EnvVar) (ss : StatefulSet)
    (h : getSplunkStatefulSet d cr spec instanceType replicas extraEnv = .ok ss) :
    containerEnvs ss = [splunkEnv d cr spec instanceType extraEnv] := by
  unfold getSplunkStatefulSet at h
  simp only at h
  split at h
  · exact absurd h (by simp)
  · injection h with h
    subst h
    exact updateSplunkPodTemplateWithConfig_single d _ cr spec instanceType extraEnv rfl

/-- A stateful set built by `getSplunkStatefulSet` is owned by the parent alone. -/
theorem getSplunkStatefulSet_OwnerReferences (d : Deps) (cr : MetaObject) (spec : CommonSplunkSpec)
    (instanceType : InstanceType) (replicas : Int) (extraEnv : List EnvVar) (ss : StatefulSet)
    (h : getSplunkStatefulSet d cr spec instanceType replicas extraEnv = .ok ss) :
    ss.ObjectMeta.OwnerReferences = [d.AsOwner cr] := by
  unfold getSplunkStatefulSet at h
  simp only at h
  split at h
  · exact absurd h (by simp)
  · injection h with h
    subst h
    rfl

/-- The function `getSplunkStatefulSet` succeeds as soon as both storage sizes parse. -/
theorem getSplunkStatefulSet_ok (d : Deps) (cr : MetaObject) (spec : CommonSplunkSpec)
    (instanceType : InstanceType) (replicas : Int) (extraEnv : List EnvVar) (q1 q2 : Quantity)
    (h1 : d.ParseResourceQuantity spec.EtcStorage "1Gi" = .ok q1)
    (h2 : d.ParseResourceQuantity spec.VarStorage "200Gi" = .ok q2) :
    ∃ ss, getSplunkStatefulSet d cr spec instanceType replicas extraEnv = .ok ss := by
  unfold getSplunkStatefulSet getSplunkVolumeClaims
  simp only [h1, h2]
  split_ifs <;> exact ⟨_, rfl⟩

/-- The environments `addDFCToPodTemplate` leaves on the application containers. -/
theorem addDFCToPodTemplate_Env (d : Deps) (p : PodTemplateSpec) (sparkRef : ObjectReference)
    (sparkImage imagePullPolicy : String) (slotsEnabled : Bool) :
    (addDFCToPodTemplate d p sparkRef sparkImage imagePullPolicy slotsEnabled).1.Spec.Containers.map
      (fun c => c.Env) =
    p.Spec.Containers.map
      (fun c => c.Env ++ dfsEnvVar (sparkMasterHost d sparkRef) slotsEnabled) := by
  simp [addDFCToPodTemplate, addSplunkVolumeToTemplate, List.map_map, Function.comp]

theorem dfsEnvVar_names (host : String) (slotsEnabled : Bool) :
    (dfsEnvVar host slotsEnabled).map (fun e => e.Name) =
      ["SPLUNK_ENABLE_DFS", "SPARK_MASTER_HOST", "SPARK_MASTER_WEBUI_PORT", "SPARK_HOME",
       "JAVA_HOME", "SPLUNK_DFW_NUM_SLOTS_ENABLED"] := by
  cases slotsEnabled <;> rfl


/-! ## Spark integration -/

theorem GetStandaloneStatefulSet_withoutSpark (d : Deps) (cr : Standalone) :
    GetStandaloneStatefulSet d cr.withoutSpark =
      getSplunkStatefulSet d cr.Meta cr.Spec.CommonSplunkSpec .SplunkStandalone
        cr.Spec.Replicas [] := by
  unfold GetStandaloneStatefulSet Standalone.withoutSpark
  simp only [ne_eq, not_true_eq_false, if_false]
  cases getSplunkStatefulSet d cr.Meta cr.Spec.CommonSplunkSpec .SplunkStandalone
    cr.Spec.Replicas [] <;> rfl

theorem GetSearchHeadStatefulSet_withoutSpark (d : Deps) (cr : SearchHead) :
    GetSearchHeadStatefulSet d cr.withoutSpark =
      getSplunkStatefulSet d cr.Meta cr.Spec.CommonSplunkSpec .SplunkSearchHead
        cr.Spec.Replicas
        (getSearchHeadExtraEnv d cr.Meta cr.Spec.Replicas ++
          [{ Name := "SPLUNK_DEPLOYER_URL",
             Value := d.GetSplunkServiceName .SplunkDeployer cr.Meta.Identifier false }]) := by
  unfold GetSearchHeadStatefulSet SearchHead.withoutSpark
  simp only [ne_eq, not_true_eq_false, if_false]
  cases getSplunkStatefulSet d cr.Meta cr.Spec.CommonSplunkSpec .SplunkSearchHead
    cr.Spec.Replicas _ <;> rfl

/-- With a Spark reference, `GetStandaloneStatefulSet` fails exactly when it fails
without one, and otherwise appends `dfsEnvVar` to every container environment. -/
theorem GetStandaloneStatefulSet_spark (d : Deps) (cr : Standalone)
    (h : cr.Spec.SparkRef.Name ≠ "") :
    (∀ ss0, GetStandaloneStatefulSet d cr.withoutSpark = .ok ss0 →
      ∃ ss, GetStandaloneStatefulSet d cr = .ok ss ∧
        containerEnvs ss = (containerEnvs ss0).map fun env =>
          env ++ dfsEnvVar (sparkMasterHost d cr.Spec.SparkRef) (decide (cr.Spec.Replicas > 1))) ∧
    (∀ err, GetStandaloneStatefulSet d cr.withoutSpark = .error err →
      GetStandaloneStatefulSet d cr = .error err) := by
  rw [GetStandaloneStatefulSet_withoutSpark]
  constructor
  · intro ss0 h0
    refine ⟨{ ss0 with Spec := { ss0.Spec with Template :=
      (addDFCToPodTemplate d ss0.Spec.Template cr.Spec.SparkRef cr.Spec.SparkImage
        cr.Spec.CommonSplunkSpec.CommonSpec.ImagePullPolicy
        (decide (cr.Spec.Replicas > 1))).1 } }, ?_, ?_⟩
    · unfold GetStandaloneStatefulSet
      rw [h0]
      simp only [h, ne_eq, not_false_eq_true, if_true]
      rfl
    · simp only [containerEnvs, addDFCToPodTemplate_Env, List.map_map]
      rfl
  · intro err h0
    unfold GetStandaloneStatefulSet
    rw [h0]

/-- With a Spark reference, `GetSearchHeadStatefulSet` fails exactly when it fails
without one, and otherwise appends `dfsEnvVar` to every container environment. -/
theorem GetSearchHeadStatefulSet_spark (d : Deps) (cr : SearchHead)
    (h : cr.Spec.SparkRef.Name ≠ "") :
    (∀ ss0, GetSearchHeadStatefulSet d cr.withoutSpark = .ok ss0 →
      ∃ ss, GetSearchHeadStatefulSet d cr = .ok ss ∧
        containerEnvs ss = (containerEnvs ss0).map fun env =>
          env ++ dfsEnvVar (sparkMasterHost d cr.Spec.SparkRef) (decide (cr.Spec.Replicas > 1))) ∧
    (∀ err, GetSearchHeadStatefulSet d cr.withoutSpark = .error err →
      GetSearchHeadStatefulSet d cr = .error err) := by
  rw [GetSearchHeadStatefulSet_withoutSpark]
  constructor
  · intro ss0 h0
    refine ⟨{ ss0 with Spec := { ss0.Spec with Template :=
      (addDFCToPodTemplate d ss0.Spec.Template cr.Spec.SparkRef cr.Spec.SparkImage
        cr.Spec.CommonSplunkSpec.CommonSpec.ImagePullPolicy
        (decide (cr.Spec.Replicas > 1))).1 } }, ?_, ?_⟩
    · unfold GetSearchHeadStatefulSet
      simp only
      rw [h0]
      simp only [h, ne_eq, not_false_eq_true, if_true]
      rfl
    · simp only [containerEnvs, addDFCToPodTemplate_Env, List.map_map]
      rfl
  · intro err h0
    unfold GetSearchHeadStatefulSet
    simp only
    rw [h0]


theorem dfsEnvVar_length (host : String) (slotsEnabled : Bool) :
    (dfsEnvVar host slotsEnabled).length = 6 := by
  cases slotsEnabled <;> rfl

/-- C4 (amended): for every Standalone and every SearchHead resource with a non-empty
`SparkRef.Name`, whenever the stateful set of the same resource with `SparkRef.Name`
emptied is built, the stateful set of the resource is built too and the environment
of each application container is the environment without Spark followed by the six
variables of `dfsEnvVar`: SPLUNK_ENABLE_DFS, SPARK_MASTER_HOST,
SPARK_MASTER_WEBUI_PORT, SPARK_HOME, JAVA_HOME and SPLUNK_DFW_NUM_SLOTS_ENABLED. -/
theorem stateful_set_env_with_spark (d : Deps) :
    (∀ cr : Standalone, cr.Spec.SparkRef.Name ≠ "" →
      ∀ ss0, GetStandaloneStatefulSet d cr.withoutSpark = .ok ss0 →
        ∃ ss, GetStandaloneStatefulSet d cr = .ok ss ∧
          containerEnvs ss = (containerEnvs ss0).map fun env =>
            env ++ dfsEnvVar (sparkMasterHost d cr.Spec.SparkRef)
              (decide (cr.Spec.Replicas > 1))) ∧
    (∀ cr : SearchHead, cr.Spec.SparkRef.Name ≠ "" →
      ∀ ss0, GetSearchHeadStatefulSet d cr.withoutSpark = .ok ss0 →
        ∃ ss, GetSearchHeadStatefulSet d cr = .ok ss ∧
          containerEnvs ss = (containerEnvs ss0).map fun env =>
            env ++ dfsEnvVar (sparkMasterHost d cr.Spec.SparkRef)
              (decide (cr.Spec.Replicas > 1))) ∧
    (∀ host slotsEnabled, (dfsEnvVar host slotsEnabled).length = 6 ∧
      (dfsEnvVar host slotsEnabled).map (fun e => e.Name) =
        ["SPLUNK_ENABLE_DFS", "SPARK_MASTER_HOST", "SPARK_MASTER_WEBUI_PORT", "SPARK_HOME",
         "JAVA_HOME", "SPLUNK_DFW_NUM_SLOTS_ENABLED"]) :=
  ⟨fun cr h => (GetStandaloneStatefulSet_spark d cr h).1,
   fun cr h => (GetSearchHeadStatefulSet_spark d cr h).1,
   fun host b => ⟨dfsEnvVar_length host b, dfsEnvVar_names host b⟩⟩

/-- C4 (amended), on a standalone resource and on a search-head resource that refer
to the Spark cluster `s1`. -/
theorem stateful_set_env_with_spark_witness :
    (sampleStandaloneDFS.Spec.SparkRef.Name ≠ "" ∧
      ∃ ss0, GetStandaloneStatefulSet sampleDeps sampleStandaloneDFS.withoutSpark = .ok ss0 ∧
        ∃ ss, GetStandaloneStatefulSet sampleDeps sampleStandaloneDFS = .ok ss ∧
          containerEnvs ss = (containerEnvs ss0).map fun env =>
            env ++ dfsEnvVar (sparkMasterHost sampleDeps sampleStandaloneDFS.Spec.SparkRef)
              (decide (sampleStandaloneDFS.Spec.Replicas > 1))) ∧
    (sampleSearchHeadDFS.Spec.SparkRef.Name ≠ "" ∧
      ∃ ss0, GetSearchHeadStatefulSet sampleDeps sampleSearchHeadDFS.withoutSpark = .ok ss0 ∧
        ∃ ss, GetSearchHeadStatefulSet sampleDeps sampleSearchHeadDFS = .ok ss ∧
          containerEnvs ss = (containerEnvs ss0).map fun env =>
            env ++ dfsEnvVar (sparkMasterHost sampleDeps sampleSearchHeadDFS.Spec.SparkRef)
              (decide (sampleSearchHeadDFS.Spec.Replicas > 1))) :=
  ⟨⟨by decide, _, rfl,
      (stateful_set_env_with_spark sampleDeps).1 sampleStandaloneDFS (by decide) _ rfl⟩,
   ⟨by decide, _, rfl,
      (stateful_set_env_with_spark sampleDeps).2.1 sampleSearchHeadDFS (by decide) _ rfl⟩⟩

/-- C4 as stated fails: on the standalone resource `sampleStandaloneDFS` both stateful
sets are built, and no list of five variables turns the container environments
without Spark into those with Spark. -/
theorem stateful_set_env_with_spark_not_five :
    sampleStandaloneDFS.Spec.SparkRef.Name ≠ "" ∧
    ∃ ss ss0, GetStandaloneStatefulSet sampleDeps sampleStandaloneDFS = .ok ss ∧
      GetStandaloneStatefulSet sampleDeps sampleStandaloneDFS.withoutSpark = .ok ss0 ∧
      ¬ ∃ extra : List EnvVar, extra.length = 5 ∧
          containerEnvs ss = (containerEnvs ss0).map fun env => env ++ extra := by
  refine ⟨by decide, ?_⟩
  obtain ⟨ss0, h0⟩ : ∃ ss0,
      GetStandaloneStatefulSet sampleDeps sampleStandaloneDFS.withoutSpark = .ok ss0 := ⟨_, rfl⟩
  obtain ⟨ss, h1, h2⟩ :=
    (GetStandaloneStatefulSet_spark sampleDeps sampleStandaloneDFS (by decide)).1 ss0 h0
  refine ⟨ss, ss0, h1, h0, ?_⟩
  rintro ⟨extra, hlen, heq⟩
  rw [GetStandaloneStatefulSet_withoutSpark] at h0
  have h3 := getSplunkStatefulSet_Env _ _ _ _ _ _ _ h0
  rw [h2, h3] at heq
  simp only [List.map_cons, List.map_nil, List.cons.injEq, and_true, List.append_cancel_left_eq]
    at heq
  have h4 := congrArg List.length heq
  rw [dfsEnvVar_length, hlen] at h4
  omega


/-! ## Ownership -/

/-- The owner references `GetSplunkService` leaves on the service: those of the
object it starts from (the template copy, or the empty service when headless),
then the parent. -/
theorem GetSplunkService_OwnerReferences (d : Deps) (cr : MetaObject) (spec : CommonSpec)
    (instanceType : InstanceType) (isHeadless : Bool) :
    (GetSplunkService d cr spec instanceType isHeadless).ObjectMeta.OwnerReferences =
      (if isHeadless then [] else spec.ServiceTemplate.ObjectMeta.OwnerReferences)
        ++ [d.AsOwner cr] := by
  unfold GetSplunkService
  cases isHeadless <;> simp only [Bool.false_eq_true, if_false, if_true] <;> split_ifs <;> rfl

/-- C5: the stateful set returned by a successful `getSplunkStatefulSet` and the
service returned by `GetSplunkService`, headless or not, each carry the owner
reference `AsOwner(cr)` of the parent; on the service the owner references of the
object it is built from (the copy of the service template, which the headless
service replaces by an empty object) are kept and the parent is appended after
them. -/
theorem owner_reference_of_parent (d : Deps) (cr : MetaObject) :
    (∀ spec instanceType replicas extraEnv ss,
      getSplunkStatefulSet d cr spec instanceType replicas extraEnv = .ok ss →
        d.AsOwner cr ∈ ss.ObjectMeta.OwnerReferences) ∧
    (∀ spec instanceType isHeadless,
      d.AsOwner cr ∈ (GetSplunkService d cr spec instanceType isHeadless).ObjectMeta.OwnerReferences) ∧
    (∀ spec instanceType,
      (GetSplunkService d cr spec instanceType false).ObjectMeta.OwnerReferences =
        spec.ServiceTemplate.ObjectMeta.OwnerReferences ++ [d.AsOwner cr]) ∧
    (∀ spec instanceType,
      (GetSplunkService d cr spec instanceType true).ObjectMeta.OwnerReferences =
        [d.AsOwner cr]) := by
  refine ⟨?_, ?_, ?_, ?_⟩
  · intro spec instanceType replicas extraEnv ss h
    rw [getSplunkStatefulSet_OwnerReferences d cr spec instanceType replicas extraEnv ss h]
    exact List.mem_singleton.mpr rfl
  · intro spec instanceType isHeadless
    rw [GetSplunkService_OwnerReferences]
    exact List.mem_append_right _ (List.mem_singleton.mpr rfl)
  · intro spec instanceType
    rw [GetSplunkService_OwnerReferences]; rfl
  · intro spec instanceType
    rw [GetSplunkService_OwnerReferences]; rfl

/-- C5, on the indexer stateful set of the parent `s1` with default storage sizes. -/
theorem owner_reference_of_parent_witness :
    ∃ ss, getSplunkStatefulSet sampleDeps sampleCR {} .SplunkIndexer 3 [] = .ok ss ∧
      sampleDeps.AsOwner sampleCR ∈ ss.ObjectMeta.OwnerReferences :=
  ⟨_, rfl, (owner_reference_of_parent sampleDeps sampleCR).1 {} .SplunkIndexer 3 [] _ rfl⟩

/-- C6 as stated fails: the secret and the config map of the parent `s1` are
returned with an empty owner-reference list, which does not hold the parent. -/
theorem secret_and_defaults_without_owner :
    (GetSplunkSecrets sampleDeps 0 sampleCR .SplunkIndexer []).1.ObjectMeta.OwnerReferences = [] ∧
    sampleDeps.AsOwner sampleCR ∉
      (GetSplunkSecrets sampleDeps 0 sampleCR .SplunkIndexer []).1.ObjectMeta.OwnerReferences ∧
    (GetSplunkDefaults sampleDeps sampleCR.Identifier sampleCR.ObjectMeta.Namespace .SplunkIndexer
      "splunk:").ObjectMeta.OwnerReferences = [] ∧
    sampleDeps.AsOwner sampleCR ∉
      (GetSplunkDefaults sampleDeps sampleCR.Identifier sampleCR.ObjectMeta.Namespace
        .SplunkIndexer "splunk:").ObjectMeta.OwnerReferences :=
  ⟨rfl, List.not_mem_nil _, rfl, List.not_mem_nil _⟩

/-- C6 (amended): the secret returned by `GetSplunkSecrets` and the config map
returned by `GetSplunkDefaults` identify the parent by name and namespace only (the
name from `GetSplunkSecretsName` / `GetSplunkDefaultsName` of the identifier, the
namespace of the parent); their owner-reference list is empty as returned. -/
theorem secret_and_defaults_metadata (d : Deps) (rng : Rng) (cr : MetaObject)
    (instanceType : InstanceType) (idxcSecret : Bytes) (defaults : String) :
    (GetSplunkSecrets d rng cr instanceType idxcSecret).1.ObjectMeta =
      { Name := d.GetSplunkSecretsName cr.Identifier instanceType,
        Namespace := cr.ObjectMeta.Namespace } ∧
    (GetSplunkSecrets d rng cr instanceType idxcSecret).1.ObjectMeta.OwnerReferences = [] ∧
    (GetSplunkDefaults d cr.Identifier cr.ObjectMeta.Namespace instanceType defaults).ObjectMeta =
      { Name := d.GetSplunkDefaultsName cr.Identifier instanceType,
        Namespace := cr.ObjectMeta.Namespace } ∧
    (GetSplunkDefaults d cr.Identifier cr.ObjectMeta.Namespace instanceType
      defaults).ObjectMeta.OwnerReferences = [] :=
  ⟨rfl, rfl, rfl, rfl⟩


/-! ## Dependency URLs -/

/-- C7 as stated fails for the indexer: with the cluster-master URL overridden to
`https://cm.example.com:8089`, both containers of the pod template of an indexer of
the parent `s1` get the service name of the parent's own cluster master. -/
theorem indexer_ignores_cluster_master_override :
    sampleClusterMasterOverride.ClusterMasterURL = "https://cm.example.com:8089" ∧
    (updateSplunkPodTemplateWithConfig sampleDeps samplePod sampleCR sampleClusterMasterOverride
      .SplunkIndexer []).Spec.Containers.map
        (fun c => envNamed "SPLUNK_CLUSTER_MASTER_URL" c.Env) =
      [ [{ Name := "SPLUNK_CLUSTER_MASTER_URL", Value := "splunk-s1-cluster-master-service" }],
        [{ Name := "SPLUNK_CLUSTER_MASTER_URL", Value := "splunk-s1-cluster-master-service" }] ] :=
  ⟨rfl, by decide⟩

theorem clusterMasterURL_override (d : Deps) (cr : MetaObject) (spec : CommonSplunkSpec)
    (instanceType : InstanceType) (hURL : spec.ClusterMasterURL ≠ "")
    (h1 : instanceType ≠ .SplunkClusterMaster) (h2 : instanceType ≠ .SplunkIndexer) :
    clusterMasterURL d cr spec instanceType = spec.ClusterMasterURL := by
  unfold clusterMasterURL
  simp [h1, h2, hURL]

/-- C7 (amended): for every instance type other than the cluster master and the
indexer and every spec with a non-empty `ClusterMasterURL`, every container that went
into `updateSplunkPodTemplateWithConfig` comes out with the SPLUNK_CLUSTER_MASTER_URL
variable set to exactly `spec.ClusterMasterURL`, whatever `IndexerRef` and the
parent's identifier are; it is the last variable of the environment. For the indexer
the variable is the service name of the parent's own cluster master (set whenever
that name is non-empty), whatever `ClusterMasterURL` holds. No container is added
or dropped. -/
theorem cluster_master_url_override (d : Deps) (p : PodTemplateSpec) (cr : MetaObject)
    (spec : CommonSplunkSpec) (instanceType : InstanceType) (extraEnv : List EnvVar) :
    (spec.ClusterMasterURL ≠ "" →
      instanceType ≠ .SplunkClusterMaster → instanceType ≠ .SplunkIndexer →
      (updateSplunkPodTemplateWithConfig d p cr spec instanceType extraEnv).Spec.Containers.map
          (fun c => envNamed "SPLUNK_CLUSTER_MASTER_URL" c.Env) =
        p.Spec.Containers.map (fun _ =>
          envNamed "SPLUNK_CLUSTER_MASTER_URL" extraEnv ++
            [{ Name := "SPLUNK_CLUSTER_MASTER_URL", Value := spec.ClusterMasterURL }]) ∧
      (updateSplunkPodTemplateWithConfig d p cr spec instanceType extraEnv).Spec.Containers.map
          (fun c => c.Env.getLast?) =
        p.Spec.Containers.map (fun _ =>
          some { Name := "SPLUNK_CLUSTER_MASTER_URL", Value := spec.ClusterMasterURL })) ∧
    (instanceType = .SplunkIndexer →
      (updateSplunkPodTemplateWithConfig d p cr spec instanceType extraEnv).Spec.Containers.map
          (fun c => envNamed "SPLUNK_CLUSTER_MASTER_URL" c.Env) =
        p.Spec.Containers.map (fun _ =>
          envNamed "SPLUNK_CLUSTER_MASTER_URL" extraEnv ++
            (if d.GetSplunkServiceName .SplunkClusterMaster cr.Identifier false ≠ "" then
              [{ Name := "SPLUNK_CLUSTER_MASTER_URL",
                 Value := d.GetSplunkServiceName .SplunkClusterMaster cr.Identifier false }]
            else []))) := by
  constructor
  · intro hURL h1 h2
    have hv := clusterMasterURL_override d cr spec instanceType hURL h1 h2
    constructor
    · rw [updateSplunkPodTemplateWithConfig_map_Env (envNamed "SPLUNK_CLUSTER_MASTER_URL"),
        envNamed_clusterMaster_splunkEnv, hv, if_pos hURL]
    · rw [updateSplunkPodTemplateWithConfig_map_Env (fun env => env.getLast?), splunkEnv_eq, hv,
        if_pos hURL]
      simp only [List.getLast?_concat]
  · intro h1
    have hv : clusterMasterURL d cr spec instanceType =
        d.GetSplunkServiceName .SplunkClusterMaster cr.Identifier false := by
      unfold clusterMasterURL
      rw [if_pos h1]
    rw [updateSplunkPodTemplateWithConfig_map_Env (envNamed "SPLUNK_CLUSTER_MASTER_URL"),
      envNamed_clusterMaster_splunkEnv, hv]

/-- C7 (amended), on the two containers of a search-head pod template whose spec
overrides the URL, and on those of an indexer pod template of the parent `s1` with
the same spec. -/
theorem cluster_master_url_override_witness :
    sampleClusterMasterOverride.ClusterMasterURL = "https://cm.example.com:8089" ∧
    (updateSplunkPodTemplateWithConfig sampleDeps samplePod sampleCR sampleClusterMasterOverride
        .SplunkSearchHead []).Spec.Containers.map
        (fun c => envNamed "SPLUNK_CLUSTER_MASTER_URL" c.Env) =
      [ [{ Name := "SPLUNK_CLUSTER_MASTER_URL", Value := "https://cm.example.com:8089" }],
        [{ Name := "SPLUNK_CLUSTER_MASTER_URL", Value := "https://cm.example.com:8089" }] ] ∧
    (updateSplunkPodTemplateWithConfig sampleDeps samplePod sampleCR sampleClusterMasterOverride
        .SplunkSearchHead []).Spec.Containers.map (fun c => c.Env.getLast?) =
      [ some { Name := "SPLUNK_CLUSTER_MASTER_URL", Value := "https://cm.example.com:8089" },
        some { Name := "SPLUNK_CLUSTER_MASTER_URL", Value := "https://cm.example.com:8089" } ] ∧
    (updateSplunkPodTemplateWithConfig sampleDeps samplePod sampleCR sampleClusterMasterOverride
        .SplunkIndexer []).Spec.Containers.map
        (fun c => envNamed "SPLUNK_CLUSTER_MASTER_URL" c.Env) =
      [ [{ Name := "SPLUNK_CLUSTER_MASTER_URL", Value := "splunk-s1-cluster-master-service" }],
        [{ Name := "SPLUNK_CLUSTER_MASTER_URL",
           Value := "splunk-s1-cluster-master-service" }] ] :=
  ⟨rfl,
   ((cluster_master_url_override sampleDeps samplePod sampleCR sampleClusterMasterOverride
      .SplunkSearchHead []).1 (by decide) (by decide) (by decide)).1,
   ((cluster_master_url_override sampleDeps samplePod sampleCR sampleClusterMasterOverride
      .SplunkSearchHead []).1 (by decide) (by decide) (by decide)).2,
   ((cluster_master_url_override sampleDeps samplePod sampleCR sampleClusterMasterOverride
      .SplunkIndexer []).2 rfl).trans (by decide)⟩


/-- C8: license-provider URL resolution in `updateSplunkPodTemplateWithConfig`, for
every instance type other than the license master and on every container. (1) A
non-empty `spec.LicenseMasterURL` is the value of SPLUNK_LICENSE_MASTER_URL whatever
`LicenseMasterRef` holds. (2) Otherwise, with a non-empty `LicenseMasterRef.Name`,
the value is `GetSplunkServiceName(SplunkLicenseMaster, name, false)` when the
reference has no namespace, and (3) that name passed through `GetServiceFQDN` with
the namespace when it has one (the helpers returning a non-empty name). (4) With
both empty, no SPLUNK_LICENSE_MASTER_URL variable is emitted. -/
theorem license_master_url_resolution (d : Deps) (p : PodTemplateSpec) (cr : MetaObject)
    (spec : CommonSplunkSpec) (instanceType : InstanceType) (extraEnv : List EnvVar)
    (hType : instanceType ≠ .SplunkLicenseMaster) :
    ∀ c ∈ (updateSplunkPodTemplateWithConfig d p cr spec instanceType extraEnv).Spec.Containers,
      (spec.LicenseMasterURL ≠ "" →
        envNamed "SPLUNK_LICENSE_MASTER_URL" c.Env =
          { Name := "SPLUNK_LICENSE_MASTER_URL", Value := spec.LicenseMasterURL } ::
            envNamed "SPLUNK_LICENSE_MASTER_URL" extraEnv) ∧
      (spec.LicenseMasterURL = "" → spec.LicenseMasterRef.Name ≠ "" →
        spec.LicenseMasterRef.Namespace = "" →
        d.GetSplunkServiceName .SplunkLicenseMaster spec.LicenseMasterRef.Name false ≠ "" →
        envNamed "SPLUNK_LICENSE_MASTER_URL" c.Env =
          { Name := "SPLUNK_LICENSE_MASTER_URL",
            Value := d.GetSplunkServiceName .SplunkLicenseMaster spec.LicenseMasterRef.Name false } ::
            envNamed "SPLUNK_LICENSE_MASTER_URL" extraEnv) ∧
      (spec.LicenseMasterURL = "" → spec.LicenseMasterRef.Name ≠ "" →
        spec.LicenseMasterRef.Namespace ≠ "" →
        d.GetServiceFQDN spec.LicenseMasterRef.Namespace
          (d.GetSplunkServiceName .SplunkLicenseMaster spec.LicenseMasterRef.Name false) ≠ "" →
        envNamed "SPLUNK_LICENSE_MASTER_URL" c.Env =
          { Name := "SPLUNK_LICENSE_MASTER_URL",
            Value := d.GetServiceFQDN spec.LicenseMasterRef.Namespace
              (d.GetSplunkServiceName .SplunkLicenseMaster spec.LicenseMasterRef.Name false) } ::
            envNamed "SPLUNK_LICENSE_MASTER_URL" extraEnv) ∧
      (spec.LicenseMasterURL = "" → spec.LicenseMasterRef.Name = "" →
        envNamed "SPLUNK_LICENSE_MASTER_URL" c.Env =
          envNamed "SPLUNK_LICENSE_MASTER_URL" extraEnv) := by
  intro c hc
  rw [updateSplunkPodTemplateWithConfig_Env d p cr spec instanceType extraEnv c hc,
    envNamed_licenseMaster_splunkEnv]
  refine ⟨?_, ?_, ?_, ?_⟩
  · intro hURL
    have hv : licenseMasterURL d spec = spec.LicenseMasterURL := by
      unfold licenseMasterURL
      simp [hURL]
    rw [hv, if_pos ⟨hType, hURL⟩]
    rfl
  · intro hURL hName hNs hne
    have hv : licenseMasterURL d spec =
        d.GetSplunkServiceName .SplunkLicenseMaster spec.LicenseMasterRef.Name false := by
      unfold licenseMasterURL
      simp [hURL, hName, hNs]
    rw [hv, if_pos ⟨hType, hne⟩]
    rfl
  · intro hURL hName hNs hne
    have hv : licenseMasterURL d spec =
        d.GetServiceFQDN spec.LicenseMasterRef.Namespace
          (d.GetSplunkServiceName .SplunkLicenseMaster spec.LicenseMasterRef.Name false) := by
      unfold licenseMasterURL
      simp [hURL, hName, hNs]
    rw [hv, if_pos ⟨hType, hne⟩]
    rfl
  · intro hURL hName
    have hv : licenseMasterURL d spec = "" := by
      unfold licenseMasterURL
      simp [hURL, hName]
    rw [hv, if_neg (fun h => h.2 rfl)]
    rfl

/-- C8, on the first container of an indexer pod template: once with a URL override
next to a reference, once with a reference into the namespace `other`. -/
theorem license_master_url_resolution_witness :
    (sampleLicenseOverride.LicenseMasterURL ≠ "" ∧
      envNamed "SPLUNK_LICENSE_MASTER_URL"
        ((updateSplunkPodTemplateWithConfig sampleDeps samplePod sampleCR sampleLicenseOverride
          .SplunkIndexer []).Spec.Containers.head!).Env =
        { Name := "SPLUNK_LICENSE_MASTER_URL", Value := sampleLicenseOverride.LicenseMasterURL } ::
          envNamed "SPLUNK_LICENSE_MASTER_URL" []) ∧
    (sampleLicenseRefOther.LicenseMasterURL = "" ∧ sampleLicenseRefOther.LicenseMasterRef.Name ≠ "" ∧
      sampleLicenseRefOther.LicenseMasterRef.Namespace ≠ "" ∧
      envNamed "SPLUNK_LICENSE_MASTER_URL"
        ((updateSplunkPodTemplateWithConfig sampleDeps samplePod sampleCR sampleLicenseRefOther
          .SplunkIndexer []).Spec.Containers.head!).Env =
        { Name := "SPLUNK_LICENSE_MASTER_URL",
          Value := sampleDeps.GetServiceFQDN sampleLicenseRefOther.LicenseMasterRef.Namespace
            (sampleDeps.GetSplunkServiceName .SplunkLicenseMaster
              sampleLicenseRefOther.LicenseMasterRef.Name false) } ::
          envNamed "SPLUNK_LICENSE_MASTER_URL" []) :=
  ⟨⟨by decide,
    (license_master_url_resolution sampleDeps samplePod sampleCR sampleLicenseOverride
      .SplunkIndexer [] (by decide) _ (by decide)).1 (by decide)⟩,
   ⟨by decide, by decide, by decide,
    (license_master_url_resolution sampleDeps samplePod sampleCR sampleLicenseRefOther
      .SplunkIndexer [] (by decide) _ (by decide)).2.2.1 (by decide) (by decide) (by decide)
      (by decide)⟩⟩


theorem envNamed_eq_nil_iff (name : String) (env : List EnvVar) :
    envNamed name env = [] ↔ ∀ e ∈ env, e.Name ≠ name := by
  simp [envNamed, List.filter_eq_nil_iff]

theorem mem_containerEnvs (ss : StatefulSet) (env : List EnvVar)
    (h : containerEnvs ss = [env]) :
    ∀ c ∈ ss.Spec.Template.Spec.Containers, c.Env = env := by
  intro c hc
  have hm : c.Env ∈ containerEnvs ss := List.mem_map.mpr ⟨c, hc, rfl⟩
  rw [h] at hm
  exact List.mem_singleton.mp hm

/-- C9: a tier never resolves a dependency on itself. For every Indexer resource
no container of the stateful set of `GetClusterMasterStatefulSet` has a
SPLUNK_CLUSTER_MASTER_URL variable, and for every LicenseMaster resource no
container of the stateful set of `GetLicenseMasterStatefulSet` has a
SPLUNK_LICENSE_MASTER_URL variable, whatever URL override or reference the spec
sets. Each such stateful set has one container. -/
theorem no_dependency_on_itself (d : Deps) :
    (∀ (cr : Indexer) (ss : StatefulSet), GetClusterMasterStatefulSet d cr = .ok ss →
      ss.Spec.Template.Spec.Containers.length = 1 ∧
      ∀ c ∈ ss.Spec.Template.Spec.Containers, ∀ e ∈ c.Env,
        e.Name ≠ "SPLUNK_CLUSTER_MASTER_URL") ∧
    (∀ (cr : LicenseMaster) (ss : StatefulSet), GetLicenseMasterStatefulSet d cr = .ok ss →
      ss.Spec.Template.Spec.Containers.length = 1 ∧
      ∀ c ∈ ss.Spec.Template.Spec.Containers, ∀ e ∈ c.Env,
        e.Name ≠ "SPLUNK_LICENSE_MASTER_URL") := by
  constructor
  · intro cr ss h
    have henv := getSplunkStatefulSet_Env d cr.Meta cr.Spec.CommonSplunkSpec .SplunkClusterMaster 1
      (getIndexerExtraEnv d cr.Meta cr.Spec.Replicas) ss h
    refine ⟨?_, ?_⟩
    · have hl := congrArg List.length henv
      simpa [containerEnvs] using hl
    · intro c hc
      rw [mem_containerEnvs ss _ henv c hc]
      refine (envNamed_eq_nil_iff _ _).mp ?_
      rw [envNamed_clusterMaster_splunkEnv]
      have hv : clusterMasterURL d cr.Meta cr.Spec.CommonSplunkSpec .SplunkClusterMaster = "" := by
        unfold clusterMasterURL
        simp
      rw [hv]
      simp [envNamed, getIndexerExtraEnv]
  · intro cr ss h
    have henv := getSplunkStatefulSet_Env d cr.Meta cr.Spec.CommonSplunkSpec .SplunkLicenseMaster 1
      [] ss h
    refine ⟨?_, ?_⟩
    · have hl := congrArg List.length henv
      simpa [containerEnvs] using hl
    · intro c hc
      rw [mem_containerEnvs ss _ henv c hc]
      refine (envNamed_eq_nil_iff _ _).mp ?_
      rw [envNamed_licenseMaster_splunkEnv]
      simp [envNamed]

/-- C9, on an indexer resource that sets both `ClusterMasterURL` and `IndexerRef`, and
on a license-master resource that sets both `LicenseMasterURL` and
`LicenseMasterRef`. -/
theorem no_dependency_on_itself_witness :
    (∃ ss, GetClusterMasterStatefulSet sampleDeps sampleIndexer = .ok ss ∧
      ss.Spec.Template.Spec.Containers.length = 1 ∧
      ∀ c ∈ ss.Spec.Template.Spec.Containers, ∀ e ∈ c.Env,
        e.Name ≠ "SPLUNK_CLUSTER_MASTER_URL") ∧
    (∃ ss, GetLicenseMasterStatefulSet sampleDeps sampleLicenseMaster = .ok ss ∧
      ss.Spec.Template.Spec.Containers.length = 1 ∧
      ∀ c ∈ ss.Spec.Template.Spec.Containers, ∀ e ∈ c.Env,
        e.Name ≠ "SPLUNK_LICENSE_MASTER_URL") :=
  ⟨⟨_, rfl, (no_dependency_on_itself sampleDeps).1 sampleIndexer _ rfl⟩,
   ⟨_, rfl, (no_dependency_on_itself sampleDeps).2 sampleLicenseMaster _ rfl⟩⟩

/-! ## Defaults search path -/

/-- The value built by the two conditional `Sprintf` calls is the comma-join of the
entries the specification lists. -/
theorem splunkDefaults_eq_join (spec : CommonSplunkSpec) :
    splunkDefaults spec = String.intercalate "," (defaultsEntries spec) := by
  unfold splunkDefaults defaultsEntries
  by_cases h1 : spec.DefaultsURL = "" <;> by_cases h2 : spec.Defaults = "" <;>
    simp [h1, h2, String.intercalate, String.intercalate.go]

/-- C10: every container that went into `updateSplunkPodTemplateWithConfig` comes
out with the variable SPLUNK_DEFAULTS_URL set, once and as the third variable of the
environment, to the comma-join of `/mnt/splunk-secrets/default.yml`, then
`spec.DefaultsURL` exactly when it is non-empty, then
`/mnt/splunk-defaults/default.yml` exactly when `spec.Defaults` is non-empty; no
container is added or dropped. The secrets bundle is the first entry in all four
combinations and the inline-defaults mount is the last entry whenever it is
present. -/
theorem defaults_url_is_ordered_join (d : Deps) (p : PodTemplateSpec) (cr : MetaObject)
    (spec : CommonSplunkSpec) (instanceType : InstanceType) (extraEnv : List EnvVar) :
    (updateSplunkPodTemplateWithConfig d p cr spec instanceType extraEnv).Spec.Containers.map
        (fun c => c.Env[2]?) =
      p.Spec.Containers.map (fun _ =>
        some { Name := "SPLUNK_DEFAULTS_URL",
               Value := String.intercalate "," (defaultsEntries spec) }) ∧
    (updateSplunkPodTemplateWithConfig d p cr spec instanceType extraEnv).Spec.Containers.map
        (fun c => envNamed "SPLUNK_DEFAULTS_URL" c.Env) =
      p.Spec.Containers.map (fun _ =>
        { Name := "SPLUNK_DEFAULTS_URL",
          Value := String.intercalate "," (defaultsEntries spec) } ::
          envNamed "SPLUNK_DEFAULTS_URL" extraEnv) ∧
    (defaultsEntries spec).head? = some "/mnt/splunk-secrets/default.yml" ∧
    (spec.Defaults ≠ "" →
      (defaultsEntries spec).getLast? = some "/mnt/splunk-defaults/default.yml") ∧
    (spec.DefaultsURL = "" → spec.Defaults = "" →
      defaultsEntries spec = ["/mnt/splunk-secrets/default.yml"]) ∧
    (spec.DefaultsURL ≠ "" → spec.Defaults = "" →
      defaultsEntries spec = ["/mnt/splunk-secrets/default.yml", spec.DefaultsURL]) ∧
    (spec.DefaultsURL = "" → spec.Defaults ≠ "" →
      defaultsEntries spec =
        ["/mnt/splunk-secrets/default.yml", "/mnt/splunk-defaults/default.yml"]) ∧
    (spec.DefaultsURL ≠ "" → spec.Defaults ≠ "" →
      defaultsEntries spec =
        ["/mnt/splunk-secrets/default.yml", spec.DefaultsURL,
         "/mnt/splunk-defaults/default.yml"]) := by
  refine ⟨?_, ?_, ?_, ?_, ?_, ?_, ?_, ?_⟩
  · rw [updateSplunkPodTemplateWithConfig_map_Env (fun env => env[2]?), splunkEnv_eq,
      splunkDefaults_eq_join]
    rfl
  · rw [updateSplunkPodTemplateWithConfig_map_Env (envNamed "SPLUNK_DEFAULTS_URL"),
      envNamed_defaults_splunkEnv, splunkDefaults_eq_join]
  · rfl
  · intro h
    unfold defaultsEntries
    rw [if_pos h]
    exact List.getLast?_concat _
  · intro h1 h2
    simp [defaultsEntries, h1, h2]
  · intro h1 h2
    simp [defaultsEntries, h1, h2]
  · intro h1 h2
    simp [defaultsEntries, h1, h2]
  · intro h1 h2
    simp [defaultsEntries, h1, h2]

/-- C10, on the two containers of a standalone pod template whose spec has both a
remote defaults URL and inline defaults: both get the three entries joined in
order, the inline mount last. -/
theorem defaults_url_is_ordered_join_witness :
    sampleDefaultsBoth.DefaultsURL ≠ "" ∧ sampleDefaultsBoth.Defaults ≠ "" ∧
    (updateSplunkPodTemplateWithConfig sampleDeps samplePod sampleCR sampleDefaultsBoth
        .SplunkStandalone []).Spec.Containers.map
        (fun c => envNamed "SPLUNK_DEFAULTS_URL" c.Env) =
      [ [{ Name := "SPLUNK_DEFAULTS_URL",
           Value := "/mnt/splunk-secrets/default.yml,https://example.com/defaults.yml," ++
             "/mnt/splunk-defaults/default.yml" }],
        [{ Name := "SPLUNK_DEFAULTS_URL",
           Value := "/mnt/splunk-secrets/default.yml,https://example.com/defaults.yml," ++
             "/mnt/splunk-defaults/default.yml" }] ] ∧
    (defaultsEntries sampleDefaultsBoth).getLast? = some "/mnt/splunk-defaults/default.yml" ∧
    defaultsEntries sampleDefaultsBoth =
      ["/mnt/splunk-secrets/default.yml", sampleDefaultsBoth.DefaultsURL,
       "/mnt/splunk-defaults/default.yml"] :=
  ⟨by decide, by decide,
   ((defaults_url_is_ordered_join sampleDeps samplePod sampleCR sampleDefaultsBoth
      .SplunkStandalone []).2.1).trans (by decide),
   (defaults_url_is_ordered_join sampleDeps samplePod sampleCR sampleDefaultsBoth
      .SplunkStandalone []).2.2.2.1 (by decide),
   (defaults_url_is_ordered_join sampleDeps samplePod sampleCR sampleDefaultsBoth
      .SplunkStandalone []).2.2.2.2.2.2.2 (by decide) (by decide)⟩


/-! ## Ports -/

/-- C11: `getSplunkPorts` is the fixed table. Every instance type has splunkweb=8000
and splunkd=8089; hec=8088 and s2s=9997 are present exactly for the standalone and
the indexer; dfccontrol=17000, datarecieve=19000 and dfsmaster=9000 are present
exactly for the standalone and the search head; nothing else is ever present, so
the cluster master, the deployer and the license master get exactly the two base
ports; and no name occurs twice. -/
theorem getSplunkPorts_table (instanceType : InstanceType) :
    (∀ k v, (k, v) ∈ getSplunkPorts instanceType ↔
      ((k, v) = ("splunkweb", 8000) ∨ (k, v) = ("splunkd", 8089)) ∨
      ((instanceType = .SplunkStandalone ∨ instanceType = .SplunkIndexer) ∧
        ((k, v) = ("hec", 8088) ∨ (k, v) = ("s2s", 9997))) ∨
      ((instanceType = .SplunkStandalone ∨ instanceType = .SplunkSearchHead) ∧
        ((k, v) = ("dfccontrol", 17000) ∨ (k, v) = ("datarecieve", 19000) ∨
          (k, v) = ("dfsmaster", 9000)))) ∧
    ((instanceType = .SplunkClusterMaster ∨ instanceType = .SplunkDeployer ∨
        instanceType = .SplunkLicenseMaster) ↔
      getSplunkPorts instanceType = [("splunkweb", 8000), ("splunkd", 8089)]) ∧
    ((getSplunkPorts instanceType).map Prod.fst).Nodup := by
  refine ⟨?_, ?_, ?_⟩
  · intro k v
    cases instanceType <;> simp [getSplunkPorts] <;> tauto
  · cases instanceType <;> simp [getSplunkPorts]
  · cases instanceType <;> decide


theorem SortContainerPorts_sorted (l : List ContainerPort) :
    (SortContainerPorts l).Perm l ∧ (SortContainerPorts l).Pairwise containerPortLE :=
  ⟨List.perm_insertionSort containerPortLE l, List.sorted_insertionSort containerPortLE l⟩

theorem SortServicePorts_sorted (l : List ServicePort) :
    (SortServicePorts l).Perm l ∧ (SortServicePorts l).Pairwise servicePortLE :=
  ⟨List.perm_insertionSort servicePortLE l, List.sorted_insertionSort servicePortLE l⟩

theorem sortingDeps_SortsPorts : SortsPorts sortingDeps :=
  ⟨fun m => List.reverse_perm m, SortContainerPorts_sorted, SortServicePorts_sorted⟩

theorem sortingDepsForward_SortsPorts : SortsPorts sortingDepsForward :=
  ⟨fun m => List.Perm.refl m, SortContainerPorts_sorted, SortServicePorts_sorted⟩

/-- Two entries of one port table with the same port number are the same entry. -/
theorem containerPort_antisymm (instanceType : InstanceType) :
    ∀ a ∈ (getSplunkPorts instanceType).map toContainerPort,
      ∀ b ∈ (getSplunkPorts instanceType).map toContainerPort,
        containerPortLE a b → containerPortLE b a → a = b := by
  cases instanceType <;> decide

theorem servicePort_antisymm (instanceType : InstanceType) :
    ∀ a ∈ (getSplunkPorts instanceType).map toServicePort,
      ∀ b ∈ (getSplunkPorts instanceType).map toServicePort,
        servicePortLE a b → servicePortLE b a → a = b := by
  cases instanceType <;> decide

/-- Whatever the enumeration order, sorting the container ports gives the sorted table. -/
theorem sorted_container_ports (d : Deps) (h : SortsPorts d) (instanceType : InstanceType) :
    d.SortContainerPorts (getSplunkContainerPorts d instanceType) =
      SortContainerPorts ((getSplunkPorts instanceType).map toContainerPort) := by
  have hp1 : (d.SortContainerPorts (getSplunkContainerPorts d instanceType)).Perm
      ((getSplunkPorts instanceType).map toContainerPort) :=
    ((h.2.1 _).1).trans ((h.1 _).map toContainerPort)
  have hp2 := (SortContainerPorts_sorted ((getSplunkPorts instanceType).map toContainerPort)).1
  refine List.Perm.eq_of_sorted ?_ (h.2.1 _).2
    (SortContainerPorts_sorted ((getSplunkPorts instanceType).map toContainerPort)).2
    (hp1.trans hp2.symm)
  intro a b ha hb
  exact containerPort_antisymm instanceType a (hp1.subset ha) b (hp2.subset hb)

/-- Whatever the enumeration order, sorting the service ports gives the sorted table. -/
theorem sorted_service_ports (d : Deps) (h : SortsPorts d) (instanceType : InstanceType) :
    d.SortServicePorts (getSplunkServicePorts d instanceType) =
      SortServicePorts ((getSplunkPorts instanceType).map toServicePort) := by
  have hp1 : (d.SortServicePorts (getSplunkServicePorts d instanceType)).Perm
      ((getSplunkPorts instanceType).map toServicePort) :=
    ((h.2.2 _).1).trans ((h.1 _).map toServicePort)
  have hp2 := (SortServicePorts_sorted ((getSplunkPorts instanceType).map toServicePort)).1
  refine List.Perm.eq_of_sorted ?_ (h.2.2 _).2
    (SortServicePorts_sorted ((getSplunkPorts instanceType).map toServicePort)).2
    (hp1.trans hp2.symm)
  intro a b ha hb
  exact servicePort_antisymm instanceType a (hp1.subset ha) b (hp2.subset hb)

theorem addSplunkVolumeToTemplate_Ports (p : PodTemplateSpec) (name : String) (v : VolumeSource) :
    (addSplunkVolumeToTemplate p name v).Spec.Containers.map (fun c => c.Ports) =
      p.Spec.Containers.map (fun c => c.Ports) := by
  simp [addSplunkVolumeToTemplate, List.map_map, Function.comp]

/-- The function `updateSplunkPodTemplateWithConfig` leaves the ports of every
container as they were. -/
theorem updateSplunkPodTemplateWithConfig_Ports (d : Deps) (p : PodTemplateSpec) (cr : MetaObject)
    (spec : CommonSplunkSpec) (instanceType : InstanceType) (extraEnv : List EnvVar) :
    (updateSplunkPodTemplateWithConfig d p cr spec instanceType extraEnv).Spec.Containers.map
      (fun c => c.Ports) = p.Spec.Containers.map (fun c => c.Ports) := by
  unfold updateSplunkPodTemplateWithConfig
  simp only [List.map_map, Function.comp]
  split <;> split <;>
    simp [addSplunkVolumeToTemplate, List.map_map, Function.comp]

/-- The ports of the container of a stateful set built by `getSplunkStatefulSet`. -/
theorem getSplunkStatefulSet_Ports (d : Deps) (cr : MetaObject) (spec : CommonSplunkSpec)
    (instanceType : InstanceType) (replicas : Int) (extraEnv : List EnvVar) (ss : StatefulSet)
    (h : getSplunkStatefulSet d cr spec instanceType replicas extraEnv = .ok ss) :
    containerPorts ss = [d.SortContainerPorts (getSplunkContainerPorts d instanceType)] := by
  unfold getSplunkStatefulSet at h
  simp only at h
  split at h
  · exact absurd h (by simp)
  · injection h with h
    subst h
    simp only [containerPorts]
    rw [updateSplunkPodTemplateWithConfig_Ports]
    rfl

/-- The ports of a service built by `GetSplunkService`. -/
theorem GetSplunkService_Ports (d : Deps) (cr : MetaObject) (spec : CommonSpec)
    (instanceType : InstanceType) (isHeadless : Bool) :
    (GetSplunkService d cr spec instanceType isHeadless).Spec.Ports =
      d.SortServicePorts (getSplunkServicePorts d instanceType) := by
  unfold GetSplunkService
  cases isHeadless <;> simp only [Bool.false_eq_true, if_false, if_true] <;> split_ifs <;> rfl


/-- C12: port order is deterministic. Take two calls for the same instance type, each
in an environment that enumerates the port map in an order of its own and whose
sort helpers sort by port number. The container port list of the stateful sets that
`getSplunkStatefulSet` returns is the same list in both calls, and so is the service
port list of `GetSplunkService`: each is the port table sorted by port number, holding
exactly the name/number pairs of the table with protocol TCP. -/
theorem port_order_deterministic (d1 d2 : Deps) (h1 : SortsPorts d1) (h2 : SortsPorts d2)
    (instanceType : InstanceType) :
    (∀ cr1 spec1 replicas1 extraEnv1 ss1 cr2 spec2 replicas2 extraEnv2 ss2,
      getSplunkStatefulSet d1 cr1 spec1 instanceType replicas1 extraEnv1 = .ok ss1 →
      getSplunkStatefulSet d2 cr2 spec2 instanceType replicas2 extraEnv2 = .ok ss2 →
      containerPorts ss1 = containerPorts ss2 ∧
      containerPorts ss1 =
        [SortContainerPorts ((getSplunkPorts instanceType).map toContainerPort)]) ∧
    (∀ cr1 spec1 isHeadless1 cr2 spec2 isHeadless2,
      (GetSplunkService d1 cr1 spec1 instanceType isHeadless1).Spec.Ports =
        (GetSplunkService d2 cr2 spec2 instanceType isHeadless2).Spec.Ports ∧
      (GetSplunkService d1 cr1 spec1 instanceType isHeadless1).Spec.Ports =
        SortServicePorts ((getSplunkPorts instanceType).map toServicePort)) ∧
    ((SortContainerPorts ((getSplunkPorts instanceType).map toContainerPort)).Perm
        ((getSplunkPorts instanceType).map toContainerPort) ∧
      (SortContainerPorts ((getSplunkPorts instanceType).map toContainerPort)).Pairwise
        containerPortLE) ∧
    ((SortServicePorts ((getSplunkPorts instanceType).map toServicePort)).Perm
        ((getSplunkPorts instanceType).map toServicePort) ∧
      (SortServicePorts ((getSplunkPorts instanceType).map toServicePort)).Pairwise
        servicePortLE) := by
  refine ⟨?_, ?_, SortContainerPorts_sorted _, SortServicePorts_sorted _⟩
  · intro cr1 spec1 replicas1 extraEnv1 ss1 cr2 spec2 replicas2 extraEnv2 ss2 hs1 hs2
    rw [getSplunkStatefulSet_Ports d1 cr1 spec1 instanceType replicas1 extraEnv1 ss1 hs1,
      getSplunkStatefulSet_Ports d2 cr2 spec2 instanceType replicas2 extraEnv2 ss2 hs2,
      sorted_container_ports d1 h1, sorted_container_ports d2 h2]
    exact ⟨rfl, rfl⟩
  · intro cr1 spec1 isHeadless1 cr2 spec2 isHeadless2
    rw [GetSplunkService_Ports, GetSplunkService_Ports, sorted_service_ports d1 h1,
      sorted_service_ports d2 h2]
    exact ⟨rfl, rfl⟩

/-- C12, on the standalone stateful sets of the parent `s1` built by a runtime that
enumerates the port map backwards and by one that enumerates it forwards: both hold
the seven ports of the table in the order 8000, 8088, 8089, 9000, 9997, 17000,
19000. -/
theorem port_order_deterministic_witness :
    SortsPorts sortingDeps ∧ SortsPorts sortingDepsForward ∧
    sortingDeps.rangePorts (getSplunkPorts .SplunkStandalone) ≠
      sortingDepsForward.rangePorts (getSplunkPorts .SplunkStandalone) ∧
    (∃ ss1 ss2,
      getSplunkStatefulSet sortingDeps sampleCR {} .SplunkStandalone 1 [] = .ok ss1 ∧
      getSplunkStatefulSet sortingDepsForward sampleCR {} .SplunkStandalone 1 [] = .ok ss2 ∧
      containerPorts ss1 = containerPorts ss2 ∧
      containerPorts ss1 =
        [SortContainerPorts ((getSplunkPorts .SplunkStandalone).map toContainerPort)]) ∧
    SortContainerPorts ((getSplunkPorts .SplunkStandalone).map toContainerPort) =
      [ { Name := "splunkweb", ContainerPort := 8000, Protocol := "TCP" },
        { Name := "hec", ContainerPort := 8088, Protocol := "TCP" },
        { Name := "splunkd", ContainerPort := 8089, Protocol := "TCP" },
        { Name := "dfsmaster", ContainerPort := 9000, Protocol := "TCP" },
        { Name := "s2s", ContainerPort := 9997, Protocol := "TCP" },
        { Name := "dfccontrol", ContainerPort := 17000, Protocol := "TCP" },
        { Name := "datarecieve", ContainerPort := 19000, Protocol := "TCP" } ] :=
  ⟨sortingDeps_SortsPorts, sortingDepsForward_SortsPorts, by decide,
   ⟨_, _, rfl, rfl,
     (port_order_deterministic sortingDeps sortingDepsForward sortingDeps_SortsPorts
       sortingDepsForward_SortsPorts .SplunkStandalone).1 sampleCR {} 1 [] _ sampleCR {} 1 [] _
       rfl rfl⟩,
   by decide⟩


/-! ## Services -/

/-- C13: the bootstrap traffic exception. For every parent and spec the service of
`GetSplunkService` has `PublishNotReadyAddresses = true` whenever the instance type
is the deployer (headless or not) or the search head with `isHeadless = true`; and
every headless service of any other instance type has
`PublishNotReadyAddresses = false` and `ClusterIP = "None"`. -/
theorem publish_not_ready_addresses (d : Deps) (cr : MetaObject) (spec : CommonSpec)
    (instanceType : InstanceType) (isHeadless : Bool) :
    ((instanceType = .SplunkDeployer ∨ (instanceType = .SplunkSearchHead ∧ isHeadless = true)) →
      (GetSplunkService d cr spec instanceType isHeadless).Spec.PublishNotReadyAddresses = true) ∧
    (isHeadless = true → instanceType ≠ .SplunkDeployer → instanceType ≠ .SplunkSearchHead →
      (GetSplunkService d cr spec instanceType isHeadless).Spec.PublishNotReadyAddresses = false ∧
      (GetSplunkService d cr spec instanceType isHeadless).Spec.ClusterIP = "None") := by
  constructor
  · intro h
    unfold GetSplunkService
    simp only
    rw [if_pos h]
  · intro hh h1 h2
    have hn : ¬ (instanceType = .SplunkDeployer ∨
        (instanceType = .SplunkSearchHead ∧ isHeadless = true)) := by
      rintro (h | ⟨h, _⟩)
      · exact h1 h
      · exact h2 h
    unfold GetSplunkService
    simp only
    rw [if_neg hn]
    subst hh
    exact ⟨rfl, rfl⟩

/-- C13, on the services of the parent `s1`: the deployer service that is not
headless, the headless search-head service, and the headless indexer service. -/
theorem publish_not_ready_addresses_witness :
    (GetSplunkService sampleDeps sampleCR {} .SplunkDeployer false).Spec.PublishNotReadyAddresses
      = true ∧
    (GetSplunkService sampleDeps sampleCR {} .SplunkSearchHead true).Spec.PublishNotReadyAddresses
      = true ∧
    ((GetSplunkService sampleDeps sampleCR {} .SplunkIndexer true).Spec.PublishNotReadyAddresses
      = false ∧
     (GetSplunkService sampleDeps sampleCR {} .SplunkIndexer true).Spec.ClusterIP = "None") :=
  ⟨(publish_not_ready_addresses sampleDeps sampleCR {} .SplunkDeployer false).1 (Or.inl rfl),
   (publish_not_ready_addresses sampleDeps sampleCR {} .SplunkSearchHead true).1
     (Or.inr ⟨rfl, rfl⟩),
   (publish_not_ready_addresses sampleDeps sampleCR {} .SplunkIndexer true).2 rfl
     (by decide) (by decide)⟩

/-! ## Secrets -/

/-- C14: for every non-empty caller-supplied `idxcSecret`, the secret of
`GetSplunkSecrets` holds exactly these bytes under `idxc_secret`; for an empty (or
nil) `idxcSecret` it holds the output of `generateSplunkSecret`, drawn first from
the random generator. -/
theorem idxc_secret_override (d : Deps) (rng : Rng) (cr : MetaObject)
    (instanceType : InstanceType) (idxcSecret : Bytes) :
    (idxcSecret ≠ [] →
      dataGet (GetSplunkSecrets d rng cr instanceType idxcSecret).1.Data "idxc_secret" =
        some idxcSecret) ∧
    (idxcSecret = [] →
      dataGet (GetSplunkSecrets d rng cr instanceType idxcSecret).1.Data "idxc_secret" =
        some (generateSplunkSecret d rng).1) := by
  constructor
  · intro h
    have hl : ¬ idxcSecret.length = 0 := fun h0 => h (List.length_eq_zero.mp h0)
    unfold GetSplunkSecrets
    simp [dataGet, hl]
  · intro h
    subst h
    unfold GetSplunkSecrets
    simp [dataGet]

/-- C14, on the override `secret` and on the empty override. -/
theorem idxc_secret_override_witness :
    "secret".toList ≠ [] ∧
    dataGet (GetSplunkSecrets sampleDeps 0 sampleCR .SplunkIndexer "secret".toList).1.Data
      "idxc_secret" = some "secret".toList ∧
    dataGet (GetSplunkSecrets sampleDeps 0 sampleCR .SplunkIndexer []).1.Data "idxc_secret" =
      some (generateSplunkSecret sampleDeps 0).1 :=
  ⟨by decide,
   (idxc_secret_override sampleDeps 0 sampleCR .SplunkIndexer "secret".toList).1 (by decide),
   (idxc_secret_override sampleDeps 0 sampleCR .SplunkIndexer []).2 rfl⟩

/-- C15: whenever the randomness source returns the 36 bytes it is asked for,
`generateHECToken` returns 36 bytes, with a dash at each of the 0-indexed positions
8, 13, 18 and 23, and at every other position the byte the randomness source
produced there. -/
theorem generateHECToken_format (d : Deps) (rng : Rng)
    (hlen : (d.GenerateSecret rng d.hexBytes 36).1.length = 36) :
    (generateHECToken d rng).1.length = 36 ∧
    (∀ i ∈ hecDashPositions, (generateHECToken d rng).1[i]? = some '-') ∧
    (∀ i, i ∉ hecDashPositions →
      (generateHECToken d rng).1[i]? = (d.GenerateSecret rng d.hexBytes 36).1[i]?) := by
  refine ⟨?_, ?_, ?_⟩
  · simp [generateHECToken, hlen]
  · intro i hi
    simp only [hecDashPositions, List.mem_cons, List.mem_singleton, List.not_mem_nil,
      or_false] at hi
    rcases hi with rfl | rfl | rfl | rfl <;>
      simp [generateHECToken, List.getElem?_set, hlen]
  · intro i hi
    simp only [hecDashPositions, List.mem_cons, List.mem_singleton, List.not_mem_nil,
      or_false, not_or] at hi
    obtain ⟨h8, h13, h18, h23⟩ := hi
    simp [generateHECToken, List.getElem?_set, Ne.symm h8, Ne.symm h13, Ne.symm h18,
      Ne.symm h23]

/-- C15, on the example randomness source, which returns 36 times the byte `a`. -/
theorem generateHECToken_format_witness :
    (sampleDeps.GenerateSecret 0 sampleDeps.hexBytes 36).1.length = 36 ∧
    (generateHECToken sampleDeps 0).1.length = 36 ∧
    (generateHECToken sampleDeps 0).1 = "aaaaaaaa-aaaa-aaaa-aaaa-aaaaaaaaaaaa".toList ∧
    (∀ i ∈ hecDashPositions, (generateHECToken sampleDeps 0).1[i]? = some '-') :=
  ⟨by decide, (generateHECToken_format sampleDeps 0 (by decide)).1, by decide,
   (generateHECToken_format sampleDeps 0 (by decide)).2.1⟩

/-- C17: the data of the secret of `GetSplunkSecrets` has exactly the six keys
hec_token, password, pass4SymmKey, idxc_secret, shc_secret and default.yml, each
once; the data of the config map of `GetSplunkDefaults` has exactly one key,
default.yml, whose value is the defaults string passed in. -/
theorem secret_and_defaults_keys (d : Deps) (rng : Rng) (cr : MetaObject)
    (instanceType : InstanceType) (idxcSecret : Bytes) (identifier namespace_ defaults : String) :
    (GetSplunkSecrets d rng cr instanceType idxcSecret).1.Data.map Prod.fst =
      ["hec_token", "password", "pass4SymmKey", "idxc_secret", "shc_secret", "default.yml"] ∧
    ((GetSplunkSecrets d rng cr instanceType idxcSecret).1.Data.map Prod.fst).Nodup ∧
    (GetSplunkDefaults d identifier namespace_ instanceType defaults).Data =
      [("default.yml", defaults)] := by
  refine ⟨rfl, ?_, rfl⟩
  show (["hec_token", "password", "pass4SymmKey", "idxc_secret", "shc_secret",
    "default.yml"] : List String).Nodup
  decide


theorem expectText_append (text rest : Bytes) : expectText text (text ++ rest) = some rest := by
  unfold expectText
  rw [if_pos (List.isPrefixOf_iff_prefix.mpr (List.prefix_append text rest))]
  simp

theorem readScalar_append (v tail : Bytes) (hv : plainBytes v = true) :
    readScalar (v ++ quoteChar :: tail) = some (v, quoteChar :: tail) := by
  induction v with
  | nil => simp [readScalar]
  | cons c v ih =>
    simp only [plainBytes, List.all_cons, Bool.and_eq_true] at hv
    have hc : c ≠ quoteChar := by
      intro h
      subst h
      exact absurd hv.1 (by decide)
    have ih2 := ih (by simpa [plainBytes] using hv.2)
    simp only [List.cons_append, readScalar, if_neg hc, hv.1, if_true, List.append_eq, ih2]

theorem readScalar_text (v text rest : Bytes) (hv : plainBytes v = true)
    (ht : text.head? = some quoteChar) :
    readScalar (v ++ (text ++ rest)) = some (v, text ++ rest) := by
  cases text with
  | nil => simp at ht
  | cons q t =>
    simp only [List.head?_cons, Option.some.injEq] at ht
    subst ht
    exact readScalar_append v (t ++ rest) hv

theorem expectText_self (text : Bytes) : expectText text text = some [] := by
  have h := expectText_append text []
  rwa [List.append_nil] at h

/-- Reading back a rendered document gives the five values that were rendered,
provided every byte of them is a printable ASCII character other than the double
quote and the backslash. -/
theorem parseDefaultYml_secretsDefaultYml (a b c e f : Bytes)
    (ha : plainBytes a = true) (hb : plainBytes b = true) (hc : plainBytes c = true)
    (he : plainBytes e = true) (hf : plainBytes f = true) :
    parseDefaultYml (secretsDefaultYml a b c e f) =
      some { hec_token := a, password := b, pass4SymmKey := c, idxc_secret := e,
             shc_secret := f } := by
  unfold parseDefaultYml secretsDefaultYml
  simp only [List.append_assoc]
  rw [expectText_append]
  simp only
  rw [readScalar_text a _ _ ha (by rfl)]
  simp only
  rw [expectText_append]
  simp only
  rw [readScalar_text b _ _ hb (by rfl)]
  simp only
  rw [expectText_append]
  simp only
  rw [readScalar_text c _ _ hc (by rfl)]
  simp only
  rw [expectText_append]
  simp only
  rw [readScalar_text e _ _ he (by rfl)]
  simp only
  rw [expectText_append]
  simp only
  have hlast : readScalar (f ++ "\"\n".toList) = some (f, "\"\n".toList) := by
    have h := readScalar_text f "\"\n".toList [] hf rfl
    rwa [List.append_nil] at h
  rw [hlast]
  simp only
  rw [expectText_self]
  simp


/-- The data of the secret of `GetSplunkSecrets`, entry by entry. -/
theorem GetSplunkSecrets_Data (d : Deps) (rng : Rng) (cr : MetaObject)
    (instanceType : InstanceType) (idxcSecret : Bytes) :
    (GetSplunkSecrets d rng cr instanceType idxcSecret).1.Data =
      [ ("hec_token", (secretValues d rng idxcSecret).hec_token),
        ("password", (secretValues d rng idxcSecret).password),
        ("pass4SymmKey", (secretValues d rng idxcSecret).pass4SymmKey),
        ("idxc_secret", (secretValues d rng idxcSecret).idxc_secret),
        ("shc_secret", (secretValues d rng idxcSecret).shc_secret),
        ("default.yml", secretsDefaultYml (secretValues d rng idxcSecret).hec_token
          (secretValues d rng idxcSecret).password (secretValues d rng idxcSecret).pass4SymmKey
          (secretValues d rng idxcSecret).idxc_secret
          (secretValues d rng idxcSecret).shc_secret) ] :=
  rfl

set_option maxRecDepth 8000 in
/-- C16 as stated fails: with the cluster secret overridden by the three bytes
`a`, double quote, `b`, the bundle stores these bytes under `idxc_secret`, but they
are written into `default.yml` unescaped, so that the scalar of splunk.idxc.secret
closes after `a` and is followed by the stray text `b"`; reading the document back
does not yield the stored credentials. -/
theorem default_yml_quote_not_read_back :
    dataGet (GetSplunkSecrets sampleDeps 0 sampleCR .SplunkIndexer sampleQuotedSecret).1.Data
      "idxc_secret" = some sampleQuotedSecret ∧
    dataGet (GetSplunkSecrets sampleDeps 0 sampleCR .SplunkIndexer sampleQuotedSecret).1.Data
      "default.yml" =
      some ("\nsplunk:\n    hec_disabled: 0\n    hec_enableSSL: 0\n" ++
        "    hec_token: \"aaaaaaaa-aaaa-aaaa-aaaa-aaaaaaaaaaaa\"\n" ++
        "    password: \"aaaaaaaaaaaaaaaaaaaaaaaa\"\n" ++
        "    pass4SymmKey: \"aaaaaaaaaaaaaaaaaaaaaaaa\"\n" ++
        "    idxc:\n        secret: \"a\"b\"\n" ++
        "    shc:\n        secret: \"aaaaaaaaaaaaaaaaaaaaaaaa\"\n").toList ∧
    parsedCredentials (GetSplunkSecrets sampleDeps 0 sampleCR .SplunkIndexer
      sampleQuotedSecret).1 = none ∧
    parsedCredentials (GetSplunkSecrets sampleDeps 0 sampleCR .SplunkIndexer
      sampleQuotedSecret).1 ≠
      storedCredentials (GetSplunkSecrets sampleDeps 0 sampleCR .SplunkIndexer
        sampleQuotedSecret).1 := by
  refine ⟨by decide, rfl, by decide, by decide⟩

/-- C16 (amended): for every call of `GetSplunkSecrets` the bundle stores five
credentials, and its `default.yml` entry is the fixed bootstrap document with
exactly these five byte strings written, as they are, between the double quotes of
splunk.hec_token, splunk.password, splunk.pass4SymmKey, splunk.idxc.secret and
splunk.shc.secret. Reading the document back yields exactly the five stored values
whenever every byte of them is a printable ASCII character (0x20 to 0x7E) other than
the double quote and the backslash. -/
theorem default_yml_document (d : Deps) (rng : Rng) (cr : MetaObject)
    (instanceType : InstanceType) (idxcSecret : Bytes) :
    ∃ creds : Credentials,
      storedCredentials (GetSplunkSecrets d rng cr instanceType idxcSecret).1 = some creds ∧
      dataGet (GetSplunkSecrets d rng cr instanceType idxcSecret).1.Data "default.yml" =
        some (secretsDefaultYml creds.hec_token creds.password creds.pass4SymmKey
          creds.idxc_secret creds.shc_secret) ∧
      (plainBytes creds.hec_token = true → plainBytes creds.password = true →
        plainBytes creds.pass4SymmKey = true → plainBytes creds.idxc_secret = true →
        plainBytes creds.shc_secret = true →
        parsedCredentials (GetSplunkSecrets d rng cr instanceType idxcSecret).1 = some creds) := by
  refine ⟨secretValues d rng idxcSecret, ?_, ?_, ?_⟩
  · unfold storedCredentials
    simp only [GetSplunkSecrets_Data]
    simp [dataGet]
  · rw [GetSplunkSecrets_Data]
    simp [dataGet]
  · intro ha hb hc he hf
    unfold parsedCredentials
    rw [GetSplunkSecrets_Data]
    simp only [dataGet]
    simp only [String.reduceEq, if_false, if_true]
    exact parseDefaultYml_secretsDefaultYml _ _ _ _ _ ha hb hc he hf

/-- C16 (amended), on the bundle generated with the override `secret`: the five
stored values are printable ASCII without quote or backslash, and reading
`default.yml` back yields them. -/
theorem default_yml_document_witness :
    ∃ creds : Credentials,
      storedCredentials
        (GetSplunkSecrets sampleDeps 0 sampleCR .SplunkIndexer "secret".toList).1 = some creds ∧
      creds.idxc_secret = "secret".toList ∧
      (plainBytes creds.hec_token = true ∧ plainBytes creds.password = true ∧
        plainBytes creds.pass4SymmKey = true ∧ plainBytes creds.idxc_secret = true ∧
        plainBytes creds.shc_secret = true) ∧
      parsedCredentials
        (GetSplunkSecrets sampleDeps 0 sampleCR .SplunkIndexer "secret".toList).1 = some creds := by
  obtain ⟨creds, h1, _, h3⟩ :=
    default_yml_document sampleDeps 0 sampleCR .SplunkIndexer "secret".toList
  have h0 : storedCredentials
      (GetSplunkSecrets sampleDeps 0 sampleCR .SplunkIndexer "secret".toList).1 =
      some { hec_token := "aaaaaaaa-aaaa-aaaa-aaaa-aaaaaaaaaaaa".toList,
             password := List.replicate 24 'a', pass4SymmKey := List.replicate 24 'a',
             idxc_secret := "secret".toList, shc_secret := List.replicate 24 'a' } := by
    decide
  rw [h0] at h1
  injection h1 with h1
  subst h1
  exact ⟨_, h0, rfl, by decide, h3 (by decide) (by decide) (by decide) (by decide) (by decide)⟩


/-! ## Spark integration: init container, volumes and slots -/

theorem GetStandaloneStatefulSet_plain (d : Deps) (cr : Standalone)
    (h : cr.Spec.SparkRef.Name = "") :
    GetStandaloneStatefulSet d cr =
      getSplunkStatefulSet d cr.Meta cr.Spec.CommonSplunkSpec .SplunkStandalone
        cr.Spec.Replicas [] := by
  unfold GetStandaloneStatefulSet
  simp only [h, ne_eq, not_true_eq_false, if_false]
  cases getSplunkStatefulSet d cr.Meta cr.Spec.CommonSplunkSpec .SplunkStandalone
    cr.Spec.Replicas [] <;> rfl

theorem GetSearchHeadStatefulSet_plain (d : Deps) (cr : SearchHead)
    (h : cr.Spec.SparkRef.Name = "") :
    GetSearchHeadStatefulSet d cr =
      getSplunkStatefulSet d cr.Meta cr.Spec.CommonSplunkSpec .SplunkSearchHead
        cr.Spec.Replicas
        (getSearchHeadExtraEnv d cr.Meta cr.Spec.Replicas ++
          [{ Name := "SPLUNK_DEPLOYER_URL",
             Value := d.GetSplunkServiceName .SplunkDeployer cr.Meta.Identifier false }]) := by
  unfold GetSearchHeadStatefulSet
  simp only [h, ne_eq, not_true_eq_false, if_false]
  cases getSplunkStatefulSet d cr.Meta cr.Spec.CommonSplunkSpec .SplunkSearchHead
    cr.Spec.Replicas _ <;> rfl

theorem GetStandaloneStatefulSet_applies (d : Deps) (cr : Standalone)
    (h : cr.Spec.SparkRef.Name ≠ "") (ss0 : StatefulSet)
    (h0 : getSplunkStatefulSet d cr.Meta cr.Spec.CommonSplunkSpec .SplunkStandalone
      cr.Spec.Replicas [] = .ok ss0) :
    GetStandaloneStatefulSet d cr =
      .ok { ss0 with Spec := { ss0.Spec with Template :=
        (addDFCToPodTemplate d ss0.Spec.Template cr.Spec.SparkRef cr.Spec.SparkImage
          cr.Spec.CommonSplunkSpec.CommonSpec.ImagePullPolicy
          (decide (cr.Spec.Replicas > 1))).1 } } := by
  unfold GetStandaloneStatefulSet
  rw [h0]
  simp only [h, ne_eq, not_false_eq_true, if_true]
  rfl

theorem GetSearchHeadStatefulSet_applies (d : Deps) (cr : SearchHead)
    (h : cr.Spec.SparkRef.Name ≠ "") (ss0 : StatefulSet)
    (h0 : getSplunkStatefulSet d cr.Meta cr.Spec.CommonSplunkSpec .SplunkSearchHead
      cr.Spec.Replicas
      (getSearchHeadExtraEnv d cr.Meta cr.Spec.Replicas ++
        [{ Name := "SPLUNK_DEPLOYER_URL",
           Value := d.GetSplunkServiceName .SplunkDeployer cr.Meta.Identifier false }]) = .ok ss0) :
    GetSearchHeadStatefulSet d cr =
      .ok { ss0 with Spec := { ss0.Spec with Template :=
        (addDFCToPodTemplate d ss0.Spec.Template cr.Spec.SparkRef cr.Spec.SparkImage
          cr.Spec.CommonSplunkSpec.CommonSpec.ImagePullPolicy
          (decide (cr.Spec.Replicas > 1))).1 } } := by
  unfold GetSearchHeadStatefulSet
  simp only
  rw [h0]
  simp only [h, ne_eq, not_false_eq_true, if_true]
  rfl

/-- C18: for every pod template, `addDFCToPodTemplate` appends exactly one init
container, named "init", that mounts mnt-splunk-jdk at /mnt/jdk and mnt-splunk-spark
at /mnt/spark; appends exactly two pod volumes, both EmptyDir, named mnt-splunk-jdk
and mnt-splunk-spark; and appends to every application container exactly the two
volume mounts of these volumes at /mnt/splunk-jdk and /mnt/splunk-spark. The init
containers, volumes and mounts that were there stay in front, unchanged, and no
container is added or dropped. `GetStandaloneStatefulSet` and
`GetSearchHeadStatefulSet` apply it to the template of `getSplunkStatefulSet` when
`SparkRef.Name` is non-empty, and return the stateful set of `getSplunkStatefulSet`
as it is when the name is empty. -/
theorem addDFCToPodTemplate_objects (d : Deps) :
    (∀ (p : PodTemplateSpec) (sparkRef : ObjectReference) (sparkImage imagePullPolicy : String)
        (slotsEnabled : Bool),
      (∃ init : Container,
        (addDFCToPodTemplate d p sparkRef sparkImage imagePullPolicy slotsEnabled).1.Spec.InitContainers
          = p.Spec.InitContainers ++ [init] ∧
        init.Name = "init" ∧ init.Image = sparkImage ∧
        init.VolumeMounts = [ { Name := "mnt-splunk-jdk", MountPath := "/mnt/jdk" },
                              { Name := "mnt-splunk-spark", MountPath := "/mnt/spark" } ]) ∧
      (addDFCToPodTemplate d p sparkRef sparkImage imagePullPolicy slotsEnabled).1.Spec.Volumes =
        p.Spec.Volumes ++ [ { Name := "mnt-splunk-jdk", VolumeSource := .EmptyDir },
                            { Name := "mnt-splunk-spark", VolumeSource := .EmptyDir } ] ∧
      (addDFCToPodTemplate d p sparkRef sparkImage imagePullPolicy slotsEnabled).1.Spec.Containers.map
          (fun c => c.VolumeMounts) =
        p.Spec.Containers.map (fun c => c.VolumeMounts ++
          [ { Name := "mnt-splunk-jdk", MountPath := "/mnt/splunk-jdk" },
            { Name := "mnt-splunk-spark", MountPath := "/mnt/splunk-spark" } ]) ∧
      (addDFCToPodTemplate d p sparkRef sparkImage imagePullPolicy slotsEnabled).1.Spec.Containers.map
          (fun c => c.Name) = p.Spec.Containers.map (fun c => c.Name)) ∧
    (∀ cr : Standalone,
      (cr.Spec.SparkRef.Name ≠ "" → ∀ ss0,
        getSplunkStatefulSet d cr.Meta cr.Spec.CommonSplunkSpec .SplunkStandalone
          cr.Spec.Replicas [] = .ok ss0 →
        GetStandaloneStatefulSet d cr =
          .ok { ss0 with Spec := { ss0.Spec with Template :=
            (addDFCToPodTemplate d ss0.Spec.Template cr.Spec.SparkRef cr.Spec.SparkImage
              cr.Spec.CommonSplunkSpec.CommonSpec.ImagePullPolicy
              (decide (cr.Spec.Replicas > 1))).1 } }) ∧
      (cr.Spec.SparkRef.Name = "" →
        GetStandaloneStatefulSet d cr =
          getSplunkStatefulSet d cr.Meta cr.Spec.CommonSplunkSpec .SplunkStandalone
            cr.Spec.Replicas [])) ∧
    (∀ cr : SearchHead,
      (cr.Spec.SparkRef.Name ≠ "" → ∀ ss0,
        getSplunkStatefulSet d cr.Meta cr.Spec.CommonSplunkSpec .SplunkSearchHead
          cr.Spec.Replicas
          (getSearchHeadExtraEnv d cr.Meta cr.Spec.Replicas ++
            [{ Name := "SPLUNK_DEPLOYER_URL",
               Value := d.GetSplunkServiceName .SplunkDeployer cr.Meta.Identifier false }])
          = .ok ss0 →
        GetSearchHeadStatefulSet d cr =
          .ok { ss0 with Spec := { ss0.Spec with Template :=
            (addDFCToPodTemplate d ss0.Spec.Template cr.Spec.SparkRef cr.Spec.SparkImage
              cr.Spec.CommonSplunkSpec.CommonSpec.ImagePullPolicy
              (decide (cr.Spec.Replicas > 1))).1 } }) ∧
      (cr.Spec.SparkRef.Name = "" →
        GetSearchHeadStatefulSet d cr =
          getSplunkStatefulSet d cr.Meta cr.Spec.CommonSplunkSpec .SplunkSearchHead
            cr.Spec.Replicas
            (getSearchHeadExtraEnv d cr.Meta cr.Spec.Replicas ++
              [{ Name := "SPLUNK_DEPLOYER_URL",
                 Value := d.GetSplunkServiceName .SplunkDeployer cr.Meta.Identifier false }]))) := by
  refine ⟨?_, ?_, ?_⟩
  · intro p sparkRef sparkImage imagePullPolicy slotsEnabled
    refine ⟨⟨_, rfl, rfl, rfl, rfl⟩, ?_, ?_, ?_⟩
    · simp [addDFCToPodTemplate, addSplunkVolumeToTemplate]
    · simp [addDFCToPodTemplate, addSplunkVolumeToTemplate, List.map_map, Function.comp]
    · simp [addDFCToPodTemplate, addSplunkVolumeToTemplate, List.map_map, Function.comp]
  · intro cr
    exact ⟨fun h ss0 h0 => GetStandaloneStatefulSet_applies d cr h ss0 h0,
      GetStandaloneStatefulSet_plain d cr⟩
  · intro cr
    exact ⟨fun h ss0 h0 => GetSearchHeadStatefulSet_applies d cr h ss0 h0,
      GetSearchHeadStatefulSet_plain d cr⟩

/-- C18, on the standalone resource that refers to the Spark cluster `s1`: the
stateful set is the one of `getSplunkStatefulSet` with `addDFCToPodTemplate` applied,
and it has one init container and the volumes of the secrets, the JDK and Spark. -/
theorem addDFCToPodTemplate_objects_witness :
    sampleStandaloneDFS.Spec.SparkRef.Name ≠ "" ∧
    ∃ ss0 ss,
      getSplunkStatefulSet sampleDeps sampleStandaloneDFS.Meta
        sampleStandaloneDFS.Spec.CommonSplunkSpec .SplunkStandalone
        sampleStandaloneDFS.Spec.Replicas [] = .ok ss0 ∧
      GetStandaloneStatefulSet sampleDeps sampleStandaloneDFS = .ok ss ∧
      ss = { ss0 with Spec := { ss0.Spec with Template :=
            (addDFCToPodTemplate sampleDeps ss0.Spec.Template sampleStandaloneDFS.Spec.SparkRef
              sampleStandaloneDFS.Spec.SparkImage
              sampleStandaloneDFS.Spec.CommonSplunkSpec.CommonSpec.ImagePullPolicy
              (decide (sampleStandaloneDFS.Spec.Replicas > 1))).1 } } ∧
      ss.Spec.Template.Spec.InitContainers.map (fun c => c.Name) = ["init"] ∧
      ss.Spec.Template.Spec.Volumes.map (fun v => v.Name) =
        ["mnt-splunk-secrets", "mnt-splunk-jdk", "mnt-splunk-spark"] :=
  ⟨by decide, _, _, rfl,
   (addDFCToPodTemplate_objects sampleDeps).2.1 sampleStandaloneDFS |>.1 (by decide) _ rfl,
   rfl, by decide, by decide⟩


theorem envNamed_slots_splunkEnv (d : Deps) (cr : MetaObject) (spec : CommonSplunkSpec)
    (instanceType : InstanceType) (extraEnv : List EnvVar) :
    envNamed "SPLUNK_DFW_NUM_SLOTS_ENABLED" (splunkEnv d cr spec instanceType extraEnv) =
      envNamed "SPLUNK_DFW_NUM_SLOTS_ENABLED" extraEnv := by
  rw [splunkEnv_eq]
  simp only [envNamed_append]
  split_ifs <;> simp [envNamed]

theorem envNamed_slots_dfsEnvVar (host : String) (slotsEnabled : Bool) :
    envNamed "SPLUNK_DFW_NUM_SLOTS_ENABLED" (dfsEnvVar host slotsEnabled) =
      [{ Name := "SPLUNK_DFW_NUM_SLOTS_ENABLED",
         Value := if slotsEnabled then "true" else "false" }] := by
  cases slotsEnabled <;> simp [envNamed, dfsEnvVar, List.modify, List.modifyTailIdx,
    List.modifyHead]

/-- The slot flag on the containers of a stateful set whose environments are those
of `splunkEnv` followed by `dfsEnvVar`. -/
theorem slots_of_containerEnvs (d : Deps) (cr : MetaObject) (spec : CommonSplunkSpec)
    (instanceType : InstanceType) (extraEnv : List EnvVar) (host : String) (slotsEnabled : Bool)
    (ss : StatefulSet)
    (hextra : envNamed "SPLUNK_DFW_NUM_SLOTS_ENABLED" extraEnv = [])
    (h : containerEnvs ss =
      [splunkEnv d cr spec instanceType extraEnv ++ dfsEnvVar host slotsEnabled]) :
    ∀ c ∈ ss.Spec.Template.Spec.Containers,
      envNamed "SPLUNK_DFW_NUM_SLOTS_ENABLED" c.Env =
        [{ Name := "SPLUNK_DFW_NUM_SLOTS_ENABLED",
           Value := if slotsEnabled then "true" else "false" }] := by
  intro c hc
  rw [mem_containerEnvs ss _ h c hc, envNamed_append, envNamed_slots_splunkEnv, hextra,
    envNamed_slots_dfsEnvVar]
  rfl

theorem map_env_append (cs : List Container) (env extra : List EnvVar)
    (h : cs.map (fun c => c.Env) = [env]) :
    cs.map (fun c => c.Env ++ extra) = [env ++ extra] := by
  have h2 := congrArg (List.map (fun e => e ++ extra)) h
  simpa [List.map_map, Function.comp] using h2

theorem GetStandaloneStatefulSet_slots (d : Deps) (cr : Standalone) (ss : StatefulSet)
    (h : cr.Spec.SparkRef.Name ≠ "") (hs : GetStandaloneStatefulSet d cr = .ok ss) :
    ∀ c ∈ ss.Spec.Template.Spec.Containers,
      envNamed "SPLUNK_DFW_NUM_SLOTS_ENABLED" c.Env =
        [{ Name := "SPLUNK_DFW_NUM_SLOTS_ENABLED",
           Value := if decide (cr.Spec.Replicas > 1) then "true" else "false" }] := by
  cases h0 : getSplunkStatefulSet d cr.Meta cr.Spec.CommonSplunkSpec .SplunkStandalone
      cr.Spec.Replicas [] with
  | error err =>
    have he : GetStandaloneStatefulSet d cr = .error err := by
      unfold GetStandaloneStatefulSet
      rw [h0]
    rw [he] at hs
    exact absurd hs (by simp)
  | ok ss0 =>
    rw [GetStandaloneStatefulSet_applies d cr h ss0 h0] at hs
    injection hs with hs
    subst hs
    refine slots_of_containerEnvs d cr.Meta cr.Spec.CommonSplunkSpec .SplunkStandalone []
      (sparkMasterHost d cr.Spec.SparkRef) _ _ rfl ?_
    have h1 := getSplunkStatefulSet_Env _ _ _ _ _ _ _ h0
    simp only [containerEnvs] at h1 ⊢
    rw [addDFCToPodTemplate_Env]
    exact map_env_append _ _ _ h1

theorem GetSearchHeadStatefulSet_slots (d : Deps) (cr : SearchHead) (ss : StatefulSet)
    (h : cr.Spec.SparkRef.Name ≠ "") (hs : GetSearchHeadStatefulSet d cr = .ok ss) :
    ∀ c ∈ ss.Spec.Template.Spec.Containers,
      envNamed "SPLUNK_DFW_NUM_SLOTS_ENABLED" c.Env =
        [{ Name := "SPLUNK_DFW_NUM_SLOTS_ENABLED",
           Value := if decide (cr.Spec.Replicas > 1) then "true" else "false" }] := by
  cases h0 : getSplunkStatefulSet d cr.Meta cr.Spec.CommonSplunkSpec .SplunkSearchHead
      cr.Spec.Replicas
      (getSearchHeadExtraEnv d cr.Meta cr.Spec.Replicas ++
        [{ Name := "SPLUNK_DEPLOYER_URL",
           Value := d.GetSplunkServiceName .SplunkDeployer cr.Meta.Identifier false }]) with
  | error err =>
    have he : GetSearchHeadStatefulSet d cr = .error err := by
      unfold GetSearchHeadStatefulSet
      simp only
      rw [h0]
    rw [he] at hs
    exact absurd hs (by simp)
  | ok ss0 =>
    rw [GetSearchHeadStatefulSet_applies d cr h ss0 h0] at hs
    injection hs with hs
    subst hs
    refine slots_of_containerEnvs d cr.Meta cr.Spec.CommonSplunkSpec .SplunkSearchHead
      (getSearchHeadExtraEnv d cr.Meta cr.Spec.Replicas ++
        [{ Name := "SPLUNK_DEPLOYER_URL",
           Value := d.GetSplunkServiceName .SplunkDeployer cr.Meta.Identifier false }])
      (sparkMasterHost d cr.Spec.SparkRef) _ _ (by simp [envNamed, getSearchHeadExtraEnv]) ?_
    have h1 := getSplunkStatefulSet_Env _ _ _ _ _ _ _ h0
    simp only [containerEnvs] at h1 ⊢
    rw [addDFCToPodTemplate_Env]
    exact map_env_append _ _ _ h1


/-- C19: for every Standalone and every SearchHead resource with a non-empty
`SparkRef.Name`, on every application container of the stateful set returned the
variable SPLUNK_DFW_NUM_SLOTS_ENABLED occurs once, with the value "false" when
`Spec.Replicas <= 1` and "true" when `Spec.Replicas > 1`. -/
theorem slots_enabled_flag (d : Deps) :
    (∀ (cr : Standalone) (ss : StatefulSet), cr.Spec.SparkRef.Name ≠ "" →
      GetStandaloneStatefulSet d cr = .ok ss →
      ∀ c ∈ ss.Spec.Template.Spec.Containers,
        (cr.Spec.Replicas ≤ 1 →
          envNamed "SPLUNK_DFW_NUM_SLOTS_ENABLED" c.Env =
            [{ Name := "SPLUNK_DFW_NUM_SLOTS_ENABLED", Value := "false" }]) ∧
        (cr.Spec.Replicas > 1 →
          envNamed "SPLUNK_DFW_NUM_SLOTS_ENABLED" c.Env =
            [{ Name := "SPLUNK_DFW_NUM_SLOTS_ENABLED", Value := "true" }])) ∧
    (∀ (cr : SearchHead) (ss : StatefulSet), cr.Spec.SparkRef.Name ≠ "" →
      GetSearchHeadStatefulSet d cr = .ok ss →
      ∀ c ∈ ss.Spec.Template.Spec.Containers,
        (cr.Spec.Replicas ≤ 1 →
          envNamed "SPLUNK_DFW_NUM_SLOTS_ENABLED" c.Env =
            [{ Name := "SPLUNK_DFW_NUM_SLOTS_ENABLED", Value := "false" }]) ∧
        (cr.Spec.Replicas > 1 →
          envNamed "SPLUNK_DFW_NUM_SLOTS_ENABLED" c.Env =
            [{ Name := "SPLUNK_DFW_NUM_SLOTS_ENABLED", Value := "true" }])) := by
  constructor
  · intro cr ss h hs c hc
    have hv := GetStandaloneStatefulSet_slots d cr ss h hs c hc
    constructor
    · intro hr
      have hd : decide (cr.Spec.Replicas > 1) = false := decide_eq_false (by omega)
      rw [hv, hd]
      rfl
    · intro hr
      have hd : decide (cr.Spec.Replicas > 1) = true := decide_eq_true hr
      rw [hv, hd]
      rfl
  · intro cr ss h hs c hc
    have hv := GetSearchHeadStatefulSet_slots d cr ss h hs c hc
    constructor
    · intro hr
      have hd : decide (cr.Spec.Replicas > 1) = false := decide_eq_false (by omega)
      rw [hv, hd]
      rfl
    · intro hr
      have hd : decide (cr.Spec.Replicas > 1) = true := decide_eq_true hr
      rw [hv, hd]
      rfl

/-- C19, on a standalone resource with one replica (the flag is "false"), and on a
search-head resource with three replicas (the flag is "true"). -/
theorem slots_enabled_flag_witness :
    (sampleStandaloneSingle.Spec.SparkRef.Name ≠ "" ∧ sampleStandaloneSingle.Spec.Replicas ≤ 1 ∧
      ∃ ss, GetStandaloneStatefulSet sampleDeps sampleStandaloneSingle = .ok ss ∧
        ss.Spec.Template.Spec.Containers.length = 1 ∧
        ∀ c ∈ ss.Spec.Template.Spec.Containers,
          envNamed "SPLUNK_DFW_NUM_SLOTS_ENABLED" c.Env =
            [{ Name := "SPLUNK_DFW_NUM_SLOTS_ENABLED", Value := "false" }]) ∧
    (sampleSearchHeadDFS.Spec.SparkRef.Name ≠ "" ∧ sampleSearchHeadDFS.Spec.Replicas > 1 ∧
      ∃ ss, GetSearchHeadStatefulSet sampleDeps sampleSearchHeadDFS = .ok ss ∧
        ss.Spec.Template.Spec.Containers.length = 1 ∧
        ∀ c ∈ ss.Spec.Template.Spec.Containers,
          envNamed "SPLUNK_DFW_NUM_SLOTS_ENABLED" c.Env =
            [{ Name := "SPLUNK_DFW_NUM_SLOTS_ENABLED", Value := "true" }]) :=
  ⟨⟨by decide, by decide, _, rfl, rfl, fun c hc =>
      ((slots_enabled_flag sampleDeps).1 sampleStandaloneSingle _ (by decide) rfl c hc).1
        (by decide)⟩,
   ⟨by decide, by decide, _, rfl, rfl, fun c hc =>
      ((slots_enabled_flag sampleDeps).2 sampleSearchHeadDFS _ (by decide) rfl c hc).2
        (by decide)⟩⟩


/-! ## Reconciliation controller -/

/-- A key is present in a map exactly when the map index finds a value for it. -/
theorem mapGet_isSome_iff (m : StrMap) (key : String) :
    (mapGet m key).isSome = true ↔ ∃ v, (key, v) ∈ m := by
  induction m with
  | nil => simp [mapGet]
  | cons kv rest ih =>
    obtain ⟨k, v⟩ := kv
    unfold mapGet
    by_cases h : k = key
    · subst h
      simp
    · rw [if_neg h, ih]
      constructor
      · rintro ⟨w, hw⟩
        exact ⟨w, List.mem_cons_of_mem _ hw⟩
      · rintro ⟨w, hw⟩
        rcases List.mem_cons.mp hw with heq | hmem
        · exact absurd (congrArg Prod.fst heq).symm h
        · exact ⟨w, hmem⟩

/-- C20: for every request whose fetched SearchHeadCluster carries the pause
annotation key, with any value (the empty string included), `Reconcile` returns the
result with `Requeue = true` and `RequeueAfter = pauseRetryDelay` and a nil error,
and the pass makes no call of `enterprise.ApplySearchHeadCluster`, the only step
that creates or updates child objects. -/
theorem Reconcile_paused (k : Controller) (req : Request) (cr : SearchHeadCluster) (v : String)
    (hget : k.Get req.NamespacedName = .ok cr)
    (hpaused : (k.SearchHeadClusterPausedAnnotation, v) ∈ cr.ObjectMeta.Annotations) :
    (Reconcile k req).1 = ({ Requeue := true, RequeueAfter := k.pauseRetryDelay }, none) ∧
    (∀ e ∈ (Reconcile k req).2, e.isApply = false) ∧
    (Reconcile k req).2 = [.counterInc req, .logInfo "start", .get req.NamespacedName] := by
  have hne : cr.ObjectMeta.Annotations ≠ [] := List.ne_nil_of_mem hpaused
  have hsome : (mapGet cr.ObjectMeta.Annotations k.SearchHeadClusterPausedAnnotation).isSome
      = true := (mapGet_isSome_iff _ _).mpr ⟨v, hpaused⟩
  have hr : Reconcile k req =
      (({ Requeue := true, RequeueAfter := k.pauseRetryDelay }, none),
        [.counterInc req, .logInfo "start", .get req.NamespacedName]) := by
    unfold Reconcile
    rw [hget]
    simp only
    rw [if_pos hne, if_pos hsome]
  rw [hr]
  refine ⟨rfl, ?_, rfl⟩
  intro e he
  simp only [List.mem_cons, List.mem_singleton, List.not_mem_nil, or_false] at he
  rcases he with rfl | rfl | rfl <;> rfl

/-- C20, on the request for the cluster `test/shc`, whose pause annotation has the
empty string as value. -/
theorem Reconcile_paused_witness :
    sampleController.Get ({ NamespacedName := { Namespace := "test", Name := "shc" } } :
      Request).NamespacedName = .ok samplePaused ∧
    (sampleController.SearchHeadClusterPausedAnnotation, "") ∈ samplePaused.ObjectMeta.Annotations ∧
    (Reconcile sampleController { NamespacedName := { Namespace := "test", Name := "shc" } }).1 =
      ({ Requeue := true, RequeueAfter := sampleController.pauseRetryDelay }, none) ∧
    (∀ e ∈ (Reconcile sampleController
        { NamespacedName := { Namespace := "test", Name := "shc" } }).2, e.isApply = false) :=
  ⟨rfl, by decide,
   (Reconcile_paused sampleController { NamespacedName := { Namespace := "test", Name := "shc" } }
      samplePaused "" rfl (by decide)).1,
   (Reconcile_paused sampleController { NamespacedName := { Namespace := "test", Name := "shc" } }
      samplePaused "" rfl (by decide)).2.1⟩


/-- C21: when the fetch fails with a not-found error, `Reconcile` returns the empty
result (no requeue) and a nil error; when it fails with any other error, `Reconcile`
returns the empty result and the fetch error wrapped by `errors.Wrap`, which is not
nil. In both cases the pass makes no call of `enterprise.ApplySearchHeadCluster`. -/
theorem Reconcile_fetch_failure (k : Controller) (req : Request) (err : Error)
    (hget : k.Get req.NamespacedName = .error err) :
    (k.IsNotFound err = true →
      (Reconcile k req).1 = ({ Requeue := false, RequeueAfter := 0 }, none) ∧
      (∀ e ∈ (Reconcile k req).2, e.isApply = false)) ∧
    (k.IsNotFound err = false →
      (Reconcile k req).1 =
        ({ Requeue := false, RequeueAfter := 0 },
          some (.wrap "could not load standalone data" err)) ∧
      (Reconcile k req).1.2 ≠ none ∧
      (∀ e ∈ (Reconcile k req).2, e.isApply = false)) := by
  have hev : ∀ e ∈ ([.counterInc req, .logInfo "start", .get req.NamespacedName] : List Event),
      e.isApply = false := by
    intro e he
    simp only [List.mem_cons, List.mem_singleton, List.not_mem_nil, or_false] at he
    rcases he with rfl | rfl | rfl <;> rfl
  constructor
  · intro hnf
    have hr : Reconcile k req =
        (({ Requeue := false, RequeueAfter := 0 }, none),
          [.counterInc req, .logInfo "start", .get req.NamespacedName]) := by
      unfold Reconcile
      rw [hget]
      simp only
      rw [if_pos hnf]
    rw [hr]
    exact ⟨rfl, hev⟩
  · intro hnf
    have hr : Reconcile k req =
        (({ Requeue := false, RequeueAfter := 0 },
            some (.wrap "could not load standalone data" err)),
          [.counterInc req, .logInfo "start", .get req.NamespacedName]) := by
      unfold Reconcile
      rw [hget]
      simp only
      rw [if_neg (by simp [hnf])]
    rw [hr]
    exact ⟨rfl, by simp, hev⟩

/-- C21, on the request for a cluster that does not exist, and on a request to a
controller whose client cannot reach the API server. -/
theorem Reconcile_fetch_failure_witness :
    (sampleController.Get sampleRequestGone.NamespacedName = .error (.api "not found" true) ∧
      sampleController.IsNotFound (.api "not found" true) = true ∧
      (Reconcile sampleController sampleRequestGone).1 =
        ({ Requeue := false, RequeueAfter := 0 }, none) ∧
      (∀ e ∈ (Reconcile sampleController sampleRequestGone).2, e.isApply = false)) ∧
    (sampleUnreachable.Get sampleRequest.NamespacedName =
        .error (.api "connection refused" false) ∧
      sampleUnreachable.IsNotFound (.api "connection refused" false) = false ∧
      (Reconcile sampleUnreachable sampleRequest).1 =
        ({ Requeue := false, RequeueAfter := 0 },
          some (.wrap "could not load standalone data" (.api "connection refused" false))) ∧
      (Reconcile sampleUnreachable sampleRequest).1.2 ≠ none ∧
      (∀ e ∈ (Reconcile sampleUnreachable sampleRequest).2, e.isApply = false)) :=
  ⟨⟨rfl, rfl,
    (Reconcile_fetch_failure sampleController sampleRequestGone (.api "not found" true) rfl).1
      rfl⟩,
   ⟨rfl, rfl,
    (Reconcile_fetch_failure sampleUnreachable sampleRequest (.api "connection refused" false)
      rfl).2 rfl⟩⟩

/-- C22, evaluated on the code: of the three owned-object watches that
`SetupWithManager` registers, in this order on StatefulSets, Secrets and ConfigMaps,
each with `IsController` set, the first two have owner type SearchHeadCluster and
the third has owner type Standalone; so not every watch has owner type
SearchHeadCluster. The type named by `For` is SearchHeadCluster and the one event
filter registered is `predicate.Or(GenerationChangedPredicate)`. -/
theorem SetupWithManager_configmap_owner (TotalWorker : Int) :
    (SetupWithManager TotalWorker).Watches.map
        (fun w => (w.Source, w.Handler.IsController, w.Handler.OwnerType)) =
      [(.StatefulSet, true, .SearchHeadCluster), (.Secret, true, .SearchHeadCluster),
       (.ConfigMap, true, .Standalone)] ∧
    ¬ (∀ w ∈ (SetupWithManager TotalWorker).Watches,
        w.Handler.OwnerType = .SearchHeadCluster) ∧
    (SetupWithManager TotalWorker).For = .SearchHeadCluster ∧
    (SetupWithManager TotalWorker).EventFilter = [[.GenerationChangedPredicate]] ∧
    (SetupWithManager TotalWorker).MaxConcurrentReconciles = TotalWorker := by
  refine ⟨rfl, ?_, rfl, rfl, rfl⟩
  intro h
  have hw := h { Source := .ConfigMap,
                 Handler := { IsController := true, OwnerType := .Standalone } }
    (by simp [SetupWithManager])
  exact absurd hw (by decide)


/-! ## Volume claims -/

theorem getSplunkVolumeClaims_etc_error (d : Deps) (cr : MetaObject) (spec : CommonSplunkSpec)
    (labels : StrMap) (err : String)
    (h : d.ParseResourceQuantity spec.EtcStorage "1Gi" = .error err) :
    getSplunkVolumeClaims d cr spec labels = .error ("etcStorage: " ++ err) := by
  unfold getSplunkVolumeClaims
  rw [h]
  rfl

theorem getSplunkVolumeClaims_var_error (d : Deps) (cr : MetaObject) (spec : CommonSplunkSpec)
    (labels : StrMap) (etc : Quantity) (err : String)
    (h1 : d.ParseResourceQuantity spec.EtcStorage "1Gi" = .ok etc)
    (h2 : d.ParseResourceQuantity spec.VarStorage "200Gi" = .error err) :
    getSplunkVolumeClaims d cr spec labels = .error ("varStorage: " ++ err) := by
  unfold getSplunkVolumeClaims
  rw [h1]
  simp only
  rw [h2]
  rfl

theorem getSplunkVolumeClaims_ok (d : Deps) (cr : MetaObject) (spec : CommonSplunkSpec)
    (labels : StrMap) (etc var : Quantity)
    (h1 : d.ParseResourceQuantity spec.EtcStorage "1Gi" = .ok etc)
    (h2 : d.ParseResourceQuantity spec.VarStorage "200Gi" = .ok var) :
    getSplunkVolumeClaims d cr spec labels =
      .ok [ storageClaim "etc" cr.ObjectMeta.Namespace labels etc
              (if spec.CommonSpec.StorageClassName ≠ "" then
                some spec.CommonSpec.StorageClassName else none),
            storageClaim "var" cr.ObjectMeta.Namespace labels var
              (if spec.CommonSpec.StorageClassName ≠ "" then
                some spec.CommonSpec.StorageClassName else none) ] := by
  unfold getSplunkVolumeClaims
  rw [h1]
  simp only
  rw [h2]
  simp only
  split_ifs <;> rfl

/-- The result of `getSplunkStatefulSet` when the volume claims cannot be built. -/
theorem getSplunkStatefulSet_error (d : Deps) (cr : MetaObject) (spec : CommonSplunkSpec)
    (instanceType : InstanceType) (replicas : Int) (extraEnv : List EnvVar) (err : String)
    (h : getSplunkVolumeClaims d cr spec (statefulSetLabels d cr instanceType) = .error err) :
    getSplunkStatefulSet d cr spec instanceType replicas extraEnv = .error err := by
  unfold getSplunkStatefulSet
  unfold statefulSetLabels at h
  simp only
  rw [h]

/-- The volume claim templates of `getSplunkStatefulSet` when the volume claims are
built: the claims, each renamed with the prefix `pvc-`. -/
theorem getSplunkStatefulSet_claims (d : Deps) (cr : MetaObject) (spec : CommonSplunkSpec)
    (instanceType : InstanceType) (replicas : Int) (extraEnv : List EnvVar)
    (claims : List PersistentVolumeClaim)
    (h : getSplunkVolumeClaims d cr spec (statefulSetLabels d cr instanceType) = .ok claims) :
    ∃ ss, getSplunkStatefulSet d cr spec instanceType replicas extraEnv = .ok ss ∧
      ss.Spec.VolumeClaimTemplates = claims.map fun vc =>
        { vc with ObjectMeta := { vc.ObjectMeta with Name := "pvc-" ++ vc.ObjectMeta.Name } } := by
  unfold getSplunkStatefulSet
  unfold statefulSetLabels at h
  simp only
  rw [h]
  exact ⟨_, rfl, rfl⟩


/-- C23: whenever `getSplunkStatefulSet` succeeds, both storage sizes have parsed and
`Spec.VolumeClaimTemplates` has exactly two entries, named "pvc-etc" and "pvc-var" in
that order, each with the single access mode ReadWriteOnce and the single storage
request of the parsed `EtcStorage` / `VarStorage` quantity; both entries have the
storage class `spec.StorageClassName` when it is non-empty, and neither has a storage
class when it is empty. -/
theorem volume_claim_templates (d : Deps) (cr : MetaObject) (spec : CommonSplunkSpec)
    (instanceType : InstanceType) (replicas : Int) (extraEnv : List EnvVar) (ss : StatefulSet)
    (h : getSplunkStatefulSet d cr spec instanceType replicas extraEnv = .ok ss) :
    ∃ etc var,
      d.ParseResourceQuantity spec.EtcStorage "1Gi" = .ok etc ∧
      d.ParseResourceQuantity spec.VarStorage "200Gi" = .ok var ∧
      ss.Spec.VolumeClaimTemplates =
        [ storageClaim "pvc-etc" cr.ObjectMeta.Namespace (statefulSetLabels d cr instanceType) etc
            (if spec.CommonSpec.StorageClassName ≠ "" then
              some spec.CommonSpec.StorageClassName else none),
          storageClaim "pvc-var" cr.ObjectMeta.Namespace (statefulSetLabels d cr instanceType) var
            (if spec.CommonSpec.StorageClassName ≠ "" then
              some spec.CommonSpec.StorageClassName else none) ] ∧
      ss.Spec.VolumeClaimTemplates.map (fun vc => vc.ObjectMeta.Name) = ["pvc-etc", "pvc-var"] ∧
      ss.Spec.VolumeClaimTemplates.map (fun vc => vc.Spec.AccessModes) =
        [["ReadWriteOnce"], ["ReadWriteOnce"]] ∧
      ss.Spec.VolumeClaimTemplates.map (fun vc => vc.Spec.Resources.Requests) =
        [[("storage", etc)], [("storage", var)]] ∧
      (spec.CommonSpec.StorageClassName ≠ "" →
        ss.Spec.VolumeClaimTemplates.map (fun vc => vc.Spec.StorageClassName) =
          [some spec.CommonSpec.StorageClassName, some spec.CommonSpec.StorageClassName]) ∧
      (spec.CommonSpec.StorageClassName = "" →
        ss.Spec.VolumeClaimTemplates.map (fun vc => vc.Spec.StorageClassName) = [none, none]) := by
  cases h1 : d.ParseResourceQuantity spec.EtcStorage "1Gi" with
  | error err =>
    rw [getSplunkStatefulSet_error d cr spec instanceType replicas extraEnv _
      (getSplunkVolumeClaims_etc_error d cr spec _ err h1)] at h
    exact absurd h (by simp)
  | ok etc =>
    cases h2 : d.ParseResourceQuantity spec.VarStorage "200Gi" with
    | error err =>
      rw [getSplunkStatefulSet_error d cr spec instanceType replicas extraEnv _
        (getSplunkVolumeClaims_var_error d cr spec _ etc err h1 h2)] at h
      exact absurd h (by simp)
    | ok var =>
      obtain ⟨ss', hs', hc⟩ := getSplunkStatefulSet_claims d cr spec instanceType replicas
        extraEnv _ (getSplunkVolumeClaims_ok d cr spec _ etc var h1 h2)
      rw [hs'] at h
      injection h with h
      subst h
      have hv : ss'.Spec.VolumeClaimTemplates =
          [ storageClaim "pvc-etc" cr.ObjectMeta.Namespace (statefulSetLabels d cr instanceType)
              etc (if spec.CommonSpec.StorageClassName ≠ "" then
                some spec.CommonSpec.StorageClassName else none),
            storageClaim "pvc-var" cr.ObjectMeta.Namespace (statefulSetLabels d cr instanceType)
              var (if spec.CommonSpec.StorageClassName ≠ "" then
                some spec.CommonSpec.StorageClassName else none) ] := by
        rw [hc]
        rfl
      refine ⟨etc, var, rfl, rfl, hv, ?_, ?_, ?_, ?_, ?_⟩
      · rw [hv]; rfl
      · rw [hv]; rfl
      · rw [hv]; rfl
      · intro hsc
        rw [hv]
        simp [storageClaim, hsc]
      · intro hsc
        rw [hv]
        simp [storageClaim, hsc]

/-- C23, on the indexer stateful set of the parent `s1` with 10Gi and 100Gi of
storage in the class `gp2`. -/
theorem volume_claim_templates_witness :
    ∃ ss, getSplunkStatefulSet sampleDeps sampleCR sampleStorage .SplunkIndexer 3 [] = .ok ss ∧
      ss.Spec.VolumeClaimTemplates.map (fun vc => vc.ObjectMeta.Name) = ["pvc-etc", "pvc-var"] ∧
      ss.Spec.VolumeClaimTemplates.map (fun vc => vc.Spec.Resources.Requests) =
        [[("storage", ⟨"10Gi"⟩)], [("storage", ⟨"100Gi"⟩)]] ∧
      ss.Spec.VolumeClaimTemplates.map (fun vc => vc.Spec.StorageClassName) =
        [some "gp2", some "gp2"] := by
  obtain ⟨ss, hs⟩ : ∃ ss,
      getSplunkStatefulSet sampleDeps sampleCR sampleStorage .SplunkIndexer 3 [] = .ok ss :=
    ⟨_, rfl⟩
  obtain ⟨etc, var, h1, h2, _, hn, _, hr, hsc, _⟩ :=
    volume_claim_templates sampleDeps sampleCR sampleStorage .SplunkIndexer 3 [] ss hs
  have e1 : etc = ⟨"10Gi"⟩ := by
    have h : sampleDeps.ParseResourceQuantity sampleStorage.EtcStorage "1Gi" = .ok ⟨"10Gi"⟩ := rfl
    rw [h] at h1
    injection h1 with h1
    exact h1.symm
  have e2 : var = ⟨"100Gi"⟩ := by
    have h : sampleDeps.ParseResourceQuantity sampleStorage.VarStorage "200Gi" = .ok ⟨"100Gi"⟩ :=
      rfl
    rw [h] at h2
    injection h2 with h2
    exact h2.symm
  subst e1 e2
  exact ⟨ss, hs, hn, hr, hsc (by decide)⟩

/-- C24: quantity-parse failures are tagged with the offending field and abort the
synthesis. When `EtcStorage` does not parse, `getSplunkStatefulSet` returns no
stateful set and the error "etcStorage: " followed by the message of the parser,
whether or not `VarStorage` parses; when `EtcStorage` parses and `VarStorage` does
not, it returns no stateful set and the error "varStorage: " followed by the message
of the parser; and it returns a stateful set, with no error, exactly when both
parse. -/
theorem quantity_parse_failures (d : Deps) (cr : MetaObject) (spec : CommonSplunkSpec)
    (instanceType : InstanceType) (replicas : Int) (extraEnv : List EnvVar) :
    (∀ err, d.ParseResourceQuantity spec.EtcStorage "1Gi" = .error err →
      getSplunkStatefulSet d cr spec instanceType replicas extraEnv =
        .error ("etcStorage: " ++ err)) ∧
    (∀ etc err, d.ParseResourceQuantity spec.EtcStorage "1Gi" = .ok etc →
      d.ParseResourceQuantity spec.VarStorage "200Gi" = .error err →
      getSplunkStatefulSet d cr spec instanceType replicas extraEnv =
        .error ("varStorage: " ++ err)) ∧
    ((∃ ss, getSplunkStatefulSet d cr spec instanceType replicas extraEnv = .ok ss) ↔
      (∃ etc, d.ParseResourceQuantity spec.EtcStorage "1Gi" = .ok etc) ∧
      (∃ var, d.ParseResourceQuantity spec.VarStorage "200Gi" = .ok var)) := by
  refine ⟨?_, ?_, ?_⟩
  · intro err h1
    exact getSplunkStatefulSet_error d cr spec instanceType replicas extraEnv _
      (getSplunkVolumeClaims_etc_error d cr spec _ err h1)
  · intro etc err h1 h2
    exact getSplunkStatefulSet_error d cr spec instanceType replicas extraEnv _
      (getSplunkVolumeClaims_var_error d cr spec _ etc err h1 h2)
  · constructor
    · rintro ⟨ss, hs⟩
      cases h1 : d.ParseResourceQuantity spec.EtcStorage "1Gi" with
      | error err =>
        rw [getSplunkStatefulSet_error d cr spec instanceType replicas extraEnv _
          (getSplunkVolumeClaims_etc_error d cr spec _ err h1)] at hs
        exact absurd hs (by simp)
      | ok etc =>
        cases h2 : d.ParseResourceQuantity spec.VarStorage "200Gi" with
        | error err =>
          rw [getSplunkStatefulSet_error d cr spec instanceType replicas extraEnv _
            (getSplunkVolumeClaims_var_error d cr spec _ etc err h1 h2)] at hs
          exact absurd hs (by simp)
        | ok var => exact ⟨⟨etc, rfl⟩, ⟨var, rfl⟩⟩
    · rintro ⟨⟨etc, h1⟩, ⟨var, h2⟩⟩
      exact getSplunkStatefulSet_ok d cr spec instanceType replicas extraEnv etc var h1 h2

/-- C24, on a spec whose two storage sizes are both the text `bad`, and on one whose
`var` storage size alone is. -/
theorem quantity_parse_failures_witness :
    sampleDeps.ParseResourceQuantity sampleBadEtc.EtcStorage "1Gi" = .error "invalid quantity" ∧
    getSplunkStatefulSet sampleDeps sampleCR sampleBadEtc .SplunkIndexer 3 [] =
      .error ("etcStorage: " ++ "invalid quantity") ∧
    sampleDeps.ParseResourceQuantity sampleBadVar.EtcStorage "1Gi" = .ok ⟨"10Gi"⟩ ∧
    sampleDeps.ParseResourceQuantity sampleBadVar.VarStorage "200Gi" = .error "invalid quantity" ∧
    getSplunkStatefulSet sampleDeps sampleCR sampleBadVar .SplunkIndexer 3 [] =
      .error ("varStorage: " ++ "invalid quantity") :=
  ⟨rfl,
   (quantity_parse_failures sampleDeps sampleCR sampleBadEtc .SplunkIndexer 3 []).1 _ rfl,
   rfl, rfl,
   (quantity_parse_failures sampleDeps sampleCR sampleBadVar .SplunkIndexer 3 []).2.1 _ _ rfl
     rfl⟩


/-! ## Validation: replicas, Spark workers, volumes -/

theorem ValidateIndexerSpec_Replicas (d : Deps) (spec : IndexerSpec) :
    (ValidateIndexerSpec d spec).1.Replicas = if spec.Replicas = 0 then 1 else spec.Replicas := by
  unfold ValidateIndexerSpec
  split_ifs <;> rfl

theorem ValidateStandaloneSpec_Replicas (d : Deps) (spec : StandaloneSpec) :
    (ValidateStandaloneSpec d spec).1.Replicas =
      if spec.Replicas = 0 then 1 else spec.Replicas := by
  unfold ValidateStandaloneSpec
  split_ifs <;> rfl

/-- C25: `ValidateIndexerSpec` and `ValidateStandaloneSpec` set `Replicas` to 1 when
it was 0 and leave every non-zero replica count unchanged, whatever the rest of the
validation returns; so after validation the replica count is never zero. -/
theorem replicas_default_to_one (d : Deps) :
    (∀ spec : IndexerSpec,
      (ValidateIndexerSpec d spec).1.Replicas = (if spec.Replicas = 0 then 1 else spec.Replicas) ∧
      (ValidateIndexerSpec d spec).1.Replicas ≠ 0) ∧
    (∀ spec : StandaloneSpec,
      (ValidateStandaloneSpec d spec).1.Replicas =
        (if spec.Replicas = 0 then 1 else spec.Replicas) ∧
      (ValidateStandaloneSpec d spec).1.Replicas ≠ 0) := by
  constructor
  · intro spec
    rw [ValidateIndexerSpec_Replicas]
    refine ⟨rfl, ?_⟩
    split_ifs with h
    · decide
    · exact h
  · intro spec
    rw [ValidateStandaloneSpec_Replicas]
    refine ⟨rfl, ?_⟩
    split_ifs with h
    · decide
    · exact h

/-- C29 as stated fails: an indexer spec that asks for -1 replicas and a standalone
spec that asks for -2 replicas keep these counts through validation, so the count
is not at least 1. -/
theorem negative_replicas_kept :
    (ValidateIndexerSpec sampleDeps sampleNegativeIndexer).1.Replicas = -1 ∧
    ¬ (1 ≤ (ValidateIndexerSpec sampleDeps sampleNegativeIndexer).1.Replicas) ∧
    (ValidateStandaloneSpec sampleDeps sampleNegativeStandalone).1.Replicas = -2 ∧
    ¬ (1 ≤ (ValidateStandaloneSpec sampleDeps sampleNegativeStandalone).1.Replicas) := by
  decide

/-- C29 (amended): for every IndexerSpec and every StandaloneSpec whose replica count
is zero or positive, after `ValidateIndexerSpec` / `ValidateStandaloneSpec` the
replica count is at least 1; a negative replica count is left as it is. -/
theorem replicas_at_least_one (d : Deps) :
    (∀ spec : IndexerSpec,
      (0 ≤ spec.Replicas → 1 ≤ (ValidateIndexerSpec d spec).1.Replicas) ∧
      (spec.Replicas < 0 → (ValidateIndexerSpec d spec).1.Replicas = spec.Replicas)) ∧
    (∀ spec : StandaloneSpec,
      (0 ≤ spec.Replicas → 1 ≤ (ValidateStandaloneSpec d spec).1.Replicas) ∧
      (spec.Replicas < 0 → (ValidateStandaloneSpec d spec).1.Replicas = spec.Replicas)) := by
  constructor
  · intro spec
    rw [ValidateIndexerSpec_Replicas]
    constructor
    · intro h
      split_ifs with h0
      · decide
      · omega
    · intro h
      rw [if_neg (by omega)]
  · intro spec
    rw [ValidateStandaloneSpec_Replicas]
    constructor
    · intro h
      split_ifs with h0
      · decide
      · omega
    · intro h
      rw [if_neg (by omega)]

/-- C29 (amended), on an indexer spec with no replica count (it becomes 1) and on the
indexer spec that asks for -1 replicas (it stays -1). -/
theorem replicas_at_least_one_witness :
    ((0 : Int) ≤ ({} : IndexerSpec).Replicas ∧
      1 ≤ (ValidateIndexerSpec sampleDeps {}).1.Replicas) ∧
    (sampleNegativeIndexer.Replicas < 0 ∧
      (ValidateIndexerSpec sampleDeps sampleNegativeIndexer).1.Replicas =
        sampleNegativeIndexer.Replicas) :=
  ⟨⟨by decide, ((replicas_at_least_one sampleDeps).1 {}).1 (by decide)⟩,
   ⟨by decide, ((replicas_at_least_one sampleDeps).1 sampleNegativeIndexer).2 (by decide)⟩⟩

theorem defaultStandalones_SparkWorkers (spec : SplunkEnterpriseSpec) :
    (defaultStandalones spec).Topology.SparkWorkers = spec.Topology.SparkWorkers ∧
    (defaultStandalones spec).EnableDFS = spec.EnableDFS ∧
    (defaultStandalones spec).SplunkVolumes = spec.SplunkVolumes := by
  unfold defaultStandalones
  split_ifs <;> exact ⟨rfl, rfl, rfl⟩

theorem defaultSparkWorkers_SplunkVolumes (spec : SplunkEnterpriseSpec) :
    (defaultSparkWorkers spec).SplunkVolumes = spec.SplunkVolumes := by
  unfold defaultSparkWorkers
  split_ifs <;> rfl

theorem defaultSchedulerName_SplunkVolumes (spec : SplunkEnterpriseSpec) :
    (defaultSchedulerName spec).SplunkVolumes = spec.SplunkVolumes := by
  unfold defaultSchedulerName
  split_ifs <;> rfl

theorem defaultSplunkVolumes_SplunkVolumes (spec : SplunkEnterpriseSpec) :
    (defaultSplunkVolumes spec).SplunkVolumes = some (spec.SplunkVolumes.getD []) := by
  unfold defaultSplunkVolumes
  cases h : spec.SplunkVolumes <;> simp [h]

/-- What `ValidateSplunkEnterpriseSpec` does once the topology check has passed. -/
theorem ValidateSplunkEnterpriseSpec_passed (d : Deps) (spec : SplunkEnterpriseSpec)
    (h1 : ¬ (spec.Topology.SearchHeads > 0 ∧ spec.Topology.Indexers ≤ 0))
    (h2 : ¬ (spec.Topology.SearchHeads ≤ 0 ∧ spec.Topology.Indexers > 0)) :
    ValidateSplunkEnterpriseSpec d spec =
      validateImages d (defaultSplunkVolumes (defaultSchedulerName
        (defaultSparkWorkers (defaultStandalones spec)))) := by
  unfold ValidateSplunkEnterpriseSpec
  rw [if_neg h1, if_neg h2]

/-- C26: for every spec that passes the topology sanity check of
`ValidateSplunkEnterpriseSpec`: if `EnableDFS` is true and `Topology.SparkWorkers`
is <= 0, then afterwards `Topology.SparkWorkers` is 1; if `EnableDFS` is false, or
`SparkWorkers` was already positive, `Topology.SparkWorkers` is unchanged. -/
theorem spark_workers_default (d : Deps) (spec : SplunkEnterpriseSpec)
    (h1 : ¬ (spec.Topology.SearchHeads > 0 ∧ spec.Topology.Indexers ≤ 0))
    (h2 : ¬ (spec.Topology.SearchHeads ≤ 0 ∧ spec.Topology.Indexers > 0)) :
    (spec.EnableDFS = true ∧ spec.Topology.SparkWorkers ≤ 0 →
      (ValidateSplunkEnterpriseSpec d spec).1.Topology.SparkWorkers = 1) ∧
    (spec.EnableDFS = false ∨ spec.Topology.SparkWorkers > 0 →
      (ValidateSplunkEnterpriseSpec d spec).1.Topology.SparkWorkers =
        spec.Topology.SparkWorkers) := by
  have hs := defaultStandalones_SparkWorkers spec
  rw [ValidateSplunkEnterpriseSpec_passed d spec h1 h2, validateImages_Topology,
    defaultSplunkVolumes_Topology, defaultSchedulerName_Topology]
  unfold defaultSparkWorkers
  rw [hs.1, hs.2.1]
  constructor
  · intro h
    rw [if_pos h]
  · intro h
    have hn : ¬ (spec.EnableDFS = true ∧ spec.Topology.SparkWorkers ≤ 0) := by
      rintro ⟨ha, hb⟩
      rcases h with h | h
      · rw [ha] at h
        exact Bool.noConfusion h
      · omega
    rw [if_neg hn, hs.1]

/-- C26, on a topology with the Spark integration enabled and no worker count (it
gets one worker), and on the empty topology (it keeps zero workers). -/
theorem spark_workers_default_witness :
    ((sampleDFSNoWorkers.EnableDFS = true ∧ sampleDFSNoWorkers.Topology.SparkWorkers ≤ 0) ∧
      (ValidateSplunkEnterpriseSpec sampleDeps sampleDFSNoWorkers).1.Topology.SparkWorkers = 1) ∧
    ((sampleEmptyTopology.EnableDFS = false ∨ sampleEmptyTopology.Topology.SparkWorkers > 0) ∧
      (ValidateSplunkEnterpriseSpec sampleDeps sampleEmptyTopology).1.Topology.SparkWorkers =
        sampleEmptyTopology.Topology.SparkWorkers) :=
  ⟨⟨by decide,
    (spark_workers_default sampleDeps sampleDFSNoWorkers (by decide) (by decide)).1 (by decide)⟩,
   ⟨by decide,
    (spark_workers_default sampleDeps sampleEmptyTopology (by decide) (by decide)).2
      (by decide)⟩⟩

theorem validateCommonSplunkSpec_Volumes (d : Deps) (spec : CommonSplunkSpec) :
    (validateCommonSplunkSpec d spec).1.Volumes = some (spec.Volumes.getD []) := by
  unfold validateCommonSplunkSpec
  cases h : spec.Volumes <;> simp [h]

/-- C27: nil volume lists become empty lists and nothing else about them changes.
After `validateCommonSplunkSpec` the field `Volumes` is a non-nil list, and after
`ValidateSplunkEnterpriseSpec` has passed its topology check `SplunkVolumes` is a
non-nil list; in both cases a nil input becomes the empty list and a non-nil input
list is left with the same elements in the same order. -/
theorem nil_volumes_normalized (d : Deps) :
    (∀ spec : CommonSplunkSpec,
      (validateCommonSplunkSpec d spec).1.Volumes ≠ none ∧
      (spec.Volumes = none → (validateCommonSplunkSpec d spec).1.Volumes = some []) ∧
      (∀ l, spec.Volumes = some l → (validateCommonSplunkSpec d spec).1.Volumes = some l)) ∧
    (∀ spec : SplunkEnterpriseSpec,
      ¬ (spec.Topology.SearchHeads > 0 ∧ spec.Topology.Indexers ≤ 0) →
      ¬ (spec.Topology.SearchHeads ≤ 0 ∧ spec.Topology.Indexers > 0) →
      (ValidateSplunkEnterpriseSpec d spec).1.SplunkVolumes ≠ none ∧
      (spec.SplunkVolumes = none →
        (ValidateSplunkEnterpriseSpec d spec).1.SplunkVolumes = some []) ∧
      (∀ l, spec.SplunkVolumes = some l →
        (ValidateSplunkEnterpriseSpec d spec).1.SplunkVolumes = some l)) := by
  constructor
  · intro spec
    rw [validateCommonSplunkSpec_Volumes]
    refine ⟨by simp, ?_, ?_⟩
    · intro h; rw [h]; rfl
    · intro l h; rw [h]; rfl
  · intro spec h1 h2
    have hv : (ValidateSplunkEnterpriseSpec d spec).1.SplunkVolumes =
        some (spec.SplunkVolumes.getD []) := by
      rw [ValidateSplunkEnterpriseSpec_passed d spec h1 h2]
      show (defaultSplunkVolumes _).SplunkVolumes = _
      rw [defaultSplunkVolumes_SplunkVolumes, defaultSchedulerName_SplunkVolumes,
        defaultSparkWorkers_SplunkVolumes, (defaultStandalones_SparkWorkers spec).2.2]
    rw [hv]
    refine ⟨by simp, ?_, ?_⟩
    · intro h; rw [h]; rfl
    · intro l h; rw [h]; rfl

/-- C27, on a common spec and on a topology spec without volumes, and on a common
spec with one volume. -/
theorem nil_volumes_normalized_witness :
    (({} : CommonSplunkSpec).Volumes = none ∧
      (validateCommonSplunkSpec sampleDeps {}).1.Volumes = some []) ∧
    (validateCommonSplunkSpec sampleDeps
      { Volumes := some [{ Name := "scratch", VolumeSource := .EmptyDir }] }).1.Volumes =
        some [{ Name := "scratch", VolumeSource := .EmptyDir }] ∧
    (sampleEmptyTopology.SplunkVolumes = none ∧
      (ValidateSplunkEnterpriseSpec sampleDeps sampleEmptyTopology).1.SplunkVolumes = some []) :=
  ⟨⟨rfl, ((nil_volumes_normalized sampleDeps).1 {}).2.1 rfl⟩,
   ((nil_volumes_normalized sampleDeps).1
      { Volumes := some [{ Name := "scratch", VolumeSource := .EmptyDir }] }).2.2 _ rfl,
   ⟨rfl, ((nil_volumes_normalized sampleDeps).2 sampleEmptyTopology (by decide)
      (by decide)).2.1 rfl⟩⟩


/-! ## Peer wiring and the order of the environment -/

/-- A variable whose name is none of the eight names `updateSplunkPodTemplateWithConfig`
uses itself occurs in the environment exactly as it occurs in the extra environment. -/
theorem envNamed_splunkEnv_extra (d : Deps) (cr : MetaObject) (spec : CommonSplunkSpec)
    (instanceType : InstanceType) (extraEnv : List EnvVar) (name : String)
    (h : name ∉ ["SPLUNK_HOME", "SPLUNK_START_ARGS", "SPLUNK_DEFAULTS_URL",
      "SPLUNK_HOME_OWNERSHIP_ENFORCEMENT", "SPLUNK_ROLE", "SPLUNK_LICENSE_URI",
      "SPLUNK_LICENSE_MASTER_URL", "SPLUNK_CLUSTER_MASTER_URL"]) :
    envNamed name (splunkEnv d cr spec instanceType extraEnv) = envNamed name extraEnv := by
  simp only [List.mem_cons, List.mem_singleton, List.not_mem_nil, or_false, not_or] at h
  obtain ⟨h1, h2, h3, h4, h5, h6, h7, h8⟩ := h
  rw [splunkEnv_eq]
  simp only [envNamed_append]
  split_ifs <;>
    simp [envNamed, List.filter_cons, Ne.symm h1, Ne.symm h2, Ne.symm h3, Ne.symm h4,
      Ne.symm h5, Ne.symm h6, Ne.symm h7, Ne.symm h8]

/-- A variable whose name is none of the six names of `dfsEnvVar` does not occur in it. -/
theorem envNamed_dfsEnvVar_other (host : String) (slotsEnabled : Bool) (name : String)
    (h : name ∉ ["SPLUNK_ENABLE_DFS", "SPARK_MASTER_HOST", "SPARK_MASTER_WEBUI_PORT",
      "SPARK_HOME", "JAVA_HOME", "SPLUNK_DFW_NUM_SLOTS_ENABLED"]) :
    envNamed name (dfsEnvVar host slotsEnabled) = [] := by
  refine (envNamed_eq_nil_iff _ _).mpr ?_
  intro e he hn
  have hmem : e.Name ∈ (dfsEnvVar host slotsEnabled).map (fun e => e.Name) :=
    List.mem_map.mpr ⟨e, he, rfl⟩
  rw [dfsEnvVar_names, hn] at hmem
  exact h hmem

/-- The container environments of the stateful set of `GetSearchHeadStatefulSet`:
the environment of the pod template, followed by the Spark variables when a Spark
cluster is referred to. -/
theorem GetSearchHeadStatefulSet_containerEnvs (d : Deps) (cr : SearchHead) (ss : StatefulSet)
    (hs : GetSearchHeadStatefulSet d cr = .ok ss) :
    containerEnvs ss =
      [splunkEnv d cr.Meta cr.Spec.CommonSplunkSpec .SplunkSearchHead (searchHeadEnv d cr) ++
        (if cr.Spec.SparkRef.Name ≠ "" then
          dfsEnvVar (sparkMasterHost d cr.Spec.SparkRef) (decide (cr.Spec.Replicas > 1))
        else [])] := by
  by_cases h : cr.Spec.SparkRef.Name = ""
  · rw [GetSearchHeadStatefulSet_plain d cr h] at hs
    rw [getSplunkStatefulSet_Env _ _ _ _ _ _ _ hs, if_neg (by simp [h]), List.append_nil]
    rfl
  · cases h0 : getSplunkStatefulSet d cr.Meta cr.Spec.CommonSplunkSpec .SplunkSearchHead
        cr.Spec.Replicas
        (getSearchHeadExtraEnv d cr.Meta cr.Spec.Replicas ++
          [{ Name := "SPLUNK_DEPLOYER_URL",
             Value := d.GetSplunkServiceName .SplunkDeployer cr.Meta.Identifier false }]) with
    | error err =>
      have he : GetSearchHeadStatefulSet d cr = .error err := by
        unfold GetSearchHeadStatefulSet
        simp only
        rw [h0]
      rw [he] at hs
      exact absurd hs (by simp)
    | ok ss0 =>
      rw [GetSearchHeadStatefulSet_applies d cr h ss0 h0] at hs
      injection hs with hs
      subst hs
      have h1 := getSplunkStatefulSet_Env _ _ _ _ _ _ _ h0
      simp only [containerEnvs] at h1 ⊢
      rw [addDFCToPodTemplate_Env, if_pos h]
      exact map_env_append _ _ _ h1

/-- C28: role-specific peer wiring. On every container of the stateful set of
`GetSearchHeadStatefulSet`, SPLUNK_SEARCH_HEAD_URL is `GetSplunkStatefulsetUrls`
over the `Spec.Replicas` search-head members of the parent, SPLUNK_SEARCH_HEAD_CAPTAIN_URL
is `GetSplunkStatefulsetURL` of the member with index 0, and SPLUNK_DEPLOYER_URL is
the service name of the deployer; on every container of the stateful set of
`GetIndexerStatefulSet`, SPLUNK_INDEXER_URL is `GetSplunkStatefulsetUrls` over the
`Spec.Replicas` indexer members. Each of these variables occurs once. -/
theorem peer_wiring (d : Deps) :
    (∀ (cr : SearchHead) (ss : StatefulSet), GetSearchHeadStatefulSet d cr = .ok ss →
      ∀ c ∈ ss.Spec.Template.Spec.Containers,
        envNamed "SPLUNK_SEARCH_HEAD_URL" c.Env =
          [{ Name := "SPLUNK_SEARCH_HEAD_URL",
             Value := d.GetSplunkStatefulsetUrls cr.Meta.ObjectMeta.Namespace .SplunkSearchHead
               cr.Meta.Identifier cr.Spec.Replicas false }] ∧
        envNamed "SPLUNK_SEARCH_HEAD_CAPTAIN_URL" c.Env =
          [{ Name := "SPLUNK_SEARCH_HEAD_CAPTAIN_URL",
             Value := d.GetSplunkStatefulsetURL cr.Meta.ObjectMeta.Namespace .SplunkSearchHead
               cr.Meta.Identifier 0 false }] ∧
        envNamed "SPLUNK_DEPLOYER_URL" c.Env =
          [{ Name := "SPLUNK_DEPLOYER_URL",
             Value := d.GetSplunkServiceName .SplunkDeployer cr.Meta.Identifier false }]) ∧
    (∀ (cr : Indexer) (ss : StatefulSet), GetIndexerStatefulSet d cr = .ok ss →
      ∀ c ∈ ss.Spec.Template.Spec.Containers,
        envNamed "SPLUNK_INDEXER_URL" c.Env =
          [{ Name := "SPLUNK_INDEXER_URL",
             Value := d.GetSplunkStatefulsetUrls cr.Meta.ObjectMeta.Namespace .SplunkIndexer
               cr.Meta.Identifier cr.Spec.Replicas false }]) := by
  constructor
  · intro cr ss hs c hc
    rw [mem_containerEnvs ss _ (GetSearchHeadStatefulSet_containerEnvs d cr ss hs) c hc]
    have hdfs : ∀ name, name ∉ ["SPLUNK_ENABLE_DFS", "SPARK_MASTER_HOST",
        "SPARK_MASTER_WEBUI_PORT", "SPARK_HOME", "JAVA_HOME", "SPLUNK_DFW_NUM_SLOTS_ENABLED"] →
        envNamed name (if cr.Spec.SparkRef.Name ≠ "" then
          dfsEnvVar (sparkMasterHost d cr.Spec.SparkRef) (decide (cr.Spec.Replicas > 1))
        else []) = [] := by
      intro name hn
      split_ifs
      · exact envNamed_dfsEnvVar_other _ _ name hn
      · rfl
    refine ⟨?_, ?_, ?_⟩
    · rw [envNamed_append, hdfs _ (by decide),
        envNamed_splunkEnv_extra _ _ _ _ _ _ (by decide), List.append_nil]
      simp [envNamed, searchHeadEnv, getSearchHeadExtraEnv]
    · rw [envNamed_append, hdfs _ (by decide),
        envNamed_splunkEnv_extra _ _ _ _ _ _ (by decide), List.append_nil]
      simp [envNamed, searchHeadEnv, getSearchHeadExtraEnv]
    · rw [envNamed_append, hdfs _ (by decide),
        envNamed_splunkEnv_extra _ _ _ _ _ _ (by decide), List.append_nil]
      simp [envNamed, searchHeadEnv, getSearchHeadExtraEnv]
  · intro cr ss hs c hc
    have henv := getSplunkStatefulSet_Env d cr.Meta cr.Spec.CommonSplunkSpec .SplunkIndexer
      cr.Spec.Replicas (getIndexerExtraEnv d cr.Meta cr.Spec.Replicas) ss hs
    rw [mem_containerEnvs ss _ henv c hc, envNamed_splunkEnv_extra _ _ _ _ _ _ (by decide)]
    simp [envNamed, getIndexerExtraEnv]

/-- C28, on the search-head resource with five replicas and on the indexer resource
with three replicas of the parent `s1`. -/
theorem peer_wiring_witness :
    (∃ ss, GetSearchHeadStatefulSet sampleDeps sampleSearchHead = .ok ss ∧
      ss.Spec.Template.Spec.Containers.length = 1 ∧
      ∀ c ∈ ss.Spec.Template.Spec.Containers,
        envNamed "SPLUNK_SEARCH_HEAD_URL" c.Env =
          [{ Name := "SPLUNK_SEARCH_HEAD_URL",
             Value := sampleDeps.GetSplunkStatefulsetUrls sampleSearchHead.Meta.ObjectMeta.Namespace
               .SplunkSearchHead sampleSearchHead.Meta.Identifier sampleSearchHead.Spec.Replicas
               false }] ∧
        envNamed "SPLUNK_SEARCH_HEAD_CAPTAIN_URL" c.Env =
          [{ Name := "SPLUNK_SEARCH_HEAD_CAPTAIN_URL",
             Value := sampleDeps.GetSplunkStatefulsetURL sampleSearchHead.Meta.ObjectMeta.Namespace
               .SplunkSearchHead sampleSearchHead.Meta.Identifier 0 false }] ∧
        envNamed "SPLUNK_DEPLOYER_URL" c.Env =
          [{ Name := "SPLUNK_DEPLOYER_URL",
             Value := sampleDeps.GetSplunkServiceName .SplunkDeployer
               sampleSearchHead.Meta.Identifier false }]) ∧
    (∃ ss, GetIndexerStatefulSet sampleDeps sampleIndexer = .ok ss ∧
      ss.Spec.Template.Spec.Containers.length = 1 ∧
      ∀ c ∈ ss.Spec.Template.Spec.Containers,
        envNamed "SPLUNK_INDEXER_URL" c.Env =
          [{ Name := "SPLUNK_INDEXER_URL",
             Value := sampleDeps.GetSplunkStatefulsetUrls sampleIndexer.Meta.ObjectMeta.Namespace
               .SplunkIndexer sampleIndexer.Meta.Identifier sampleIndexer.Spec.Replicas
               false }]) :=
  ⟨⟨_, rfl, rfl, (peer_wiring sampleDeps).1 sampleSearchHead _ rfl⟩,
   ⟨_, rfl, rfl, (peer_wiring sampleDeps).2 sampleIndexer _ rfl⟩⟩

/-- C30: the environment that `updateSplunkPodTemplateWithConfig` assigns, the same
on every container, is in this order: SPLUNK_HOME=/opt/splunk,
SPLUNK_START_ARGS=--accept-license, SPLUNK_DEFAULTS_URL,
SPLUNK_HOME_OWNERSHIP_ENFORCEMENT=false, SPLUNK_ROLE=instanceType.ToRole(); then
SPLUNK_LICENSE_URI exactly when `spec.LicenseURL` is non-empty; then
SPLUNK_LICENSE_MASTER_URL exactly when the instance is not the license master and
the resolved URL is non-empty; then the caller's extra environment, unchanged and in
order; then, as the last entry, SPLUNK_CLUSTER_MASTER_URL exactly when the resolved
URL is non-empty. No container is added or dropped. -/
theorem environment_order (d : Deps) (p : PodTemplateSpec) (cr : MetaObject)
    (spec : CommonSplunkSpec) (instanceType : InstanceType) (extraEnv : List EnvVar) :
    (∀ c ∈ (updateSplunkPodTemplateWithConfig d p cr spec instanceType extraEnv).Spec.Containers,
      c.Env =
        [ { Name := "SPLUNK_HOME", Value := "/opt/splunk" },
          { Name := "SPLUNK_START_ARGS", Value := "--accept-license" },
          { Name := "SPLUNK_DEFAULTS_URL", Value := splunkDefaults spec },
          { Name := "SPLUNK_HOME_OWNERSHIP_ENFORCEMENT", Value := "false" },
          { Name := "SPLUNK_ROLE", Value := d.ToRole instanceType } ]
        ++ (if spec.LicenseURL ≠ "" then
              [{ Name := "SPLUNK_LICENSE_URI", Value := spec.LicenseURL }]
            else [])
        ++ (if instanceType ≠ .SplunkLicenseMaster ∧ licenseMasterURL d spec ≠ "" then
              [{ Name := "SPLUNK_LICENSE_MASTER_URL", Value := licenseMasterURL d spec }]
            else [])
        ++ extraEnv
        ++ (if clusterMasterURL d cr spec instanceType ≠ "" then
              [{ Name := "SPLUNK_CLUSTER_MASTER_URL",
                 Value := clusterMasterURL d cr spec instanceType }]
            else [])) ∧
    (updateSplunkPodTemplateWithConfig d p cr spec instanceType extraEnv).Spec.Containers.length =
      p.Spec.Containers.length := by
  refine ⟨?_, updateSplunkPodTemplateWithConfig_length d p cr spec instanceType extraEnv⟩
  intro c hc
  rw [updateSplunkPodTemplateWithConfig_Env d p cr spec instanceType extraEnv c hc, splunkEnv_eq]


/-! ## Validation: atomic failure and idempotence -/

/-- C31: a validation failure on the topology rule is atomic. For every spec with
exactly one of `Topology.SearchHeads` / `Topology.Indexers` positive,
`ValidateSplunkEnterpriseSpec` returns an error and leaves every field of the spec
exactly as it was on entry: no standalone, spark-worker, scheduler-name, volume-list
or spark-image defaulting has been applied. -/
theorem topology_failure_atomic (d : Deps) (spec : SplunkEnterpriseSpec)
    (h : (spec.Topology.SearchHeads > 0 ∧ spec.Topology.Indexers ≤ 0) ∨
      (spec.Topology.SearchHeads ≤ 0 ∧ spec.Topology.Indexers > 0)) :
    (ValidateSplunkEnterpriseSpec d spec).1 = spec ∧
    ((ValidateSplunkEnterpriseSpec d spec).2 =
        some "You must specify how many indexers the cluster should have" ∨
      (ValidateSplunkEnterpriseSpec d spec).2 =
        some "You must specify how many search heads the cluster should have") := by
  rcases h with h | h
  · have hr : ValidateSplunkEnterpriseSpec d spec =
        (spec, some "You must specify how many indexers the cluster should have") := by
      unfold ValidateSplunkEnterpriseSpec
      rw [if_pos h]
    rw [hr]
    exact ⟨rfl, Or.inl rfl⟩
  · have h0 : ¬ (spec.Topology.SearchHeads > 0 ∧ spec.Topology.Indexers ≤ 0) := by
      intro hc; omega
    have hr : ValidateSplunkEnterpriseSpec d spec =
        (spec, some "You must specify how many search heads the cluster should have") := by
      unfold ValidateSplunkEnterpriseSpec
      rw [if_neg h0, if_pos h]
    rw [hr]
    exact ⟨rfl, Or.inr rfl⟩

/-- C31, on a topology that asks for search heads only, with the Spark integration
enabled and no scheduler name, volume list, Spark image or worker count. -/
theorem topology_failure_atomic_witness :
    ((sampleAsymmetric.Topology.SearchHeads > 0 ∧ sampleAsymmetric.Topology.Indexers ≤ 0) ∨
      (sampleAsymmetric.Topology.SearchHeads ≤ 0 ∧ sampleAsymmetric.Topology.Indexers > 0)) ∧
    (ValidateSplunkEnterpriseSpec sampleDeps sampleAsymmetric).1 = sampleAsymmetric ∧
    sampleAsymmetric.SchedulerName = "" ∧ sampleAsymmetric.SplunkVolumes = none ∧
    sampleAsymmetric.Topology.SparkWorkers = 0 :=
  ⟨by decide, (topology_failure_atomic sampleDeps sampleAsymmetric (by decide)).1, rfl, rfl, rfl⟩

theorem defaultStandalones_fields (spec : SplunkEnterpriseSpec) :
    (defaultStandalones spec).Topology =
      { spec.Topology with
        Standalones := if spec.Topology.SearchHeads ≤ 0 ∧ spec.Topology.Indexers ≤ 0 ∧
          spec.Topology.Standalones ≤ 0 then 1 else spec.Topology.Standalones } ∧
    (defaultStandalones spec).EnableDFS = spec.EnableDFS ∧
    (defaultStandalones spec).SchedulerName = spec.SchedulerName ∧
    (defaultStandalones spec).SplunkVolumes = spec.SplunkVolumes := by
  unfold defaultStandalones
  by_cases h1 : spec.Topology.SearchHeads ≤ 0 ∧ spec.Topology.Indexers ≤ 0
  · by_cases h2 : spec.Topology.Standalones ≤ 0
    · rw [if_pos h1, if_pos h2, if_pos ⟨h1.1, h1.2, h2⟩]
      exact ⟨rfl, rfl, rfl, rfl⟩
    · rw [if_pos h1, if_neg h2, if_neg (fun hc => h2 hc.2.2)]
      exact ⟨rfl, rfl, rfl, rfl⟩
  · rw [if_neg h1, if_neg (fun hc => h1 ⟨hc.1, hc.2.1⟩)]
    exact ⟨rfl, rfl, rfl, rfl⟩

theorem defaultSparkWorkers_fields (spec : SplunkEnterpriseSpec) :
    (defaultSparkWorkers spec).Topology =
      { spec.Topology with
        SparkWorkers := if spec.EnableDFS = true ∧ spec.Topology.SparkWorkers ≤ 0 then 1
          else spec.Topology.SparkWorkers } ∧
    (defaultSparkWorkers spec).EnableDFS = spec.EnableDFS ∧
    (defaultSparkWorkers spec).SchedulerName = spec.SchedulerName ∧
    (defaultSparkWorkers spec).SplunkVolumes = spec.SplunkVolumes := by
  unfold defaultSparkWorkers
  split_ifs <;> exact ⟨rfl, rfl, rfl, rfl⟩

theorem defaultSchedulerName_fields (spec : SplunkEnterpriseSpec) :
    (defaultSchedulerName spec).Topology = spec.Topology ∧
    (defaultSchedulerName spec).EnableDFS = spec.EnableDFS ∧
    (defaultSchedulerName spec).SchedulerName =
      (if spec.SchedulerName = "" then "default-scheduler" else spec.SchedulerName) ∧
    (defaultSchedulerName spec).SplunkVolumes = spec.SplunkVolumes := by
  unfold defaultSchedulerName
  split_ifs <;> exact ⟨rfl, rfl, rfl, rfl⟩

theorem defaultSplunkVolumes_fields (spec : SplunkEnterpriseSpec) :
    (defaultSplunkVolumes spec).Topology = spec.Topology ∧
    (defaultSplunkVolumes spec).EnableDFS = spec.EnableDFS ∧
    (defaultSplunkVolumes spec).SchedulerName = spec.SchedulerName ∧
    (defaultSplunkVolumes spec).SplunkVolumes = some (spec.SplunkVolumes.getD []) := by
  unfold defaultSplunkVolumes
  cases h : spec.SplunkVolumes <;> simp [h]

/-- The fields that `ValidateSplunkEnterpriseSpec` defaults, once the topology check
has passed. -/
theorem ValidateSplunkEnterpriseSpec_fields (d : Deps) (spec : SplunkEnterpriseSpec)
    (h1 : ¬ (spec.Topology.SearchHeads > 0 ∧ spec.Topology.Indexers ≤ 0))
    (h2 : ¬ (spec.Topology.SearchHeads ≤ 0 ∧ spec.Topology.Indexers > 0)) :
    (ValidateSplunkEnterpriseSpec d spec).1.Topology =
      { Standalones := if spec.Topology.SearchHeads ≤ 0 ∧ spec.Topology.Indexers ≤ 0 ∧
          spec.Topology.Standalones ≤ 0 then 1 else spec.Topology.Standalones,
        SearchHeads := spec.Topology.SearchHeads,
        Indexers := spec.Topology.Indexers,
        SparkWorkers := if spec.EnableDFS = true ∧ spec.Topology.SparkWorkers ≤ 0 then 1
          else spec.Topology.SparkWorkers } ∧
    (ValidateSplunkEnterpriseSpec d spec).1.EnableDFS = spec.EnableDFS ∧
    (ValidateSplunkEnterpriseSpec d spec).1.SchedulerName =
      (if spec.SchedulerName = "" then "default-scheduler" else spec.SchedulerName) ∧
    (ValidateSplunkEnterpriseSpec d spec).1.SplunkVolumes =
      some (spec.SplunkVolumes.getD []) := by
  rw [ValidateSplunkEnterpriseSpec_passed d spec h1 h2]
  have a := defaultStandalones_fields spec
  have b := defaultSparkWorkers_fields (defaultStandalones spec)
  have c := defaultSchedulerName_fields (defaultSparkWorkers (defaultStandalones spec))
  have e := defaultSplunkVolumes_fields
    (defaultSchedulerName (defaultSparkWorkers (defaultStandalones spec)))
  refine ⟨?_, ?_, ?_, ?_⟩
  · show (defaultSplunkVolumes _).Topology = _
    rw [e.1, c.1, b.1, a.1, a.2.1]
  · show (defaultSplunkVolumes _).EnableDFS = _
    rw [e.2.1, c.2.1, b.2.1, a.2.1]
  · show (defaultSplunkVolumes _).SchedulerName = _
    rw [e.2.2.1, c.2.2.1, b.2.2.1, a.2.2.1]
  · show (defaultSplunkVolumes _).SplunkVolumes = _
    rw [e.2.2.2, c.2.2.2, b.2.2.2, a.2.2.2]


theorem ValidateSearchHeadSpec_fields (d : Deps) (spec : SearchHeadSpec) :
    (ValidateSearchHeadSpec d spec).1.Replicas = (if spec.Replicas < 3 then 3 else spec.Replicas) ∧
    (ValidateSearchHeadSpec d spec).1.CommonSplunkSpec.Volumes =
      some (spec.CommonSplunkSpec.Volumes.getD []) := by
  unfold ValidateSearchHeadSpec
  split_ifs <;> exact ⟨rfl, validateCommonSplunkSpec_Volumes d _⟩

theorem ValidateIndexerSpec_fields (d : Deps) (spec : IndexerSpec) :
    (ValidateIndexerSpec d spec).1.Replicas = (if spec.Replicas = 0 then 1 else spec.Replicas) ∧
    (ValidateIndexerSpec d spec).1.CommonSplunkSpec.Volumes =
      some (spec.CommonSplunkSpec.Volumes.getD []) := by
  unfold ValidateIndexerSpec
  split_ifs <;> exact ⟨rfl, validateCommonSplunkSpec_Volumes d _⟩

theorem ValidateStandaloneSpec_fields (d : Deps) (spec : StandaloneSpec) :
    (ValidateStandaloneSpec d spec).1.Replicas =
      (if spec.Replicas = 0 then 1 else spec.Replicas) ∧
    (ValidateStandaloneSpec d spec).1.CommonSplunkSpec.Volumes =
      some (spec.CommonSplunkSpec.Volumes.getD []) := by
  unfold ValidateStandaloneSpec
  split_ifs <;> exact ⟨rfl, validateCommonSplunkSpec_Volumes d _⟩

/-- C32: validation is idempotent on the fields it defaults. For every spec on which
`ValidateSplunkEnterpriseSpec` passes the topology check, the result passes the
topology check again, and a second run on the result leaves `Topology` (Standalones,
SearchHeads, Indexers, SparkWorkers), `SchedulerName` and `SplunkVolumes` unchanged;
likewise a second run of `ValidateSearchHeadSpec`, `ValidateIndexerSpec` or
`ValidateStandaloneSpec` leaves `Replicas` and `Volumes` unchanged. -/
theorem validation_idempotent (d : Deps) :
    (∀ spec : SplunkEnterpriseSpec,
      ¬ (spec.Topology.SearchHeads > 0 ∧ spec.Topology.Indexers ≤ 0) →
      ¬ (spec.Topology.SearchHeads ≤ 0 ∧ spec.Topology.Indexers > 0) →
      ¬ ((ValidateSplunkEnterpriseSpec d spec).1.Topology.SearchHeads > 0 ∧
          (ValidateSplunkEnterpriseSpec d spec).1.Topology.Indexers ≤ 0) ∧
      ¬ ((ValidateSplunkEnterpriseSpec d spec).1.Topology.SearchHeads ≤ 0 ∧
          (ValidateSplunkEnterpriseSpec d spec).1.Topology.Indexers > 0) ∧
      (ValidateSplunkEnterpriseSpec d (ValidateSplunkEnterpriseSpec d spec).1).1.Topology =
        (ValidateSplunkEnterpriseSpec d spec).1.Topology ∧
      (ValidateSplunkEnterpriseSpec d (ValidateSplunkEnterpriseSpec d spec).1).1.SchedulerName =
        (ValidateSplunkEnterpriseSpec d spec).1.SchedulerName ∧
      (ValidateSplunkEnterpriseSpec d (ValidateSplunkEnterpriseSpec d spec).1).1.SplunkVolumes =
        (ValidateSplunkEnterpriseSpec d spec).1.SplunkVolumes) ∧
    (∀ spec : SearchHeadSpec,
      (ValidateSearchHeadSpec d (ValidateSearchHeadSpec d spec).1).1.Replicas =
        (ValidateSearchHeadSpec d spec).1.Replicas ∧
      (ValidateSearchHeadSpec d (ValidateSearchHeadSpec d spec).1).1.CommonSplunkSpec.Volumes =
        (ValidateSearchHeadSpec d spec).1.CommonSplunkSpec.Volumes) ∧
    (∀ spec : IndexerSpec,
      (ValidateIndexerSpec d (ValidateIndexerSpec d spec).1).1.Replicas =
        (ValidateIndexerSpec d spec).1.Replicas ∧
      (ValidateIndexerSpec d (ValidateIndexerSpec d spec).1).1.CommonSplunkSpec.Volumes =
        (ValidateIndexerSpec d spec).1.CommonSplunkSpec.Volumes) ∧
    (∀ spec : StandaloneSpec,
      (ValidateStandaloneSpec d (ValidateStandaloneSpec d spec).1).1.Replicas =
        (ValidateStandaloneSpec d spec).1.Replicas ∧
      (ValidateStandaloneSpec d (ValidateStandaloneSpec d spec).1).1.CommonSplunkSpec.Volumes =
        (ValidateStandaloneSpec d spec).1.CommonSplunkSpec.Volumes) := by
  refine ⟨?_, ?_, ?_, ?_⟩
  · intro spec h1 h2
    obtain ⟨fT, fE, fS, fV⟩ := ValidateSplunkEnterpriseSpec_fields d spec h1 h2
    have hSH : (ValidateSplunkEnterpriseSpec d spec).1.Topology.SearchHeads =
        spec.Topology.SearchHeads := by rw [fT]
    have hIdx : (ValidateSplunkEnterpriseSpec d spec).1.Topology.Indexers =
        spec.Topology.Indexers := by rw [fT]
    have h1' : ¬ ((ValidateSplunkEnterpriseSpec d spec).1.Topology.SearchHeads > 0 ∧
        (ValidateSplunkEnterpriseSpec d spec).1.Topology.Indexers ≤ 0) := by
      rw [hSH, hIdx]; exact h1
    have h2' : ¬ ((ValidateSplunkEnterpriseSpec d spec).1.Topology.SearchHeads ≤ 0 ∧
        (ValidateSplunkEnterpriseSpec d spec).1.Topology.Indexers > 0) := by
      rw [hSH, hIdx]; exact h2
    obtain ⟨gT, _, gS, gV⟩ := ValidateSplunkEnterpriseSpec_fields d
      (ValidateSplunkEnterpriseSpec d spec).1 h1' h2'
    refine ⟨h1', h2', ?_, ?_, ?_⟩
    · rw [gT, fE, fT]
      simp only
      by_cases c1 : spec.Topology.SearchHeads ≤ 0 ∧ spec.Topology.Indexers ≤ 0 ∧
          spec.Topology.Standalones ≤ 0 <;>
        by_cases c2 : spec.EnableDFS = true ∧ spec.Topology.SparkWorkers ≤ 0 <;>
        simp [c1, c2]
    · rw [gS, fS]
      split_ifs <;> simp_all
    · rw [gV, fV]
      rfl
  · intro spec
    obtain ⟨fR, fV⟩ := ValidateSearchHeadSpec_fields d spec
    obtain ⟨gR, gV⟩ := ValidateSearchHeadSpec_fields d (ValidateSearchHeadSpec d spec).1
    refine ⟨?_, ?_⟩
    · rw [gR, fR]
      split_ifs <;> omega
    · rw [gV, fV]
      rfl
  · intro spec
    obtain ⟨fR, fV⟩ := ValidateIndexerSpec_fields d spec
    obtain ⟨gR, gV⟩ := ValidateIndexerSpec_fields d (ValidateIndexerSpec d spec).1
    refine ⟨?_, ?_⟩
    · rw [gR, fR]
      split_ifs <;> omega
    · rw [gV, fV]
      rfl
  · intro spec
    obtain ⟨fR, fV⟩ := ValidateStandaloneSpec_fields d spec
    obtain ⟨gR, gV⟩ := ValidateStandaloneSpec_fields d (ValidateStandaloneSpec d spec).1
    refine ⟨?_, ?_⟩
    · rw [gR, fR]
      split_ifs <;> omega
    · rw [gV, fV]
      rfl

/-- C32, on the empty topology: the first run sets one standalone and the default
scheduler, and the second run changes none of the defaulted fields. -/
theorem validation_idempotent_witness :
    ¬ (sampleEmptyTopology.Topology.SearchHeads > 0 ∧ sampleEmptyTopology.Topology.Indexers ≤ 0) ∧
    ¬ (sampleEmptyTopology.Topology.SearchHeads ≤ 0 ∧ sampleEmptyTopology.Topology.Indexers > 0) ∧
    (ValidateSplunkEnterpriseSpec sampleDeps sampleEmptyTopology).1.Topology.Standalones = 1 ∧
    (ValidateSplunkEnterpriseSpec sampleDeps sampleEmptyTopology).1.SchedulerName =
      "default-scheduler" ∧
    (ValidateSplunkEnterpriseSpec sampleDeps
        (ValidateSplunkEnterpriseSpec sampleDeps sampleEmptyTopology).1).1.Topology =
      (ValidateSplunkEnterpriseSpec sampleDeps sampleEmptyTopology).1.Topology ∧
    (ValidateSplunkEnterpriseSpec sampleDeps
        (ValidateSplunkEnterpriseSpec sampleDeps sampleEmptyTopology).1).1.SchedulerName =
      (ValidateSplunkEnterpriseSpec sampleDeps sampleEmptyTopology).1.SchedulerName :=
  ⟨by decide, by decide, by decide, by decide,
   ((validation_idempotent sampleDeps).1 sampleEmptyTopology (by decide) (by decide)).2.2.1,
   ((validation_idempotent sampleDeps).1 sampleEmptyTopology (by decide) (by decide)).2.2.2.1⟩


/-! ## Service and stateful set -/

theorem getSplunkStatefulSet_Selector (d : Deps) (cr : MetaObject) (spec : CommonSplunkSpec)
    (instanceType : InstanceType) (replicas : Int) (extraEnv : List EnvVar) (ss : StatefulSet)
    (h : getSplunkStatefulSet d cr spec instanceType replicas extraEnv = .ok ss) :
    ss.Spec.MatchLabels = d.GetLabels cr.Identifier (d.ToString instanceType) true ∧
    ss.Spec.ServiceName = d.GetSplunkServiceName instanceType cr.Identifier true := by
  unfold getSplunkStatefulSet at h
  simp only at h
  split at h
  · exact absurd h (by simp)
  · injection h with h
    subst h
    exact ⟨rfl, rfl⟩

theorem GetSplunkService_Selector (d : Deps) (cr : MetaObject) (spec : CommonSpec)
    (instanceType : InstanceType) (isHeadless : Bool) :
    (GetSplunkService d cr spec instanceType isHeadless).Spec.Selector =
      d.GetLabels cr.Identifier (d.ToString instanceType) true ∧
    (GetSplunkService d cr spec instanceType isHeadless).ObjectMeta.Name =
      d.GetSplunkServiceName instanceType cr.Identifier isHeadless := by
  unfold GetSplunkService
  cases isHeadless <;> simp only [Bool.false_eq_true, if_false, if_true] <;> split_ifs <;>
    exact ⟨rfl, rfl⟩

/-- C34: the service and the stateful set synthesized for one instance are linked.
For every parent, specs and instance type, the selector of the service of
`GetSplunkService`, headless or not, equals the match labels of the selector of the
stateful set of `getSplunkStatefulSet`, and the service name of the stateful set is
the name of the headless service. Both are determined by the identifier of the
parent and the instance type alone: they are the same for any other parent with the
same identifier, whatever its labels, and for any service template. -/
theorem service_and_stateful_set_linked (d : Deps) (cr : MetaObject)
    (instanceType : InstanceType) (spec : CommonSplunkSpec) (replicas : Int)
    (extraEnv : List EnvVar) (ss : StatefulSet)
    (h : getSplunkStatefulSet d cr spec instanceType replicas extraEnv = .ok ss) :
    (∀ (template : CommonSpec) (isHeadless : Bool),
      (GetSplunkService d cr template instanceType isHeadless).Spec.Selector =
        ss.Spec.MatchLabels) ∧
    (∀ template : CommonSpec,
      ss.Spec.ServiceName =
        (GetSplunkService d cr template instanceType true).ObjectMeta.Name) ∧
    (∀ (cr2 : MetaObject) (template : CommonSpec) (isHeadless : Bool),
      cr2.Identifier = cr.Identifier →
      (GetSplunkService d cr2 template instanceType isHeadless).Spec.Selector =
        ss.Spec.MatchLabels ∧
      (GetSplunkService d cr2 template instanceType true).ObjectMeta.Name =
        ss.Spec.ServiceName) := by
  obtain ⟨hm, hn⟩ := getSplunkStatefulSet_Selector d cr spec instanceType replicas extraEnv ss h
  refine ⟨?_, ?_, ?_⟩
  · intro template isHeadless
    rw [(GetSplunkService_Selector d cr template instanceType isHeadless).1, hm]
  · intro template
    rw [(GetSplunkService_Selector d cr template instanceType true).2, hn]
  · intro cr2 template isHeadless hid
    rw [(GetSplunkService_Selector d cr2 template instanceType isHeadless).1,
      (GetSplunkService_Selector d cr2 template instanceType true).2, hm, hn, hid]
    exact ⟨rfl, rfl⟩

/-- C34, on the indexer stateful set of the parent `s1` against the services of the
same parent carrying labels of its own, built from a service template with a
selector of its own. -/
theorem service_and_stateful_set_linked_witness :
    ∃ ss, getSplunkStatefulSet sampleDeps sampleCR {} .SplunkIndexer 3 [] = .ok ss ∧
      sampleLabelledCR.Identifier = sampleCR.Identifier ∧
      (GetSplunkService sampleDeps sampleLabelledCR sampleServiceTemplate .SplunkIndexer
        false).Spec.Selector = ss.Spec.MatchLabels ∧
      (GetSplunkService sampleDeps sampleLabelledCR sampleServiceTemplate .SplunkIndexer
        true).ObjectMeta.Name = ss.Spec.ServiceName :=
  ⟨_, rfl, rfl,
   (service_and_stateful_set_linked sampleDeps sampleCR .SplunkIndexer {} 3 [] _ rfl).2.2
     sampleLabelledCR sampleServiceTemplate false rfl⟩


/-! ## Names of the environment -/

/-- Whichever optional variables are present, with any of the four extra
environments of the constructors and with or without the Spark variables, no name
occurs twice. -/
theorem envNamesOf_nodup (licenseURI licenseMaster clusterMaster : Bool) :
    ∀ extraNames ∈ ([[], ["SPLUNK_INDEXER_URL"],
        ["SPLUNK_SEARCH_HEAD_URL", "SPLUNK_SEARCH_HEAD_CAPTAIN_URL"],
        ["SPLUNK_SEARCH_HEAD_URL", "SPLUNK_SEARCH_HEAD_CAPTAIN_URL", "SPLUNK_DEPLOYER_URL"]] :
        List (List String)),
      ∀ tail ∈ ([[], dfsEnvNames] : List (List String)),
        (envNamesOf licenseURI licenseMaster clusterMaster extraNames tail).Nodup := by
  cases licenseURI <;> cases licenseMaster <;> cases clusterMaster <;> decide


/-! ## Volumes and mounts -/

theorem updateSplunkPodTemplateWithConfig_Volumes (d : Deps) (p : PodTemplateSpec) (cr : MetaObject)
    (spec : CommonSplunkSpec) (instanceType : InstanceType) (extraEnv : List EnvVar) :
    (updateSplunkPodTemplateWithConfig d p cr spec instanceType extraEnv).Spec.Volumes =
      p.Spec.Volumes ++ addedVolumes d cr spec instanceType := by
  unfold updateSplunkPodTemplateWithConfig addedVolumes
  cases hv : spec.Volumes <;> by_cases hd : spec.Defaults = "" <;>
    simp [hd, addSplunkVolumeToTemplate]

theorem updateSplunkPodTemplateWithConfig_VolumeMounts (d : Deps) (p : PodTemplateSpec)
    (cr : MetaObject) (spec : CommonSplunkSpec) (instanceType : InstanceType)
    (extraEnv : List EnvVar) :
    (updateSplunkPodTemplateWithConfig d p cr spec instanceType extraEnv).Spec.Containers.map
        (fun c => c.VolumeMounts) =
      p.Spec.Containers.map (fun c => c.VolumeMounts ++ addedMounts spec) := by
  unfold updateSplunkPodTemplateWithConfig addedMounts
  cases hv : spec.Volumes <;> by_cases hd : spec.Defaults = "" <;>
    simp [hd, addSplunkVolumeToTemplate, List.map_map, Function.comp]

theorem updateSplunkPodTemplateWithConfig_InitContainers (d : Deps) (p : PodTemplateSpec)
    (cr : MetaObject) (spec : CommonSplunkSpec) (instanceType : InstanceType)
    (extraEnv : List EnvVar) :
    (updateSplunkPodTemplateWithConfig d p cr spec instanceType extraEnv).Spec.InitContainers =
      p.Spec.InitContainers := by
  unfold updateSplunkPodTemplateWithConfig
  cases hv : spec.Volumes <;> by_cases hd : spec.Defaults = "" <;>
    simp [hd, addSplunkVolumeToTemplate]

theorem addedMounts_names (d : Deps) (cr : MetaObject) (spec : CommonSplunkSpec)
    (instanceType : InstanceType) :
    (addedMounts spec).map (fun m => m.Name) =
      (addedVolumes d cr spec instanceType).map (fun v => v.Name) := by
  unfold addedMounts addedVolumes
  by_cases hd : spec.Defaults = "" <;> simp [hd, List.map_map, Function.comp]

/-- A pod template keeps its mounts backed when volumes are appended to it, mounts
with the names of these volumes are appended to its containers, and init containers
mounting these volumes are appended. -/
theorem mountsBacked_extend (p q : PodTemplateSpec) (claimNames : List String)
    (addedV : List Volume) (addedM : List VolumeMount) (newInit : List Container)
    (hV : q.Spec.Volumes = p.Spec.Volumes ++ addedV)
    (hM : q.Spec.Containers.map (fun c => c.VolumeMounts) =
      p.Spec.Containers.map (fun c => c.VolumeMounts ++ addedM))
    (hI : q.Spec.InitContainers = p.Spec.InitContainers ++ newInit)
    (hnames : ∀ m ∈ addedM, m.Name ∈ addedV.map (fun v => v.Name))
    (hinit : ∀ c ∈ newInit, ∀ m ∈ c.VolumeMounts, m.Name ∈ addedV.map (fun v => v.Name))
    (hp : mountsBacked p claimNames) : mountsBacked q claimNames := by
  intro c hc m hm
  rw [hV, List.map_append, List.mem_append]
  have old : ∀ c0 ∈ p.Spec.Containers ++ p.Spec.InitContainers, m ∈ c0.VolumeMounts →
      (m.Name ∈ p.Spec.Volumes.map (fun v => v.Name) ∨
        m.Name ∈ addedV.map (fun v => v.Name)) ∨ m.Name ∈ claimNames := by
    intro c0 hc0 hm0
    rcases hp c0 hc0 m hm0 with h | h
    · exact Or.inl (Or.inl h)
    · exact Or.inr h
  rcases List.mem_append.mp hc with hc | hc
  · have hmem : c.VolumeMounts ∈ q.Spec.Containers.map (fun c => c.VolumeMounts) :=
      List.mem_map.mpr ⟨c, hc, rfl⟩
    rw [hM] at hmem
    obtain ⟨c0, hc0, he⟩ := List.mem_map.mp hmem
    rw [← he] at hm
    rcases List.mem_append.mp hm with hm | hm
    · exact old c0 (List.mem_append_left _ hc0) hm
    · exact Or.inl (Or.inr (hnames m hm))
  · rw [hI] at hc
    rcases List.mem_append.mp hc with hc | hc
    · exact old c (List.mem_append_right _ hc) hm
    · exact Or.inl (Or.inr (hinit c hc m hm))

theorem updateSplunkPodTemplateWithConfig_mountsBacked (d : Deps) (p : PodTemplateSpec)
    (cr : MetaObject) (spec : CommonSplunkSpec) (instanceType : InstanceType)
    (extraEnv : List EnvVar) (claimNames : List String) (hp : mountsBacked p claimNames) :
    mountsBacked (updateSplunkPodTemplateWithConfig d p cr spec instanceType extraEnv)
      claimNames := by
  refine mountsBacked_extend p _ claimNames (addedVolumes d cr spec instanceType)
    (addedMounts spec) []
    (updateSplunkPodTemplateWithConfig_Volumes d p cr spec instanceType extraEnv)
    (updateSplunkPodTemplateWithConfig_VolumeMounts d p cr spec instanceType extraEnv)
    ?_ ?_ ?_ hp
  · rw [updateSplunkPodTemplateWithConfig_InitContainers, List.append_nil]
  · intro m hm
    rw [← addedMounts_names d cr spec instanceType]
    exact List.mem_map.mpr ⟨m, hm, rfl⟩
  · intro c hc
    exact absurd hc (List.not_mem_nil c)

theorem addDFCToPodTemplate_mountsBacked (d : Deps) (p : PodTemplateSpec)
    (sparkRef : ObjectReference) (sparkImage imagePullPolicy : String) (slotsEnabled : Bool)
    (claimNames : List String) (hp : mountsBacked p claimNames) :
    mountsBacked (addDFCToPodTemplate d p sparkRef sparkImage imagePullPolicy slotsEnabled).1
      claimNames := by
  refine mountsBacked_extend p _ claimNames
    [{ Name := "mnt-splunk-jdk", VolumeSource := .EmptyDir },
     { Name := "mnt-splunk-spark", VolumeSource := .EmptyDir }]
    [{ Name := "mnt-splunk-jdk", MountPath := "/mnt/splunk-jdk" },
     { Name := "mnt-splunk-spark", MountPath := "/mnt/splunk-spark" }]
    [{ Image := sparkImage,
       ImagePullPolicy := imagePullPolicy,
       Name := "init",
       Command := ["bash", "-c", "cp -r /opt/jdk /mnt && cp -r /opt/spark /mnt"],
       VolumeMounts := [ { Name := "mnt-splunk-jdk", MountPath := "/mnt/jdk" },
                         { Name := "mnt-splunk-spark", MountPath := "/mnt/spark" } ],
       Resources := { Requests := [("cpu", MustParse "0.25"), ("memory", MustParse "128Mi")],
                      Limits := [("cpu", MustParse "1"), ("memory", MustParse "512Mi")] } }]
    ?_ ?_ ?_ ?_ ?_ hp
  · simp [addDFCToPodTemplate, addSplunkVolumeToTemplate]
  · simp [addDFCToPodTemplate, addSplunkVolumeToTemplate, List.map_map, Function.comp]
  · simp [addDFCToPodTemplate, addSplunkVolumeToTemplate]
  · intro m hm
    simp only [List.mem_cons, List.mem_singleton, List.not_mem_nil, or_false] at hm
    rcases hm with rfl | rfl <;> simp
  · intro c hc m hm
    simp only [List.mem_singleton] at hc
    subst hc
    simp only [List.mem_cons, List.mem_singleton, List.not_mem_nil, or_false] at hm
    rcases hm with rfl | rfl <;> simp

theorem initialTemplate_mountsBacked (d : Deps) (cr : MetaObject) (spec : CommonSplunkSpec)
    (instanceType : InstanceType) :
    mountsBacked (initialTemplate d cr spec instanceType) ["pvc-etc", "pvc-var"] := by
  intro c hc m hm
  simp only [initialTemplate, List.append_nil, List.mem_singleton] at hc
  subst hc
  simp only [getSplunkVolumeMounts, List.mem_cons, List.mem_singleton, List.not_mem_nil,
    or_false] at hm
  rcases hm with rfl | rfl <;> simp

/-- The pod template and the claim names of a stateful set built by
`getSplunkStatefulSet`. -/
theorem getSplunkStatefulSet_Template (d : Deps) (cr : MetaObject) (spec : CommonSplunkSpec)
    (instanceType : InstanceType) (replicas : Int) (extraEnv : List EnvVar) (ss : StatefulSet)
    (h : getSplunkStatefulSet d cr spec instanceType replicas extraEnv = .ok ss) :
    ss.Spec.Template =
        updateSplunkPodTemplateWithConfig d (initialTemplate d cr spec instanceType) cr spec
          instanceType extraEnv ∧
      ss.Spec.VolumeClaimTemplates.map (fun vc => vc.ObjectMeta.Name) =
        ["pvc-etc", "pvc-var"] := by
  unfold getSplunkStatefulSet at h
  simp only at h
  split at h
  · exact absurd h (by simp)
  · rename_i claims hc
    injection h with h
    subst h
    refine ⟨rfl, ?_⟩
    cases h1 : d.ParseResourceQuantity spec.EtcStorage "1Gi" with
    | error e1 =>
      rw [getSplunkVolumeClaims_etc_error d cr spec _ e1 h1] at hc
      exact absurd hc (by simp)
    | ok etc =>
      cases h2 : d.ParseResourceQuantity spec.VarStorage "200Gi" with
      | error e2 =>
        rw [getSplunkVolumeClaims_var_error d cr spec _ etc e2 h1 h2] at hc
        exact absurd hc (by simp)
      | ok var =>
        rw [getSplunkVolumeClaims_ok d cr spec _ etc var h1 h2] at hc
        injection hc with hc
        subst hc
        rfl

theorem getSplunkStatefulSet_volumeMountsBacked (d : Deps) (cr : MetaObject)
    (spec : CommonSplunkSpec) (instanceType : InstanceType) (replicas : Int)
    (extraEnv : List EnvVar) (ss : StatefulSet)
    (h : getSplunkStatefulSet d cr spec instanceType replicas extraEnv = .ok ss) :
    volumeMountsBacked ss := by
  obtain ⟨ht, hc⟩ := getSplunkStatefulSet_Template d cr spec instanceType replicas extraEnv ss h
  show mountsBacked ss.Spec.Template (ss.Spec.VolumeClaimTemplates.map fun vc => vc.ObjectMeta.Name)
  rw [ht, hc]
  exact updateSplunkPodTemplateWithConfig_mountsBacked d _ cr spec instanceType extraEnv _
    (initialTemplate_mountsBacked d cr spec instanceType)

/-- A stateful set of `GetStandaloneStatefulSet` is that of `getSplunkStatefulSet`,
with `addDFCToPodTemplate` applied to its pod template when a Spark cluster is
referred to. -/
theorem GetStandaloneStatefulSet_cases (d : Deps) (cr : Standalone) (ss : StatefulSet)
    (hs : GetStandaloneStatefulSet d cr = .ok ss) :
    ∃ ss0, getSplunkStatefulSet d cr.Meta cr.Spec.CommonSplunkSpec .SplunkStandalone
        cr.Spec.Replicas [] = .ok ss0 ∧
      ((cr.Spec.SparkRef.Name = "" ∧ ss = ss0) ∨
       (cr.Spec.SparkRef.Name ≠ "" ∧
        ss = { ss0 with Spec := { ss0.Spec with Template :=
          (addDFCToPodTemplate d ss0.Spec.Template cr.Spec.SparkRef cr.Spec.SparkImage
            cr.Spec.CommonSplunkSpec.CommonSpec.ImagePullPolicy
            (decide (cr.Spec.Replicas > 1))).1 } })) := by
  by_cases h : cr.Spec.SparkRef.Name = ""
  · rw [GetStandaloneStatefulSet_plain d cr h] at hs
    exact ⟨ss, hs, Or.inl ⟨h, rfl⟩⟩
  · cases h0 : getSplunkStatefulSet d cr.Meta cr.Spec.CommonSplunkSpec .SplunkStandalone
        cr.Spec.Replicas [] with
    | error err =>
      have he : GetStandaloneStatefulSet d cr = .error err := by
        unfold GetStandaloneStatefulSet
        rw [h0]
      rw [he] at hs
      exact absurd hs (by simp)
    | ok ss0 =>
      rw [GetStandaloneStatefulSet_applies d cr h ss0 h0] at hs
      injection hs with hs
      exact ⟨ss0, rfl, Or.inr ⟨h, hs.symm⟩⟩

/-- A stateful set of `GetSearchHeadStatefulSet` is that of `getSplunkStatefulSet`,
with `addDFCToPodTemplate` applied to its pod template when a Spark cluster is
referred to. -/
theorem GetSearchHeadStatefulSet_cases (d : Deps) (cr : SearchHead) (ss : StatefulSet)
    (hs : GetSearchHeadStatefulSet d cr = .ok ss) :
    ∃ ss0, getSplunkStatefulSet d cr.Meta cr.Spec.CommonSplunkSpec .SplunkSearchHead
        cr.Spec.Replicas (searchHeadEnv d cr) = .ok ss0 ∧
      ((cr.Spec.SparkRef.Name = "" ∧ ss = ss0) ∨
       (cr.Spec.SparkRef.Name ≠ "" ∧
        ss = { ss0 with Spec := { ss0.Spec with Template :=
          (addDFCToPodTemplate d ss0.Spec.Template cr.Spec.SparkRef cr.Spec.SparkImage
            cr.Spec.CommonSplunkSpec.CommonSpec.ImagePullPolicy
            (decide (cr.Spec.Replicas > 1))).1 } })) := by
  by_cases h : cr.Spec.SparkRef.Name = ""
  · rw [GetSearchHeadStatefulSet_plain d cr h] at hs
    exact ⟨ss, hs, Or.inl ⟨h, rfl⟩⟩
  · cases h0 : getSplunkStatefulSet d cr.Meta cr.Spec.CommonSplunkSpec .SplunkSearchHead
        cr.Spec.Replicas (searchHeadEnv d cr) with
    | error err =>
      have he : GetSearchHeadStatefulSet d cr = .error err := by
        unfold GetSearchHeadStatefulSet
        simp only
        unfold searchHeadEnv at h0
        rw [h0]
      rw [he] at hs
      exact absurd hs (by simp)
    | ok ss0 =>
      rw [GetSearchHeadStatefulSet_applies d cr h ss0 h0] at hs
      injection hs with hs
      exact ⟨ss0, rfl, Or.inr ⟨h, hs.symm⟩⟩

theorem GetStandaloneStatefulSet_volumeMountsBacked (d : Deps) (cr : Standalone)
    (ss : StatefulSet) (hs : GetStandaloneStatefulSet d cr = .ok ss) :
    volumeMountsBacked ss := by
  obtain ⟨ss0, h0, h | h⟩ := GetStandaloneStatefulSet_cases d cr ss hs
  · rw [h.2]
    exact getSplunkStatefulSet_volumeMountsBacked _ _ _ _ _ _ _ h0
  · rw [h.2]
    exact addDFCToPodTemplate_mountsBacked d ss0.Spec.Template _ _ _ _ _
      (getSplunkStatefulSet_volumeMountsBacked _ _ _ _ _ _ _ h0)

theorem GetSearchHeadStatefulSet_volumeMountsBacked (d : Deps) (cr : SearchHead)
    (ss : StatefulSet) (hs : GetSearchHeadStatefulSet d cr = .ok ss) :
    volumeMountsBacked ss := by
  obtain ⟨ss0, h0, h | h⟩ := GetSearchHeadStatefulSet_cases d cr ss hs
  · rw [h.2]
    exact getSplunkStatefulSet_volumeMountsBacked _ _ _ _ _ _ _ h0
  · rw [h.2]
    exact addDFCToPodTemplate_mountsBacked d ss0.Spec.Template _ _ _ _ _
      (getSplunkStatefulSet_volumeMountsBacked _ _ _ _ _ _ _ h0)

/-- C33: every volume mount is backed by a declared volume. In every stateful set
returned by `GetStandaloneStatefulSet`, `GetSearchHeadStatefulSet`,
`GetIndexerStatefulSet`, `GetClusterMasterStatefulSet`, `GetDeployerStatefulSet` or
`GetLicenseMasterStatefulSet`, whatever the custom volumes, the inline defaults and
the Spark reference of the resource, the name of every volume mount of every
container and init container is the name of an entry of the pod's `Spec.Volumes` or
of `Spec.VolumeClaimTemplates`. -/
theorem volume_mounts_backed (d : Deps) :
    (∀ (cr : Standalone) (ss : StatefulSet),
      GetStandaloneStatefulSet d cr = .ok ss → volumeMountsBacked ss) ∧
    (∀ (cr : SearchHead) (ss : StatefulSet),
      GetSearchHeadStatefulSet d cr = .ok ss → volumeMountsBacked ss) ∧
    (∀ (cr : Indexer) (ss : StatefulSet),
      GetIndexerStatefulSet d cr = .ok ss → volumeMountsBacked ss) ∧
    (∀ (cr : Indexer) (ss : StatefulSet),
      GetClusterMasterStatefulSet d cr = .ok ss → volumeMountsBacked ss) ∧
    (∀ (cr : SearchHead) (ss : StatefulSet),
      GetDeployerStatefulSet d cr = .ok ss → volumeMountsBacked ss) ∧
    (∀ (cr : LicenseMaster) (ss : StatefulSet),
      GetLicenseMasterStatefulSet d cr = .ok ss → volumeMountsBacked ss) :=
  ⟨GetStandaloneStatefulSet_volumeMountsBacked d,
   GetSearchHeadStatefulSet_volumeMountsBacked d,
   fun _ _ h => getSplunkStatefulSet_volumeMountsBacked _ _ _ _ _ _ _ h,
   fun _ _ h => getSplunkStatefulSet_volumeMountsBacked _ _ _ _ _ _ _ h,
   fun _ _ h => getSplunkStatefulSet_volumeMountsBacked _ _ _ _ _ _ _ h,
   fun _ _ h => getSplunkStatefulSet_volumeMountsBacked _ _ _ _ _ _ _ h⟩

/-- The standalone resource with a custom volume, inline defaults and a Spark
cluster: the application container has seven mounts, the init container two, and
all of them are backed by the five pod volumes and the two claim templates. -/
theorem volume_mounts_backed_witness :
    ∃ ss, GetStandaloneStatefulSet sampleDeps sampleStandaloneVolumes = .ok ss ∧
      ss.Spec.Template.Spec.Containers.map
          (fun c => c.VolumeMounts.map fun m => m.Name) =
        [["pvc-etc", "pvc-var", "scratch", "mnt-splunk-secrets", "mnt-splunk-defaults",
          "mnt-splunk-jdk", "mnt-splunk-spark"]] ∧
      ss.Spec.Template.Spec.InitContainers.map
          (fun c => c.VolumeMounts.map fun m => m.Name) =
        [["mnt-splunk-jdk", "mnt-splunk-spark"]] ∧
      ss.Spec.Template.Spec.Volumes.map (fun v => v.Name) =
        ["scratch", "mnt-splunk-secrets", "mnt-splunk-defaults", "mnt-splunk-jdk",
         "mnt-splunk-spark"] ∧
      ss.Spec.VolumeClaimTemplates.map (fun vc => vc.ObjectMeta.Name) =
        ["pvc-etc", "pvc-var"] ∧
      volumeMountsBacked ss :=
  ⟨_, rfl, rfl, rfl, rfl, rfl,
   (volume_mounts_backed sampleDeps).1 sampleStandaloneVolumes _ rfl⟩


/-! ## Distinct names in the environment -/

/-- The names of the environment of `updateSplunkPodTemplateWithConfig`, with any
variables appended to it afterwards. -/
theorem envNames_splunkEnv (d : Deps) (cr : MetaObject) (spec : CommonSplunkSpec)
    (instanceType : InstanceType) (extraEnv tailEnv : List EnvVar) :
    envNames (splunkEnv d cr spec instanceType extraEnv ++ tailEnv) =
      envNamesOf (decide (spec.LicenseURL ≠ ""))
        (decide (instanceType ≠ .SplunkLicenseMaster ∧ licenseMasterURL d spec ≠ ""))
        (decide (clusterMasterURL d cr spec instanceType ≠ ""))
        (envNames extraEnv) (envNames tailEnv) := by
  rw [splunkEnv_eq]
  unfold envNames envNamesOf
  simp only [decide_eq_true_eq, List.map_append]
  split_ifs <;> rfl

theorem getSplunkStatefulSet_InitContainers (d : Deps) (cr : MetaObject)
    (spec : CommonSplunkSpec) (instanceType : InstanceType) (replicas : Int)
    (extraEnv : List EnvVar) (ss : StatefulSet)
    (h : getSplunkStatefulSet d cr spec instanceType replicas extraEnv = .ok ss) :
    ss.Spec.Template.Spec.InitContainers = [] := by
  rw [(getSplunkStatefulSet_Template d cr spec instanceType replicas extraEnv ss h).1,
    updateSplunkPodTemplateWithConfig_InitContainers]
  rfl

theorem addDFCToPodTemplate_InitContainers_Env (d : Deps) (p : PodTemplateSpec)
    (sparkRef : ObjectReference) (sparkImage imagePullPolicy : String) (slotsEnabled : Bool)
    (hp : ∀ c ∈ p.Spec.InitContainers, c.Env = []) :
    ∀ c ∈ (addDFCToPodTemplate d p sparkRef sparkImage imagePullPolicy
      slotsEnabled).1.Spec.InitContainers, c.Env = [] := by
  intro c hc
  simp only [addDFCToPodTemplate, addSplunkVolumeToTemplate, List.mem_append,
    List.mem_singleton] at hc
  rcases hc with hc | hc
  · exact hp c hc
  · rw [hc]

/-- The names are distinct in a stateful set whose application containers have the
environment of `updateSplunkPodTemplateWithConfig`, with one of the extra
environments of the constructors, followed by the Spark variables or by nothing,
and whose init containers have no environment. -/
theorem envNamesDistinct_of (d : Deps) (cr : MetaObject) (spec : CommonSplunkSpec)
    (instanceType : InstanceType) (extraEnv tailEnv : List EnvVar) (ss : StatefulSet)
    (hc : containerEnvs ss = [splunkEnv d cr spec instanceType extraEnv ++ tailEnv])
    (hi : ∀ c ∈ ss.Spec.Template.Spec.InitContainers, c.Env = [])
    (hx : envNames extraEnv ∈ ([[], ["SPLUNK_INDEXER_URL"],
        ["SPLUNK_SEARCH_HEAD_URL", "SPLUNK_SEARCH_HEAD_CAPTAIN_URL"],
        ["SPLUNK_SEARCH_HEAD_URL", "SPLUNK_SEARCH_HEAD_CAPTAIN_URL", "SPLUNK_DEPLOYER_URL"]] :
        List (List String)))
    (ht : envNames tailEnv ∈ ([[], dfsEnvNames] : List (List String))) :
    envNamesDistinct ss := by
  intro c hm
  rcases List.mem_append.mp hm with hm | hm
  · rw [mem_containerEnvs ss _ hc c hm, envNames_splunkEnv]
    exact envNamesOf_nodup _ _ _ _ hx _ ht
  · rw [hi c hm]
    exact List.nodup_nil

theorem getSplunkStatefulSet_envNamesDistinct (d : Deps) (cr : MetaObject)
    (spec : CommonSplunkSpec) (instanceType : InstanceType) (replicas : Int)
    (extraEnv : List EnvVar) (ss : StatefulSet)
    (h : getSplunkStatefulSet d cr spec instanceType replicas extraEnv = .ok ss)
    (hx : envNames extraEnv ∈ ([[], ["SPLUNK_INDEXER_URL"],
        ["SPLUNK_SEARCH_HEAD_URL", "SPLUNK_SEARCH_HEAD_CAPTAIN_URL"],
        ["SPLUNK_SEARCH_HEAD_URL", "SPLUNK_SEARCH_HEAD_CAPTAIN_URL", "SPLUNK_DEPLOYER_URL"]] :
        List (List String))) :
    envNamesDistinct ss := by
  refine envNamesDistinct_of d cr spec instanceType extraEnv [] ss ?_ ?_ hx (by decide)
  · rw [List.append_nil]
    exact getSplunkStatefulSet_Env d cr spec instanceType replicas extraEnv ss h
  · intro c hc
    rw [getSplunkStatefulSet_InitContainers d cr spec instanceType replicas extraEnv ss h] at hc
    exact absurd hc (List.not_mem_nil c)

/-- The same with `addDFCToPodTemplate` applied to the pod template. -/
theorem addDFCToPodTemplate_envNamesDistinct (d : Deps) (cr : MetaObject)
    (spec : CommonSplunkSpec) (instanceType : InstanceType) (replicas : Int)
    (extraEnv : List EnvVar) (ss0 : StatefulSet)
    (sparkRef : ObjectReference) (sparkImage imagePullPolicy : String) (slotsEnabled : Bool)
    (h : getSplunkStatefulSet d cr spec instanceType replicas extraEnv = .ok ss0)
    (hx : envNames extraEnv ∈ ([[], ["SPLUNK_INDEXER_URL"],
        ["SPLUNK_SEARCH_HEAD_URL", "SPLUNK_SEARCH_HEAD_CAPTAIN_URL"],
        ["SPLUNK_SEARCH_HEAD_URL", "SPLUNK_SEARCH_HEAD_CAPTAIN_URL", "SPLUNK_DEPLOYER_URL"]] :
        List (List String))) :
    envNamesDistinct { ss0 with Spec := { ss0.Spec with Template :=
      (addDFCToPodTemplate d ss0.Spec.Template sparkRef sparkImage imagePullPolicy
        slotsEnabled).1 } } := by
  refine envNamesDistinct_of d cr spec instanceType extraEnv
    (dfsEnvVar (sparkMasterHost d sparkRef) slotsEnabled) _ ?_ ?_ hx ?_
  · have h1 := getSplunkStatefulSet_Env d cr spec instanceType replicas extraEnv ss0 h
    simp only [containerEnvs] at h1 ⊢
    rw [addDFCToPodTemplate_Env]
    exact map_env_append _ _ _ h1
  · refine addDFCToPodTemplate_InitContainers_Env d ss0.Spec.Template _ _ _ _ ?_
    intro c hc
    rw [getSplunkStatefulSet_InitContainers d cr spec instanceType replicas extraEnv ss0 h] at hc
    exact absurd hc (List.not_mem_nil c)
  · unfold envNames
    rw [dfsEnvVar_names]
    decide

theorem envNames_getIndexerExtraEnv (d : Deps) (cr : MetaObject) (replicas : Int) :
    envNames (getIndexerExtraEnv d cr replicas) = ["SPLUNK_INDEXER_URL"] := rfl

theorem envNames_getSearchHeadExtraEnv (d : Deps) (cr : MetaObject) (replicas : Int) :
    envNames (getSearchHeadExtraEnv d cr replicas) =
      ["SPLUNK_SEARCH_HEAD_URL", "SPLUNK_SEARCH_HEAD_CAPTAIN_URL"] := rfl

theorem envNames_searchHeadEnv (d : Deps) (cr : SearchHead) :
    envNames (searchHeadEnv d cr) =
      ["SPLUNK_SEARCH_HEAD_URL", "SPLUNK_SEARCH_HEAD_CAPTAIN_URL", "SPLUNK_DEPLOYER_URL"] := rfl

theorem GetStandaloneStatefulSet_envNamesDistinct (d : Deps) (cr : Standalone)
    (ss : StatefulSet) (hs : GetStandaloneStatefulSet d cr = .ok ss) :
    envNamesDistinct ss := by
  obtain ⟨ss0, h0, h | h⟩ := GetStandaloneStatefulSet_cases d cr ss hs
  · rw [h.2]
    exact getSplunkStatefulSet_envNamesDistinct _ _ _ _ _ _ _ h0 (by decide)
  · rw [h.2]
    exact addDFCToPodTemplate_envNamesDistinct _ _ _ _ _ _ _ _ _ _ _ h0 (by decide)

theorem GetSearchHeadStatefulSet_envNamesDistinct (d : Deps) (cr : SearchHead)
    (ss : StatefulSet) (hs : GetSearchHeadStatefulSet d cr = .ok ss) :
    envNamesDistinct ss := by
  obtain ⟨ss0, h0, h | h⟩ := GetSearchHeadStatefulSet_cases d cr ss hs
  · rw [h.2]
    exact getSplunkStatefulSet_envNamesDistinct _ _ _ _ _ _ _ h0
      (by rw [envNames_searchHeadEnv]; decide)
  · rw [h.2]
    exact addDFCToPodTemplate_envNamesDistinct _ _ _ _ _ _ _ _ _ _ _ h0
      (by rw [envNames_searchHeadEnv]; decide)

/-- C35: no environment variable is defined twice. For every resource, in the
stateful set returned by `GetStandaloneStatefulSet`, `GetSearchHeadStatefulSet`,
`GetIndexerStatefulSet`, `GetClusterMasterStatefulSet`, `GetDeployerStatefulSet` or
`GetLicenseMasterStatefulSet`, the names of the entries of the `Env` list of every
container and init container are pairwise distinct, whichever of the license URL,
the license-master URL, the cluster-master URL and the Spark variables are
present. -/
theorem env_names_distinct (d : Deps) :
    (∀ (cr : Standalone) (ss : StatefulSet),
      GetStandaloneStatefulSet d cr = .ok ss → envNamesDistinct ss) ∧
    (∀ (cr : SearchHead) (ss : StatefulSet),
      GetSearchHeadStatefulSet d cr = .ok ss → envNamesDistinct ss) ∧
    (∀ (cr : Indexer) (ss : StatefulSet),
      GetIndexerStatefulSet d cr = .ok ss → envNamesDistinct ss) ∧
    (∀ (cr : Indexer) (ss : StatefulSet),
      GetClusterMasterStatefulSet d cr = .ok ss → envNamesDistinct ss) ∧
    (∀ (cr : SearchHead) (ss : StatefulSet),
      GetDeployerStatefulSet d cr = .ok ss → envNamesDistinct ss) ∧
    (∀ (cr : LicenseMaster) (ss : StatefulSet),
      GetLicenseMasterStatefulSet d cr = .ok ss → envNamesDistinct ss) :=
  ⟨GetStandaloneStatefulSet_envNamesDistinct d,
   GetSearchHeadStatefulSet_envNamesDistinct d,
   fun _ _ h => getSplunkStatefulSet_envNamesDistinct _ _ _ _ _ _ _ h
     (by rw [envNames_getIndexerExtraEnv]; decide),
   fun _ _ h => getSplunkStatefulSet_envNamesDistinct _ _ _ _ _ _ _ h
     (by rw [envNames_getIndexerExtraEnv]; decide),
   fun _ _ h => getSplunkStatefulSet_envNamesDistinct _ _ _ _ _ _ _ h
     (by rw [envNames_getSearchHeadExtraEnv]; decide),
   fun _ _ h => getSplunkStatefulSet_envNamesDistinct _ _ _ _ _ _ _ h (by decide)⟩

/-- The standalone resource with a license URL, a license master, a cluster master
and a Spark cluster: the application container has thirteen variables, all with
different names. -/
theorem env_names_distinct_witness :
    ∃ ss, GetStandaloneStatefulSet sampleDeps sampleStandaloneFull = .ok ss ∧
      (containerEnvs ss).map envNames =
        [["SPLUNK_HOME", "SPLUNK_START_ARGS", "SPLUNK_DEFAULTS_URL",
          "SPLUNK_HOME_OWNERSHIP_ENFORCEMENT", "SPLUNK_ROLE", "SPLUNK_LICENSE_URI",
          "SPLUNK_LICENSE_MASTER_URL", "SPLUNK_CLUSTER_MASTER_URL", "SPLUNK_ENABLE_DFS",
          "SPARK_MASTER_HOST", "SPARK_MASTER_WEBUI_PORT", "SPARK_HOME", "JAVA_HOME",
          "SPLUNK_DFW_NUM_SLOTS_ENABLED"]] ∧
      envNamesDistinct ss :=
  ⟨_, rfl, rfl, (env_names_distinct sampleDeps).1 sampleStandaloneFull _ rfl⟩

end Splunk
